import Mathlib

/-!
# Kyma environment broker: evaluation monitor manager and Azure provider input

A shallow embedding of
* `internal/process/upgrade_kyma/evaluation_manager.go` (the evaluation monitor manager), and
* `internal/provider/azure_provider.go` (the Azure cluster-config factories),
followed by the properties established about them.

Conventions of the embedding
* a Go pointer is an `Option` (`none` is nil);
* a Go `error` is an `Option String` (`none` is nil);
* `time.Duration` is an `Int` (nanoseconds);
* a method of a stateful collaborator takes the state of that collaborator and returns the new one;
* logging is left out.
-/

namespace KEB

/-! ## Data model of the `internal` package -/

/-- Go's time.Duration, a signed number of nanoseconds. -/
abbrev Duration := Int

/-- Go's error value: `none` is nil, `some msg` an error with its message. -/
abbrev GoError := Option String

/-- Go's `[]string`: `none` is the nil slice. -/
abbrev StringSlice := Option (List String)

/-- Basic-auth pair of the service manager credentials (fields as used in `instance_update_test.go`). -/
structure ServiceManagerBasicAuth where
  Username : String
  Password : String
deriving DecidableEq, Repr

/-- Credentials block of the service manager entry. -/
structure ServiceManagerCredentials where
  BasicAuth : ServiceManagerBasicAuth
deriving DecidableEq, Repr

/-- Service manager entry of the ERS context. -/
structure ServiceManagerEntryDTO where
  Credentials : ServiceManagerCredentials
deriving DecidableEq, Repr

/-- ERS context attached to every broker request (fields as used in `instance_update_test.go`). -/
structure ERSContext where
  TenantID : String
  SubAccountID : String
  GlobalAccountID : String
  ServiceManager : Option ServiceManagerEntryDTO
  Active : Option Bool
deriving DecidableEq, Repr

/-- Modelled from the spec: the free-form parameters of a provisioning request (the declaration of
`internal.ProvisioningParametersDTO` is not among the sources); section 3 lists region, zones,
component list and name, and `azure_provider.go` reads `Region` as a `*string` and `Zones` as a slice. -/
structure ProvisioningParametersDTO where
  Name : String
  Region : Option String
  Zones : StringSlice
  OptionalComponentsToInstall : StringSlice
deriving DecidableEq, Repr

/-- Provisioning parameters (fields as in the literal of `event_hub_step_test.go`). -/
structure ProvisioningParameters where
  PlanID : String
  ServiceID : String
  ErsContext : ERSContext
  Parameters : ProvisioningParametersDTO
  PlatformRegion : String
deriving DecidableEq, Repr

/-- Modelled from the spec: one monitor entry of the Avs sub-state (the declaration of
`internal.AvsLifecycleData` is not among the sources). Section 3 gives each monitor an id whose
presence makes it valid, a previous status, a current status and a maintenance marker. -/
structure AvsMonitor where
  id : Option Nat
  previousStatus : String
  currentStatus : String
  maintenance : Bool
deriving DecidableEq, Repr

/-- Modelled from the spec: the Avs sub-state, two independent monitors (internal, external). -/
structure AvsLifecycleData where
  internalMonitor : AvsMonitor
  externalMonitor : AvsMonitor
deriving DecidableEq, Repr

/-- Event hub sub-state of the instance details (`event_hub_step_test.go`). -/
structure EventHub where
  Deleted : Bool
deriving DecidableEq, Repr

/-- Instance details carried by an operation. -/
structure InstanceDetails where
  EventHub : EventHub
  Avs : AvsLifecycleData
deriving DecidableEq, Repr

/-- Base operation record (fields as in the literals of the two test files; times are abstract ticks,
`State` is the broker's last-operation state string, empty when unset). -/
structure Operation where
  ID : String
  InstanceID : String
  ProvisionerOperationID : String
  Description : String
  State : String
  CreatedAt : Nat
  UpdatedAt : Nat
  ProvisioningParameters : ProvisioningParameters
  InstanceDetails : InstanceDetails
deriving DecidableEq, Repr

/-- Upgrade operation: embeds the base operation. -/
structure UpgradeKymaOperation where
  Operation : Operation
deriving DecidableEq, Repr

/-- Promoted field `operation.Avs` (through the embedded `Operation.InstanceDetails`). -/
def UpgradeKymaOperation.Avs (operation : UpgradeKymaOperation) : AvsLifecycleData :=
  operation.Operation.InstanceDetails.Avs

/-! ## The `avs` package, as far as the evaluation manager consumes it -/

/-- Modelled from the spec: the maintenance status constant `avs.StatusMaintenance`
(section 4.4: SetMaintenanceStatus is SetStatus with "MAINTENANCE"). -/
def StatusMaintenance : String := "MAINTENANCE"

/-- The two evaluation assistants handed to the delegator: `avs.InternalEvalAssistant` and
`avs.ExternalEvalAssistant`. -/
inductive EvalAssistant where
  | internalEval
  | externalEval
deriving DecidableEq, Repr

/-- The monitor entry an assistant addresses. -/
def EvalAssistant.monitor : EvalAssistant → AvsLifecycleData → AvsMonitor
  | .internalEval, lifecycleData => lifecycleData.internalMonitor
  | .externalEval, lifecycleData => lifecycleData.externalMonitor

/-- Modelled from the spec: `IsValid` of an assistant (the avs package is not among the sources);
section 3: presence of the id makes the monitor valid. -/
def EvalAssistant.IsValid (a : EvalAssistant) (lifecycleData : AvsLifecycleData) : Bool :=
  (a.monitor lifecycleData).id.isSome

/-- Modelled from the spec: `IsInMaintenance` of an assistant (the avs package is not among the
sources); it reads the maintenance marker of the addressed monitor. -/
def EvalAssistant.IsInMaintenance (a : EvalAssistant) (lifecycleData : AvsLifecycleData) : Bool :=
  (a.monitor lifecycleData).maintenance

/-- Current status of the monitor an assistant addresses. -/
def EvalAssistant.currentStatus (a : EvalAssistant) (lifecycleData : AvsLifecycleData) : String :=
  (a.monitor lifecycleData).currentStatus

/-- What a step-like call returns: `(operation, delay, err)`. -/
abbrev StepResult := UpgradeKymaOperation × Duration × GoError

/-- The delegator `*avs.Delegator`, an external collaborator taken as a parameter: any pair of
functions over any collaborator state `σ` (the monitoring service, the operation storage). -/
structure Delegator (σ : Type) where
  SetStatus : σ → UpgradeKymaOperation → EvalAssistant → String → StepResult × σ
  ResetStatus : σ → UpgradeKymaOperation → EvalAssistant → StepResult × σ

/-- One invocation of a delegator method, with its arguments. -/
inductive DelegatorCall where
  | SetStatus (operation : UpgradeKymaOperation) (evalAssistant : EvalAssistant) (status : String)
  | ResetStatus (operation : UpgradeKymaOperation) (evalAssistant : EvalAssistant)
deriving DecidableEq, Repr

/-- State threaded through a run of the manager: the collaborator state and the log of the
delegator invocations made so far, oldest first. -/
structure World (σ : Type) where
  state : σ
  calls : List DelegatorCall

/-- Invoke `delegator.SetStatus`, recording the invocation. -/
def Delegator.callSetStatus {σ : Type} (d : Delegator σ) (w : World σ)
    (operation : UpgradeKymaOperation) (a : EvalAssistant) (status : String) :
    StepResult × World σ :=
  let r := d.SetStatus w.state operation a status
  (r.1, { state := r.2, calls := w.calls ++ [DelegatorCall.SetStatus operation a status] })

/-- Invoke `delegator.ResetStatus`, recording the invocation. -/
def Delegator.callResetStatus {σ : Type} (d : Delegator σ) (w : World σ)
    (operation : UpgradeKymaOperation) (a : EvalAssistant) : StepResult × World σ :=
  let r := d.ResetStatus w.state operation a
  (r.1, { state := r.2, calls := w.calls ++ [DelegatorCall.ResetStatus operation a] })

/-! ## `evaluation_manager.go` -/

/-- The evaluation manager (the `avsConfig` field only feeds the assistants' constructors). -/
structure EvaluationManager (σ : Type) where
  delegator : Delegator σ
  internalAssistant : EvalAssistant
  externalAssistant : EvalAssistant

/-- Constructor `NewEvaluationManager`. -/
def NewEvaluationManager {σ : Type} (delegator : Delegator σ) : EvaluationManager σ :=
  { delegator := delegator
    internalAssistant := EvalAssistant.internalEval
    externalAssistant := EvalAssistant.externalEval }

/-- The test `delay != 0 || err != nil` of the source. -/
def delayOrError (r : StepResult) : Bool :=
  decide (r.2.1 ≠ 0) || r.2.2.isSome

/-- Method `EvaluationManager.SetStatus` (lines 30-55). -/
def EvaluationManager.SetStatus {σ : Type} (em : EvaluationManager σ) (status : String)
    (operation : UpgradeKymaOperation) (w : World σ) : StepResult × World σ :=
  let avsData := operation.Avs
  -- do external monitor status update (lines 44-54), reached from both branches below
  let externalUpdate := fun (operation : UpgradeKymaOperation) (w : World σ) =>
    if !em.externalAssistant.IsInMaintenance avsData then
      let r := em.delegator.callSetStatus w operation em.externalAssistant status
      if delayOrError r.1 then r
      else ((r.1.1, 0, none), r.2)
    else ((operation, 0, none), w)
  -- do internal monitor status update (lines 34-42)
  if !em.internalAssistant.IsInMaintenance avsData then
    let r := em.delegator.callSetStatus w operation em.internalAssistant status
    if delayOrError r.1 then r
    else externalUpdate r.1.1 r.2
  else externalUpdate operation w

/-- Method `EvaluationManager.RestoreStatus` (lines 60-85). -/
def EvaluationManager.RestoreStatus {σ : Type} (em : EvaluationManager σ)
    (operation : UpgradeKymaOperation) (w : World σ) : StepResult × World σ :=
  let avsData := operation.Avs
  -- do external monitor status reset (lines 74-84), reached from both branches below
  let externalReset := fun (operation : UpgradeKymaOperation) (w : World σ) =>
    if em.externalAssistant.IsInMaintenance avsData then
      let r := em.delegator.callResetStatus w operation em.externalAssistant
      if delayOrError r.1 then r
      else ((r.1.1, 0, none), r.2)
    else ((operation, 0, none), w)
  -- do internal monitor status reset (lines 64-72)
  if em.internalAssistant.IsInMaintenance avsData then
    let r := em.delegator.callResetStatus w operation em.internalAssistant
    if delayOrError r.1 then r
    else externalReset r.1.1 r.2
  else externalReset operation w

/-- Method `EvaluationManager.SetMaintenanceStatus` (lines 87-89). -/
def EvaluationManager.SetMaintenanceStatus {σ : Type} (em : EvaluationManager σ)
    (operation : UpgradeKymaOperation) (w : World σ) : StepResult × World σ :=
  em.SetStatus StatusMaintenance operation w

/-- Method `EvaluationManager.InMaintenance` (lines 91-106). -/
def EvaluationManager.InMaintenance {σ : Type} (em : EvaluationManager σ)
    (operation : UpgradeKymaOperation) : Bool :=
  let avsData := operation.Avs
  let inMaintenance := true
  -- check for internal monitor
  let inMaintenance :=
    if em.internalAssistant.IsValid avsData then
      inMaintenance && em.internalAssistant.IsInMaintenance avsData
    else inMaintenance
  -- check for external monitor
  let inMaintenance :=
    if em.externalAssistant.IsValid avsData then
      inMaintenance && em.externalAssistant.IsInMaintenance avsData
    else inMaintenance
  inMaintenance

/-- Method `EvaluationManager.HasMonitors` (lines 108-110). -/
def EvaluationManager.HasMonitors {σ : Type} (em : EvaluationManager σ)
    (operation : UpgradeKymaOperation) : Bool :=
  em.internalAssistant.IsValid operation.Avs || em.externalAssistant.IsValid operation.Avs

/-! ## The `gqlschema` input types, as far as `azure_provider.go` builds and updates them -/

/-- Kyma profile. -/
inductive KymaProfile where
  | Production
  | Evaluation
deriving DecidableEq, Repr

/-- Azure part of the provider specific configuration. -/
structure AzureProviderConfigInput where
  VnetCidr : String
  Zones : StringSlice
deriving DecidableEq, Repr

/-- Provider specific configuration; `AzureConfig` is a pointer. -/
structure ProviderSpecificInput where
  AzureConfig : Option AzureProviderConfigInput
deriving DecidableEq, Repr

/-- A non-nil Go `*string` held in a configuration: the address of the package variable
`trialPurpose` of `azure_provider.go` (line 17), or the address of some other string cell, given
by the content of that cell. -/
inductive StringPtr where
  | trialPurposeVar
  | cell (content : String)
deriving DecidableEq, Repr

/-- Gardener configuration (the fields that `azure_provider.go` sets); `Purpose` and
`ProviderSpecificConfig` are pointers. -/
structure GardenerConfigInput where
  DiskType : String
  VolumeSizeGb : Int
  MachineType : String
  Region : String
  Provider : String
  WorkerCidr : String
  AutoScalerMin : Int
  AutoScalerMax : Int
  MaxSurge : Int
  MaxUnavailable : Int
  Purpose : Option StringPtr
  ProviderSpecificConfig : Option ProviderSpecificInput
deriving DecidableEq, Repr

/-- Cluster configuration; `GardenerConfig` is a pointer. -/
structure ClusterConfigInput where
  GardenerConfig : Option GardenerConfigInput
deriving DecidableEq, Repr

/-! ## `azure_provider.go` -/

/-- Declarations that `azure_provider.go` uses and that are not among the sources, taken as
parameters: the abstract region names `broker.Europe`, `broker.Us`, `broker.Asia`, the helper
`updateSlice` (given the content of `*toUpdate` and the value, it returns the new content of
`*toUpdate`) and the zones returned by `generateDefaultAzureZones()`. -/
structure ProviderDeps where
  Europe : String
  Us : String
  Asia : String
  updateSlice : StringSlice → StringSlice → StringSlice
  generateDefaultAzureZones : StringSlice

/-- The keys of a Go map literal are pairwise distinct (a duplicate constant key is rejected by
the compiler). -/
def ProviderDeps.KeysDistinct (deps : ProviderDeps) : Prop :=
  deps.Europe ≠ deps.Us ∧ deps.Europe ≠ deps.Asia ∧ deps.Us ≠ deps.Asia

instance (deps : ProviderDeps) : Decidable deps.KeysDistinct := by
  unfold ProviderDeps.KeysDistinct
  exact inferInstance

/-- Constant `DefaultAzureRegion`. -/
def DefaultAzureRegion : String := "westeurope"

/-- Variable `europeAzure`. -/
def europeAzure : String := "westeurope"

/-- Variable `usAzure`. -/
def usAzure : String := "eastus"

/-- Variable `asiaAzure`. -/
def asiaAzure : String := "southeastasia"

/-- Variable `trialPurpose` (line 17), by its initial value. -/
def trialPurpose : String := "evaluation"

/-- The mutable package variables whose address `azure_provider.go` hands out: `trialPurpose`,
which every Trial `Defaults` shares through its `Purpose` pointer (line 108). -/
structure PackageVars where
  trialPurpose : String
deriving DecidableEq, Repr

/-- The package variables as the package initialises them. -/
def PackageVars.initial : PackageVars := { trialPurpose := KEB.trialPurpose }

/-- Reading through a pointer (`*ptr`). -/
def StringPtr.load (vars : PackageVars) : StringPtr → String
  | .trialPurposeVar => vars.trialPurpose
  | .cell content => content

/-- Writing through a pointer (`*ptr = value`), as any holder of the pointer may do: a write
through the address of `trialPurpose` changes the package variable. The result is the package
variables and the pointer after the write. -/
def StringPtr.store (vars : PackageVars) (ptr : StringPtr) (value : String) :
    PackageVars × StringPtr :=
  match ptr with
  | .trialPurposeVar => ({ vars with trialPurpose := value }, StringPtr.trialPurposeVar)
  | .cell _ => (vars, StringPtr.cell value)

/-- Map `toAzureSpecific` (lines 19-23), as its lookup: `none` is the nil pointer a Go map yields
for an absent key. -/
def toAzureSpecific (deps : ProviderDeps) (key : String) : Option String :=
  if key = deps.Europe then some europeAzure
  else if key = deps.Us then some usAzure
  else if key = deps.Asia then some asiaAzure
  else none

/-- Modelled from the spec: helper `updateString(toUpdate *string, value *string)`, declared outside
the sources; it assigns `*value` to `*toUpdate` when `value` is non-nil and does nothing otherwise.
The result is the new content of `*toUpdate`. -/
def updateString (toUpdate : String) (value : Option String) : String :=
  match value with
  | some v => v
  | none => toUpdate

/-- Receiver of the standard plan. -/
structure AzureInput where
deriving DecidableEq, Repr

/-- Receiver of the Lite plan. -/
structure AzureLiteInput where
deriving DecidableEq, Repr

/-- Receiver of the Trial plan; the Go map is given by its lookup (`none`: key absent). -/
structure AzureTrialInput where
  PlatformRegionMapping : String → Option String

/-- Outcome of a call that mutates `*input` in place: the content behind the `input` pointer when
the call ends, and whether the call ended in a nil-pointer dereference panic. -/
structure ApplyOutcome where
  input : Option ClusterConfigInput
  panicked : Bool
deriving DecidableEq, Repr

/-- Field `input.GardenerConfig.Region` behind a possibly nil `input`, when it exists. -/
def regionOf (input : Option ClusterConfigInput) : Option String :=
  (input.bind fun c => c.GardenerConfig).map fun g => g.Region

/-- Structure `input.GardenerConfig` behind a possibly nil `input`, when it exists. -/
def gardenerOf (input : Option ClusterConfigInput) : Option GardenerConfigInput :=
  input.bind fun c => c.GardenerConfig

/-- The string read through `input.GardenerConfig.Purpose`, under the given package variables:
`none` without a Gardener configuration, `some none` for a nil pointer. -/
def purposeOf (vars : PackageVars) (input : Option ClusterConfigInput) : Option (Option String) :=
  (gardenerOf input).map fun g => g.Purpose.map (StringPtr.load vars)

/-- Field `VnetCidr` of the Azure provider configuration behind `input`, when it exists. -/
def vnetCidrOf (input : Option ClusterConfigInput) : Option String :=
  (((gardenerOf input).bind fun g => g.ProviderSpecificConfig).bind fun ps => ps.AzureConfig).map
    fun az => az.VnetCidr

/-- Field `Zones` of the Azure provider configuration behind `input`, when it exists. -/
def zonesOf (input : Option ClusterConfigInput) : Option StringSlice :=
  (((gardenerOf input).bind fun g => g.ProviderSpecificConfig).bind fun ps => ps.AzureConfig).map
    fun az => az.Zones

/-- The configuration behind `input` with the Azure zones blanked: what is left to compare when
the zones are disregarded. -/
def eraseZones (input : Option ClusterConfigInput) : Option ClusterConfigInput :=
  input.map fun c =>
    { c with GardenerConfig := c.GardenerConfig.map fun g =>
      { g with ProviderSpecificConfig := g.ProviderSpecificConfig.map fun ps =>
        { ps with AzureConfig := ps.AzureConfig.map fun az => { az with Zones := none } } } }

/-- Statement `updateString(&input.GardenerConfig.Region, value)`: evaluating the address panics
when `input` or `input.GardenerConfig` is nil. -/
def assignRegion (input : Option ClusterConfigInput) (value : Option String) : ApplyOutcome :=
  match input with
  | none => { input := input, panicked := true }
  | some c =>
    match c.GardenerConfig with
    | none => { input := input, panicked := true }
    | some g =>
      { input := some { c with GardenerConfig := some { g with Region := updateString g.Region value } }
        panicked := false }

/-- Statement `updateSlice(&input.GardenerConfig.ProviderSpecificConfig.AzureConfig.Zones, value)`:
evaluating the address panics when one of the four pointers on the path is nil. -/
def assignZones (deps : ProviderDeps) (input : Option ClusterConfigInput) (value : StringSlice) :
    ApplyOutcome :=
  match input with
  | none => { input := input, panicked := true }
  | some c =>
    match c.GardenerConfig with
    | none => { input := input, panicked := true }
    | some g =>
      match g.ProviderSpecificConfig with
      | none => { input := input, panicked := true }
      | some ps =>
        match ps.AzureConfig with
        | none => { input := input, panicked := true }
        | some az =>
          let az2 : AzureProviderConfigInput := { az with Zones := deps.updateSlice az.Zones value }
          let ps2 : ProviderSpecificInput := { ps with AzureConfig := some az2 }
          let g2 : GardenerConfigInput := { g with ProviderSpecificConfig := some ps2 }
          { input := some { c with GardenerConfig := some g2 }, panicked := false }

/-- Method `AzureInput.Defaults` (lines 33-54). -/
def AzureInput.Defaults (deps : ProviderDeps) (_p : AzureInput) : Option ClusterConfigInput :=
  some { GardenerConfig := some {
    DiskType := "Standard_LRS"
    VolumeSizeGb := 50
    MachineType := "Standard_D8_v3"
    Region := DefaultAzureRegion
    Provider := "azure"
    WorkerCidr := "10.250.0.0/19"
    AutoScalerMin := 2
    AutoScalerMax := 10
    MaxSurge := 4
    MaxUnavailable := 0
    Purpose := none
    ProviderSpecificConfig := some { AzureConfig := some {
      VnetCidr := "10.250.0.0/19"
      Zones := deps.generateDefaultAzureZones } } } }

/-- Method `AzureInput.ApplyParameters` (lines 56-58). -/
def AzureInput.ApplyParameters (deps : ProviderDeps) (_p : AzureInput)
    (input : Option ClusterConfigInput) (pp : ProvisioningParameters) : ApplyOutcome :=
  assignZones deps input pp.Parameters.Zones

/-- Method `AzureInput.Profile` (lines 60-62). -/
def AzureInput.Profile (_p : AzureInput) : KymaProfile := KymaProfile.Production

/-- Method `AzureLiteInput.Defaults` (lines 64-85). -/
def AzureLiteInput.Defaults (deps : ProviderDeps) (_p : AzureLiteInput) : Option ClusterConfigInput :=
  some { GardenerConfig := some {
    DiskType := "Standard_LRS"
    VolumeSizeGb := 50
    MachineType := "Standard_D4_v3"
    Region := DefaultAzureRegion
    Provider := "azure"
    WorkerCidr := "10.250.0.0/19"
    AutoScalerMin := 3
    AutoScalerMax := 4
    MaxSurge := 4
    MaxUnavailable := 1
    Purpose := none
    ProviderSpecificConfig := some { AzureConfig := some {
      VnetCidr := "10.250.0.0/19"
      Zones := deps.generateDefaultAzureZones } } } }

/-- Method `AzureLiteInput.ApplyParameters` (lines 87-89). -/
def AzureLiteInput.ApplyParameters (deps : ProviderDeps) (_p : AzureLiteInput)
    (input : Option ClusterConfigInput) (pp : ProvisioningParameters) : ApplyOutcome :=
  assignZones deps input pp.Parameters.Zones

/-- Method `AzureLiteInput.Profile` (lines 91-93). -/
def AzureLiteInput.Profile (_p : AzureLiteInput) : KymaProfile := KymaProfile.Evaluation

/-- Method `AzureTrialInput.Defaults` (lines 95-117). -/
def AzureTrialInput.Defaults (deps : ProviderDeps) (_p : AzureTrialInput) : Option ClusterConfigInput :=
  some { GardenerConfig := some {
    DiskType := "Standard_LRS"
    VolumeSizeGb := 50
    MachineType := "Standard_D4_v3"
    Region := DefaultAzureRegion
    Provider := "azure"
    WorkerCidr := "10.250.0.0/19"
    AutoScalerMin := 1
    AutoScalerMax := 1
    MaxSurge := 1
    MaxUnavailable := 1
    Purpose := some StringPtr.trialPurposeVar
    ProviderSpecificConfig := some { AzureConfig := some {
      VnetCidr := "10.250.0.0/19"
      Zones := deps.generateDefaultAzureZones } } } }

/-- Method `AzureTrialInput.ApplyParameters` (lines 119-136). A panic ends the call at the
statement that raised it. -/
def AzureTrialInput.ApplyParameters (deps : ProviderDeps) (p : AzureTrialInput)
    (input : Option ClusterConfigInput) (pp : ProvisioningParameters) : ApplyOutcome :=
  let params := pp.Parameters
  -- read platform region if exists (lines 122-129)
  let afterPlatform : ApplyOutcome :=
    if pp.PlatformRegion ≠ "" then
      match p.PlatformRegionMapping pp.PlatformRegion with
      | some abstractRegion =>
        let r := toAzureSpecific deps abstractRegion
        assignRegion input r
      | none => { input := input, panicked := false }
    else { input := input, panicked := false }
  if afterPlatform.panicked then afterPlatform
  else
    -- explicit parameter region (lines 131-133)
    let afterParams : ApplyOutcome :=
      match params.Region with
      | some region => assignRegion afterPlatform.input (toAzureSpecific deps region)
      | none => { input := afterPlatform.input, panicked := false }
    if afterParams.panicked then afterParams
    else assignZones deps afterParams.input params.Zones

/-- Method `AzureTrialInput.Profile` (lines 138-140). -/
def AzureTrialInput.Profile (_p : AzureTrialInput) : KymaProfile := KymaProfile.Evaluation

/-! ## The update controller (specification, section 4.2)

`instance_update_test.go` exercises `NewUpdate(...).Update(...)`; the file that declares them is
not among the sources. -/

/-- Instance record (fields as in the literals of `instance_update_test.go`). -/
structure Instance where
  InstanceID : String
  ServicePlanID : String
  Parameters : ProvisioningParameters
deriving DecidableEq, Repr

/-- Provisioning operation: embeds the base operation. -/
structure ProvisioningOperation where
  Operation : Operation
deriving DecidableEq, Repr

/-- Deprovisioning operation; `Temporary` marks a suspension. -/
structure DeprovisioningOperation where
  Operation : Operation
  Temporary : Bool
deriving DecidableEq, Repr

/-- An entry of the operation history: one of the three operation variants. -/
inductive StoredOperation where
  | provisioning (op : ProvisioningOperation)
  | deprovisioning (op : DeprovisioningOperation)
  | upgradeKyma (op : UpgradeKymaOperation)
deriving DecidableEq, Repr

/-- The base operation of a history entry. -/
def StoredOperation.base : StoredOperation → Operation
  | .provisioning op => op.Operation
  | .deprovisioning op => op.Operation
  | .upgradeKyma op => op.Operation

/-- The service manager entry recorded in the ERS context of a history entry. -/
def StoredOperation.serviceManager (op : StoredOperation) : Option ServiceManagerEntryDTO :=
  op.base.ProvisioningParameters.ErsContext.ServiceManager

/-- Modelled from the spec: the in-memory broker storage that the tests create with
`storage.NewMemoryStorage()` (section 2: instance store and append-only operation store). -/
structure BrokerStorage where
  instances : List Instance
  operations : List StoredOperation
deriving DecidableEq, Repr

/-- Modelled from the spec: `Instances().GetByID` (section 6); `none` when no record has the id. -/
def BrokerStorage.GetByID (st : BrokerStorage) (instanceID : String) : Option Instance :=
  st.instances.find? fun i => i.InstanceID = instanceID

/-- Modelled from the spec: `Instances().Update` (section 6): the record with the same id is
replaced. -/
def BrokerStorage.UpdateInstance (st : BrokerStorage) (inst : Instance) : BrokerStorage :=
  { st with instances := st.instances.map fun i =>
      if i.InstanceID = inst.InstanceID then inst else i }

/-- Modelled from the spec: `Operations().FindByInstanceID` (section 6): the operations of the
instance, latest first, ordered by `CreatedAt` (section 5). -/
def BrokerStorage.FindByInstanceID (st : BrokerStorage) (instanceID : String) :
    List StoredOperation :=
  (st.operations.filter fun op => op.base.InstanceID = instanceID).insertionSort
    fun a b => b.base.CreatedAt ≤ a.base.CreatedAt

/-- What parsing `details.RawContext` yields: not a JSON object, or an object with its optional
`active` key (the only recognised key, section 6). -/
inductive RawContext where
  | malformed
  | object (active : Option Bool)
deriving DecidableEq, Repr

/-- The update request (`domain.UpdateDetails`), as far as the controller reads it. -/
structure UpdateDetails where
  ServiceID : String
  PlanID : String
  RawContext : RawContext
deriving DecidableEq, Repr

/-- Modelled from the spec: the error conditions of Update (section 4.2). -/
inductive UpdateError where
  | NotFound
  | MalformedContext
  | MissingCredentials
  | UpdateFailed (handlerError : String)
deriving DecidableEq, Repr

/-- Modelled from the spec: the intent of an update (section 4.2, step 3). -/
inductive UpdateIntent where
  | Suspension
  | Unsuspension
  | ContextOnly
deriving DecidableEq, Repr

/-- The context handler, an external collaborator taken as a parameter: `Handle` over any handler
state `σ`, and whether the handler requires the service manager credentials. -/
structure ContextUpdateHandler (σ : Type) where
  RequiresServiceManager : Bool
  Handle : σ → Instance → ERSContext → GoError × σ

/-- One invocation of `handler.Handle`, with its arguments. -/
structure HandleCall where
  inst : Instance
  ersContext : ERSContext
deriving DecidableEq, Repr

/-- State threaded through an update: the storage, the handler state and the log of the handler
invocations made so far, oldest first. -/
structure UpdateWorld (σ : Type) where
  storage : BrokerStorage
  handlerState : σ
  calls : List HandleCall

/-- The update endpoint built by `NewUpdate` (storages are in the threaded state). -/
structure UpdateEndpoint (σ : Type) where
  handler : ContextUpdateHandler σ

/-- Modelled from the spec: the incoming ERS context parsed from the raw context, which carries the
`active` key and nothing else (section 4.2, step 2). -/
def incomingContext (active : Option Bool) : ERSContext :=
  { TenantID := "", SubAccountID := "", GlobalAccountID := "", ServiceManager := none,
    Active := active }

/-- Modelled from the spec: classification of the intent from the history, latest first, and the
incoming `active` (section 4.2, step 3). -/
def classifyUpdate (history : List StoredOperation) (active : Option Bool) : UpdateIntent :=
  match history.head?, active with
  | some (.deprovisioning op), some true =>
    if op.Temporary then UpdateIntent.Unsuspension else UpdateIntent.ContextOnly
  | some (.provisioning _), some false => UpdateIntent.Suspension
  | _, _ => UpdateIntent.ContextOnly

/-- Modelled from the spec: credential recovery (section 4.2, step 4): walk the operations newest
first and adopt the first service manager entry that is present. -/
def recoverServiceManager (history : List StoredOperation) : Option ServiceManagerEntryDTO :=
  history.findSome? fun op => op.serviceManager

/-- Modelled from the spec: the `active` value written back (section 4.2, step 5): true after a
suspension, false after an unsuspension, the stored value otherwise. -/
def persistedActive (intent : UpdateIntent) (stored : Option Bool) : Option Bool :=
  match intent with
  | .Suspension => some true
  | .Unsuspension => some false
  | .ContextOnly => stored

/-- Modelled from the spec: the instance written back (section 4.2, step 5): its ERS context gets
the recovered service manager entry, when there is one, and the derived `active`. -/
def restoreContext (inst : Instance) (recovered : Option ServiceManagerEntryDTO)
    (intent : UpdateIntent) : Instance :=
  let ers := inst.Parameters.ErsContext
  let ers2 : ERSContext :=
    { ers with
      ServiceManager := match recovered with
        | some sm => some sm
        | none => ers.ServiceManager
      Active := persistedActive intent ers.Active }
  { inst with Parameters := { inst.Parameters with ErsContext := ers2 } }

/-- Modelled from the spec: `Update(ctx, instanceId, details, asyncAllowed)` of the update
controller (section 4.2, steps 1 to 6); the file declaring it is not among the sources. The result
is the error, `none` on success, and the state after the call. -/
def UpdateEndpoint.Update {σ : Type} (svc : UpdateEndpoint σ) (instanceID : String)
    (details : UpdateDetails) (_asyncAllowed : Bool) (w : UpdateWorld σ) :
    Option UpdateError × UpdateWorld σ :=
  -- 1. load instance
  match w.storage.GetByID instanceID with
  | none => (some UpdateError.NotFound, w)
  | some inst =>
    -- 2. parse incoming context
    match details.RawContext with
    | .malformed => (some UpdateError.MalformedContext, w)
    | .object active =>
      -- 3. classify intent
      let history := w.storage.FindByInstanceID instanceID
      let intent := classifyUpdate history active
      -- 4. credential recovery
      let recovered := recoverServiceManager history
      if recovered.isNone && svc.handler.RequiresServiceManager then
        (some UpdateError.MissingCredentials, w)
      else
        -- 5. persist
        let restored := restoreContext inst recovered intent
        let storage := w.storage.UpdateInstance restored
        -- 6. delegate
        let r := svc.handler.Handle w.handlerState restored (incomingContext active)
        let w2 : UpdateWorld σ :=
          { storage := storage, handlerState := r.2,
            calls := w.calls ++ [{ inst := restored, ersContext := incomingContext active }] }
        match r.1 with
        | some msg => (some (UpdateError.UpdateFailed msg), w2)
        | none => (none, w2)

/-! ## The Azure Event Hub deprovision step (specification, section 4.3)

`event_hub_step_test.go` exercises `DeprovisionAzureEventHubStep.Run`; the file that declares the
step is not among the sources. -/

/-- Last-operation state `domain.Succeeded` of the brokerapi library. -/
def Succeeded : String := "succeeded"

/-- Last-operation state `domain.Failed` of the brokerapi library. -/
def Failed : String := "failed"

/-- Modelled from the spec: the provisioning state of a resource group that is being deleted
(section 4.3, Present-Deleting). -/
def ProvisioningStateDeleting : String := "Deleting"

/-- Modelled from the spec: the fixed retry interval of the step, 10 seconds (section 4.3), in
nanoseconds. -/
def retryInterval : Duration := 10 * 1000000000

/-- Hyperscaler kinds named in the tests (`hyperscaler.Azure`, `hyperscaler.AWS`) and GCP. -/
inductive HyperscalerType where
  | Azure
  | AWS
  | GCP
deriving DecidableEq, Repr

/-- Credentials handed out by the account provider (`hyperscaler.Credentials`). -/
structure Credentials where
  HyperscalerType : HyperscalerType
  CredentialData : List (String × String)
deriving DecidableEq, Repr

/-- Modelled from the spec: what loading the instance yields (section 4.3, step 2): the instance,
or the finding that it or its provisioning parameters are malformed. -/
inductive InstanceReply where
  | malformed (message : String)
  | ok (inst : Instance)
deriving DecidableEq, Repr

/-- Reply of `GardenerCredentials(hyperscalerKind, tenant)` (section 6). -/
inductive CredentialsReply where
  | error (message : String)
  | ok (credentials : Credentials)
deriving DecidableEq, Repr

/-- Reply of `GetResourceGroup(name)` (section 6): not found, an error, or the group with the
provisioning state of its properties (`none`: the properties object is absent). -/
inductive ResourceGroupReply where
  | notFound
  | error (message : String)
  | group (provisioningState : Option String)
deriving DecidableEq, Repr

/-- Modelled from the spec: the deprovision step with its external collaborators, each taken as a
parameter over any collaborator state `σ`: the instance store, the account provider, the
hyperscaler provider with its client, and the operation store. `Cancelled` tells whether the
context the step was built with (last argument of `NewDeprovisionAzureEventHubStep` in the tests)
is cancelled in a collaborator state (section 5). `FailureError` is the
error value handed back with a permanent failure (section 7 returns the error, the test helper
`ensureOperationIsNotRepeated` expects nil). -/
structure DeprovisionAzureEventHubStep (σ : Type) where
  LoadInstance : σ → String → InstanceReply × σ
  GardenerCredentials : σ → HyperscalerType → String → CredentialsReply × σ
  GetClient : σ → Credentials → GoError × σ
  GetResourceGroup : σ → String → ResourceGroupReply × σ
  DeleteResourceGroup : σ → String → GoError × σ
  UpdateOperation : σ → UpgradeKymaOperation → GoError × σ
  Cancelled : σ → Bool
  FailureError : String → GoError

/-- One invocation of a collaborator of the step, with its arguments and its reply. -/
inductive StepCall where
  | LoadInstance (instanceID : String) (reply : InstanceReply)
  | GardenerCredentials (kind : HyperscalerType) (tenant : String) (reply : CredentialsReply)
  | GetClient (credentials : Credentials) (reply : GoError)
  | GetResourceGroup (name : String) (reply : ResourceGroupReply)
  | DeleteResourceGroup (name : String) (reply : GoError)
  | UpdateOperation (operation : UpgradeKymaOperation) (reply : GoError)
deriving DecidableEq, Repr

/-- Whether a call is a `DeleteResourceGroup` call. -/
def StepCall.isDelete : StepCall → Bool
  | .DeleteResourceGroup _ _ => true
  | _ => false

/-- Whether a call goes to the hyperscaler (client construction or a client method). -/
def StepCall.isHyperscaler : StepCall → Bool
  | .GetClient _ _ => true
  | .GetResourceGroup _ _ => true
  | .DeleteResourceGroup _ _ => true
  | _ => false

/-- Outcome of one invocation of the step: the returned triple, the collaborator state after it
and the collaborator calls it made, oldest first. -/
structure StepOutcome (σ : Type) where
  result : StepResult
  state : σ
  calls : List StepCall

/-- The operation with `eventHub.deleted` set. -/
def UpgradeKymaOperation.withEventHubDeleted (operation : UpgradeKymaOperation) :
    UpgradeKymaOperation :=
  { Operation := { operation.Operation with
      InstanceDetails := { operation.Operation.InstanceDetails with
        EventHub := { Deleted := true } } } }

/-- Modelled from the spec: a permanent failure (section 7): the operation is marked Failed and
returned without a retry. -/
def DeprovisionAzureEventHubStep.OperationFailed {σ : Type} (step : DeprovisionAzureEventHubStep σ)
    (operation : UpgradeKymaOperation) (kind : String) : StepResult :=
  ({ Operation := { operation.Operation with State := Failed } }, 0, step.FailureError kind)

/-- Modelled from the spec: the outcome of an invocation whose context is cancelled (section 5):
the operation is returned as it came, not marked Failed, with retry 0 and a nil error. -/
def StepOutcome.cancelled {σ : Type} (operation : UpgradeKymaOperation) (st : σ)
    (calls : List StepCall) : StepOutcome σ :=
  { result := (operation, 0, none), state := st, calls := calls }

/-- Modelled from the spec: `DeprovisionAzureEventHubStep.Run` (section 4.3, steps 1 to 5 and the
edge case of absent properties; section 5 for a cancelled context, looked at when the invocation
starts its work and after every collaborator call; section 7 for a failing store write); the file
declaring it is not among the sources. -/
def DeprovisionAzureEventHubStep.Run {σ : Type} (step : DeprovisionAzureEventHubStep σ)
    (operation : UpgradeKymaOperation) (st : σ) : StepOutcome σ :=
  -- 1. idempotent short-circuit
  if operation.Operation.InstanceDetails.EventHub.Deleted then
    { result := (operation, 0, none), state := st, calls := [] }
  else if step.Cancelled st then StepOutcome.cancelled operation st []
  else
    -- 2. load instance
    let load := step.LoadInstance st operation.Operation.InstanceID
    let calls := [StepCall.LoadInstance operation.Operation.InstanceID load.1]
    if step.Cancelled load.2 then StepOutcome.cancelled operation load.2 calls
    else
    match load.1 with
    | .malformed _ =>
      { result := step.OperationFailed operation "ParameterError", state := load.2, calls := calls }
    | .ok inst =>
      -- 3. hyperscaler credentials from the account provider
      let tenant := inst.Parameters.ErsContext.TenantID
      let creds := step.GardenerCredentials load.2 HyperscalerType.Azure tenant
      let calls := calls ++ [StepCall.GardenerCredentials HyperscalerType.Azure tenant creds.1]
      if step.Cancelled creds.2 then StepOutcome.cancelled operation creds.2 calls
      else
      match creds.1 with
      | .error _ =>
        { result := (operation, retryInterval, none), state := creds.2, calls := calls }
      | .ok credentials =>
        if credentials.HyperscalerType ≠ HyperscalerType.Azure then
          { result := step.OperationFailed operation "WrongHyperscaler", state := creds.2,
            calls := calls }
        else
          -- 4. hyperscaler client
          let client := step.GetClient creds.2 credentials
          let calls := calls ++ [StepCall.GetClient credentials client.1]
          if step.Cancelled client.2 then StepOutcome.cancelled operation client.2 calls
          else
          match client.1 with
          | some _ =>
            { result := step.OperationFailed operation "ClientError", state := client.2,
              calls := calls }
          | none =>
            -- 5. read the resource group
            let reading := step.GetResourceGroup client.2 inst.InstanceID
            let calls := calls ++ [StepCall.GetResourceGroup inst.InstanceID reading.1]
            if step.Cancelled reading.2 then StepOutcome.cancelled operation reading.2 calls
            else
            match reading.1 with
            | .notFound =>
              let deleted := operation.withEventHubDeleted
              let persist := step.UpdateOperation reading.2 deleted
              let calls := calls ++ [StepCall.UpdateOperation deleted persist.1]
              if step.Cancelled persist.2 then StepOutcome.cancelled operation persist.2 calls
              else
              match persist.1 with
              | some _ =>
                { result := (operation, retryInterval, none), state := persist.2, calls := calls }
              | none => { result := (deleted, 0, none), state := persist.2, calls := calls }
            | .error _ =>
              { result := (operation, retryInterval, none), state := reading.2, calls := calls }
            | .group none =>
              { result := step.OperationFailed operation "ResourceGroupProperties",
                state := reading.2, calls := calls }
            | .group (some provisioningState) =>
              if provisioningState = ProvisioningStateDeleting then
                { result := (operation, retryInterval, none), state := reading.2, calls := calls }
              else
                let delete := step.DeleteResourceGroup reading.2 inst.InstanceID
                let calls := calls ++ [StepCall.DeleteResourceGroup inst.InstanceID delete.1]
                if step.Cancelled delete.2 then StepOutcome.cancelled operation delete.2 calls
                else { result := (operation, retryInterval, none), state := delete.2,
                       calls := calls }

/-! ## Assumptions on the delegator that the specification names -/

/-- Assumption on `delegator.SetStatus`: a return with zero delay and nil error leaves the addressed
monitor, when it is valid in the returned operation, with the requested current status. -/
def Delegator.SetStatusSetsCurrent {σ : Type} (d : Delegator σ) : Prop :=
  ∀ (st : σ) (op : UpgradeKymaOperation) (a : EvalAssistant) (status : String),
    (d.SetStatus st op a status).1.2 = (0, none) →
    a.IsValid (d.SetStatus st op a status).1.1.Avs = true →
    a.currentStatus (d.SetStatus st op a status).1.1.Avs = status

/-- Assumption on `delegator.SetStatus`: the call acts on the addressed monitor only, a return with
zero delay and nil error leaves the entry of the other monitor as it was. -/
def Delegator.SetStatusKeepsOther {σ : Type} (d : Delegator σ) : Prop :=
  ∀ (st : σ) (op : UpgradeKymaOperation) (a b : EvalAssistant) (status : String),
    a ≠ b → (d.SetStatus st op a status).1.2 = (0, none) →
    b.monitor (d.SetStatus st op a status).1.1.Avs = b.monitor op.Avs

/-- Assumption on `delegator.SetStatus`: a return with a non-nil error hands back an operation
whose Avs sub-state is the one it was given. -/
def Delegator.SetStatusErrorKeepsAvs {σ : Type} (d : Delegator σ) : Prop :=
  ∀ (st : σ) (op : UpgradeKymaOperation) (a : EvalAssistant) (status : String),
    (d.SetStatus st op a status).1.2.2 ≠ none →
    (d.SetStatus st op a status).1.1.Avs = op.Avs

/-- Assumption on `delegator.ResetStatus`: a return with zero delay and nil error leaves the
addressed monitor, when it is valid in the returned operation, out of maintenance. -/
def Delegator.ResetStatusLeavesMaintenance {σ : Type} (d : Delegator σ) : Prop :=
  ∀ (st : σ) (op : UpgradeKymaOperation) (a : EvalAssistant),
    (d.ResetStatus st op a).1.2 = (0, none) →
    a.IsValid (d.ResetStatus st op a).1.1.Avs = true →
    a.IsInMaintenance (d.ResetStatus st op a).1.1.Avs = false

/-- Assumption on `delegator.ResetStatus`: the call acts on the addressed monitor only, a return
with zero delay and nil error leaves the entry of the other monitor as it was. -/
def Delegator.ResetStatusKeepsOther {σ : Type} (d : Delegator σ) : Prop :=
  ∀ (st : σ) (op : UpgradeKymaOperation) (a b : EvalAssistant),
    a ≠ b → (d.ResetStatus st op a).1.2 = (0, none) →
    b.monitor (d.ResetStatus st op a).1.1.Avs = b.monitor op.Avs

/-- The assistant a recorded delegator call was made for. -/
def DelegatorCall.assistant : DelegatorCall → EvalAssistant
  | .SetStatus _ a _ => a
  | .ResetStatus _ a => a

/-! ## Fixtures used to exercise the definitions -/

/-- An empty monitor entry: no id, empty statuses, not in maintenance. -/
def AvsMonitor.empty : AvsMonitor :=
  { id := none, previousStatus := "", currentStatus := "", maintenance := false }

/-- A valid monitor in maintenance, "ACTIVE" before. -/
def monitorInMaintenance : AvsMonitor :=
  { id := some 1, previousStatus := "ACTIVE", currentStatus := "MAINTENANCE", maintenance := true }

/-- A valid monitor with current status "INACTIVE", not in maintenance. -/
def monitorInactive : AvsMonitor :=
  { id := some 2, previousStatus := "", currentStatus := "INACTIVE", maintenance := false }

/-- The monitor `monitorInactive` once its status has been set to "ACTIVE". -/
def monitorActivated : AvsMonitor :=
  { id := some 2, previousStatus := "INACTIVE", currentStatus := "ACTIVE", maintenance := false }

/-- The monitor `monitorInactive` once the well-behaved delegator has put it into maintenance. -/
def monitorSuspended : AvsMonitor :=
  { id := some 2, previousStatus := "INACTIVE", currentStatus := "MAINTENANCE", maintenance := true }

/-- The zero value of the provisioning parameters. -/
def ProvisioningParameters.zero : ProvisioningParameters :=
  { PlanID := "", ServiceID := ""
    ErsContext := { TenantID := "", SubAccountID := "", GlobalAccountID := "",
                    ServiceManager := none, Active := none }
    Parameters := { Name := "", Region := none, Zones := none, OptionalComponentsToInstall := none }
    PlatformRegion := "" }

/-- An upgrade operation that is zero everywhere except for its two monitors. -/
def fixOperation (internalMonitor externalMonitor : AvsMonitor) : UpgradeKymaOperation :=
  { Operation :=
    { ID := "", InstanceID := "", ProvisionerOperationID := "", Description := "", State := ""
      CreatedAt := 0, UpdatedAt := 0
      ProvisioningParameters := ProvisioningParameters.zero
      InstanceDetails :=
        { EventHub := { Deleted := false }
          Avs := { internalMonitor := internalMonitor, externalMonitor := externalMonitor } } } }

/-- Replace the monitor entry that an assistant addresses. -/
def UpgradeKymaOperation.withMonitor (operation : UpgradeKymaOperation) (a : EvalAssistant)
    (m : AvsMonitor) : UpgradeKymaOperation :=
  let op := operation.Operation
  let avs := op.InstanceDetails.Avs
  let avs2 : AvsLifecycleData :=
    match a with
    | .internalEval => { avs with internalMonitor := m }
    | .externalEval => { avs with externalMonitor := m }
  { Operation := { op with InstanceDetails := { op.InstanceDetails with Avs := avs2 } } }

/-- A well-behaved stateless delegator: `SetStatus` remembers the current status as the previous
one, writes the requested status and sets the marker when that status is the maintenance one;
`ResetStatus` writes the previous status back and clears the marker. Both succeed at once. -/
def fixDelegator : Delegator Unit where
  SetStatus := fun s operation a status =>
    let m := a.monitor operation.Avs
    ((operation.withMonitor a
        { m with previousStatus := m.currentStatus, currentStatus := status,
                 maintenance := decide (status = StatusMaintenance) }, 0, none), s)
  ResetStatus := fun s operation a =>
    let m := a.monitor operation.Avs
    ((operation.withMonitor a
        { m with currentStatus := m.previousStatus, maintenance := false }, 0, none), s)

/-- A delegator whose calls all ask for a retry after the given delay and leave the operation as
it is. -/
def retryDelegator (delay : Duration) : Delegator Unit where
  SetStatus := fun s operation _ _ => ((operation, delay, none), s)
  ResetStatus := fun s operation _ => ((operation, delay, none), s)

/-- A delegator that serves the internal monitor like `fixDelegator` and fails every call for the
external monitor with an error, handing back the operation it was given. -/
def failExternalDelegator : Delegator Unit where
  SetStatus := fun s operation a status =>
    match a with
    | .internalEval => fixDelegator.SetStatus s operation a status
    | .externalEval => ((operation, 0, some "avs: external evaluation unavailable"), s)
  ResetStatus := fun s operation a =>
    match a with
    | .internalEval => fixDelegator.ResetStatus s operation a
    | .externalEval => ((operation, 0, some "avs: external evaluation unavailable"), s)

/-- A delegator that records the requested status like `fixDelegator` and then asks for a retry
after the given delay (the update is written, its confirmation is still pending). -/
def recordThenRetryDelegator (delay : Duration) : Delegator Unit where
  SetStatus := fun s operation a status =>
    (((fixDelegator.SetStatus s operation a status).1.1, delay, none), s)
  ResetStatus := fun s operation a =>
    (((fixDelegator.ResetStatus s operation a).1.1, delay, none), s)

/-- A delegator whose `ResetStatus` puts the addressed monitor back to its previous status and out
of maintenance, as `fixDelegator` does, but whose reset of the external monitor also writes the
internal monitor back into maintenance. Its `SetStatus` is the one of `fixDelegator`. -/
def meddlingDelegator : Delegator Unit where
  SetStatus := fixDelegator.SetStatus
  ResetStatus := fun s operation a =>
    match a with
    | .internalEval => fixDelegator.ResetStatus s operation a
    | .externalEval =>
      let reset := (fixDelegator.ResetStatus s operation a).1.1
      let m := EvalAssistant.internalEval.monitor reset.Avs
      ((reset.withMonitor EvalAssistant.internalEval
          { m with previousStatus := m.currentStatus, currentStatus := StatusMaintenance,
                   maintenance := true }, 0, none), s)

/-- The abstract region names used in the examples. -/
def fixDeps : ProviderDeps :=
  { Europe := "europe", Us := "us", Asia := "asia"
    updateSlice := fun old value => if value.isSome then value else old
    generateDefaultAzureZones := some ["1"] }

/-- A platform region mapping with one European and one American platform region. -/
def fixTrial : AzureTrialInput :=
  { PlatformRegionMapping := fun platformRegion =>
      if platformRegion = "cf-eu10" then some "europe"
      else if platformRegion = "cf-us10" then some "us"
      else none }


/-- Provisioning parameters that are zero except for the platform region and the explicit
parameter region. -/
def fixParameters (platformRegion : String) (region : Option String) : ProvisioningParameters :=
  { ProvisioningParameters.zero with
    PlatformRegion := platformRegion
    Parameters := { ProvisioningParameters.zero.Parameters with Region := region } }

/-- The zero value of the base operation. -/
def Operation.zero : Operation :=
  { ID := "", InstanceID := "", ProvisionerOperationID := "", Description := "", State := ""
    CreatedAt := 0, UpdatedAt := 0
    ProvisioningParameters := ProvisioningParameters.zero
    InstanceDetails :=
      { EventHub := { Deleted := false }
        Avs := { internalMonitor := AvsMonitor.empty, externalMonitor := AvsMonitor.empty } } }

/-- Constant `instanceID` of the broker tests. -/
def instanceID : String := "instance-id"

/-- A service manager entry with the given basic-auth pair. -/
def fixServiceManager (username password : String) : ServiceManagerEntryDTO :=
  { Credentials := { BasicAuth := { Username := username, Password := password } } }

/-- A base operation of the test instance that carries the given service manager entry. -/
def fixBaseOperation (id : String) (createdAt : Nat) (sm : Option ServiceManagerEntryDTO) :
    Operation :=
  { Operation.zero with
    ID := id
    CreatedAt := createdAt
    InstanceID := instanceID
    ProvisioningParameters :=
      { ProvisioningParameters.zero with
        ErsContext := { ProvisioningParameters.zero.ErsContext with ServiceManager := sm } } }

/-- Helper `fixProvisioningOperation` of `instance_update_test.go`, with its creation time. -/
def fixProvisioningOperation (id : String) (createdAt : Nat) : StoredOperation :=
  StoredOperation.provisioning
    { Operation := fixBaseOperation id createdAt (some (fixServiceManager "u" "p")) }

/-- A provisioning operation of the test instance whose ERS context carries the given basic-auth
pair. -/
def fixProvisioningOperationWith (id : String) (createdAt : Nat) (username password : String) :
    StoredOperation :=
  StoredOperation.provisioning
    { Operation := fixBaseOperation id createdAt (some (fixServiceManager username password)) }

/-- Helper `fixSuspensionOperation` of `instance_update_test.go`, with its creation time. -/
def fixSuspensionOperation (createdAt : Nat) : StoredOperation :=
  StoredOperation.deprovisioning
    { Operation := fixBaseOperation "" createdAt (some (fixServiceManager "u" "p"))
      Temporary := true }

/-- The instance the broker tests store: Trial plan, no service manager entry, the given stored
`active`. -/
def fixStoredInstance (active : Option Bool) : Instance :=
  { InstanceID := instanceID
    ServicePlanID := "TrialPlanID"
    Parameters :=
      { ProvisioningParameters.zero with
        PlanID := "TrialPlanID"
        ErsContext := { ProvisioningParameters.zero.ErsContext with Active := active } } }

/-- The handler of the broker tests: it accepts every call. -/
def fixHandler : ContextUpdateHandler Unit :=
  { RequiresServiceManager := true
    Handle := fun s _ _ => (none, s) }

/-- The update request of the broker tests, with the given parsed raw context. -/
def fixUpdateDetails (raw : RawContext) : UpdateDetails :=
  { ServiceID := "", PlanID := "TrialPlanID", RawContext := raw }

/-- The state before an update: the stored instance and the operations inserted, in insertion
order; no handler call yet. -/
def fixUpdateWorld (active : Option Bool) (operations : List StoredOperation) : UpdateWorld Unit :=
  { storage := { instances := [fixStoredInstance active], operations := operations }
    handlerState := ()
    calls := [] }

/-- Helper `fixInstance` of `event_hub_step_test.go`. -/
def fixInstance : Instance :=
  { InstanceID := "instance-id"
    ServicePlanID := ""
    Parameters :=
      { ProvisioningParameters.zero with
        PlanID := "4deee563-e5ec-4731-b9b1-53b42d855f0c"
        ErsContext := { ProvisioningParameters.zero.ErsContext with
          SubAccountID := "12df5747-3efb-4df6-ad6f-4414bb661ce3" }
        Parameters := { ProvisioningParameters.zero.Parameters with
          Name := "nachtmaar-15", Region := some "westeurope" } } }

/-- Helper `fixDeprovisioningOperationWithParameters` of `event_hub_step_test.go`. -/
def fixDeprovisioningOperationWithParameters : UpgradeKymaOperation :=
  { Operation := { Operation.zero with
      ID := "17f3ddba-1132-466d-a3c5-920f544d7ea6"
      InstanceID := "instance-id"
      ProvisionerOperationID := "provisioner-operation-id" } }

/-- Helper `fixDeprovisioningOperationWithDeletedEventHub` of `event_hub_step_test.go`. -/
def fixDeprovisioningOperationWithDeletedEventHub : UpgradeKymaOperation :=
  { Operation := { Operation.zero with
      InstanceDetails := { Operation.zero.InstanceDetails with EventHub := { Deleted := true } } } }

/-- The credentials of helper `fixAccountProvider`, for the given hyperscaler. -/
def fixCredentials (kind : HyperscalerType) : Credentials :=
  { HyperscalerType := kind
    CredentialData := [("subscriptionID", "subscriptionID"), ("clientID", "clientID"),
      ("clientSecret", "clientSecret"), ("tenantID", "tenantID")] }

/-- A step whose collaborators are stateless fakes, as in `event_hub_step_test.go`: each replies
what it is given here; the store accepts every write, the context (`context.Background()` in the tests)
is never cancelled and a permanent failure carries no error. -/
def fixEventHubStep (load : InstanceReply) (credentials : CredentialsReply) (client : GoError)
    (reading : ResourceGroupReply) (delete : GoError) : DeprovisionAzureEventHubStep Unit :=
  { LoadInstance := fun s _ => (load, s)
    GardenerCredentials := fun s _ _ => (credentials, s)
    GetClient := fun s _ => (client, s)
    GetResourceGroup := fun s _ => (reading, s)
    DeleteResourceGroup := fun s _ => (delete, s)
    UpdateOperation := fun s _ => (none, s)
    Cancelled := fun _ => false
    FailureError := fun _ => none }

/-- The happy-path step that reads the given resource group reply. -/
def fixEventHubStepReading (reading : ResourceGroupReply) : DeprovisionAzureEventHubStep Unit :=
  fixEventHubStep (InstanceReply.ok fixInstance)
    (CredentialsReply.ok (fixCredentials HyperscalerType.Azure)) none reading none

/-- The happy-path step that reads the given resource group reply and whose operation store
rejects every write. -/
def fixEventHubStepFailingStore (reading : ResourceGroupReply) :
    DeprovisionAzureEventHubStep Unit :=
  { fixEventHubStepReading reading with
    UpdateOperation := fun s _ => (some "operation could not be updated", s) }

/-- A step over a collaborator state that records whether the context is cancelled: the context is
cancelled while the resource group is read, and the read fails for it. -/
def fixEventHubStepCancelledWhileReading : DeprovisionAzureEventHubStep Bool :=
  { LoadInstance := fun s _ => (InstanceReply.ok fixInstance, s)
    GardenerCredentials := fun s _ _ =>
      (CredentialsReply.ok (fixCredentials HyperscalerType.Azure), s)
    GetClient := fun s _ => (none, s)
    GetResourceGroup := fun _ _ => (ResourceGroupReply.error "context canceled", true)
    DeleteResourceGroup := fun s _ => (none, s)
    UpdateOperation := fun s _ => (none, s)
    Cancelled := fun s => s
    FailureError := fun _ => none }

/-- The operation of `fixDeprovisioningOperationWithParameters` with state Succeeded. -/
def fixSucceededOperation : UpgradeKymaOperation :=
  { Operation := { fixDeprovisioningOperationWithParameters.Operation with State := Succeeded } }

/-! ## Properties of the evaluation monitor manager -/

/-- C1 (monitor short-circuit of SetStatus): when the internal monitor is not in maintenance in
`op` and the delegator's SetStatus call for the internal monitor returns `(op1, d, e)` with a
non-zero delay or a non-nil error, `EvaluationManager.SetStatus` returns exactly `(op1, d, e)`, and
the only delegator call of the invocation is that one call for the internal monitor: none is made
for the external monitor. -/
theorem SetStatus_internal_short_circuit {σ : Type} (delegator : Delegator σ) (status : String)
    (op : UpgradeKymaOperation) (w : World σ) (op1 : UpgradeKymaOperation) (d : Duration)
    (e : GoError)
    (hmaint : EvalAssistant.internalEval.IsInMaintenance op.Avs = false)
    (hcall : (delegator.SetStatus w.state op EvalAssistant.internalEval status).1 = (op1, d, e))
    (hstop : d ≠ 0 ∨ e ≠ none) :
    ((NewEvaluationManager delegator).SetStatus status op w).1 = (op1, d, e) ∧
    ((NewEvaluationManager delegator).SetStatus status op w).2.calls =
      w.calls ++ [DelegatorCall.SetStatus op EvalAssistant.internalEval status] := by
  have hde : delayOrError (delegator.SetStatus w.state op EvalAssistant.internalEval status).1
      = true := by
    rw [hcall]
    rcases hstop with h | h
    · simp [delayOrError, h]
    · cases e with
      | none => exact absurd rfl h
      | some msg => simp [delayOrError]
  simp only [EvaluationManager.SetStatus, NewEvaluationManager, Delegator.callSetStatus, hmaint,
    hde, Bool.not_false, if_true]
  exact ⟨hcall, trivial⟩

/-- Witness of C1: a delegator that asks for a retry after 10 on an operation whose monitors are
not in maintenance. -/
theorem SetStatus_internal_short_circuit_witness :
    EvalAssistant.internalEval.IsInMaintenance
      (fixOperation monitorInactive monitorInactive).Avs = false ∧
    ((retryDelegator 10).SetStatus () (fixOperation monitorInactive monitorInactive)
      EvalAssistant.internalEval "MAINTENANCE").1
      = (fixOperation monitorInactive monitorInactive, 10, none) ∧
    ((NewEvaluationManager (retryDelegator 10)).SetStatus "MAINTENANCE"
        (fixOperation monitorInactive monitorInactive) { state := (), calls := [] }).1
      = (fixOperation monitorInactive monitorInactive, 10, none) ∧
    ((NewEvaluationManager (retryDelegator 10)).SetStatus "MAINTENANCE"
        (fixOperation monitorInactive monitorInactive) { state := (), calls := [] }).2.calls
      = [] ++ [DelegatorCall.SetStatus (fixOperation monitorInactive monitorInactive)
          EvalAssistant.internalEval "MAINTENANCE"] :=
  ⟨by decide, by decide,
    SetStatus_internal_short_circuit (retryDelegator 10) "MAINTENANCE"
      (fixOperation monitorInactive monitorInactive) { state := (), calls := [] }
      (fixOperation monitorInactive monitorInactive) 10 none (by decide) (by decide)
      (Or.inl (by decide))⟩

/-- C5 (InMaintenance): `EvaluationManager.InMaintenance op` is true exactly when every monitor
(internal, external) that is valid in `op.Avs` is in maintenance in `op.Avs`; in particular it is
true when neither monitor is valid. -/
theorem InMaintenance_iff {σ : Type} (delegator : Delegator σ) (op : UpgradeKymaOperation) :
    ((NewEvaluationManager delegator).InMaintenance op = true ↔
      ∀ a : EvalAssistant, a.IsValid op.Avs = true → a.IsInMaintenance op.Avs = true) ∧
    ((∀ a : EvalAssistant, a.IsValid op.Avs = false) →
      (NewEvaluationManager delegator).InMaintenance op = true) := by
  have key : (NewEvaluationManager delegator).InMaintenance op = true ↔
      ∀ a : EvalAssistant, a.IsValid op.Avs = true → a.IsInMaintenance op.Avs = true := by
    simp only [EvaluationManager.InMaintenance, NewEvaluationManager]
    constructor
    · intro h a
      cases a <;> intro hv <;> simp [hv] at h
      · cases hx : EvalAssistant.externalEval.IsValid op.Avs <;> simp [hx] at h <;> simp [h]
      · cases hx : EvalAssistant.internalEval.IsValid op.Avs <;> simp [hx] at h <;> simp [h]
    · intro h
      have hi := h EvalAssistant.internalEval
      have he := h EvalAssistant.externalEval
      cases hvi : EvalAssistant.internalEval.IsValid op.Avs <;>
        cases hve : EvalAssistant.externalEval.IsValid op.Avs <;>
        simp [hvi, hve] at hi he ⊢ <;> simp [*]
  refine ⟨key, fun hnone => key.mpr ?_⟩
  intro a hv
  rw [hnone a] at hv
  exact absurd hv (by decide)

/-- C6 (HasMonitors): `EvaluationManager.HasMonitors op` is true exactly when the internal monitor
or the external monitor is valid in `op.Avs`. -/
theorem HasMonitors_iff {σ : Type} (delegator : Delegator σ) (op : UpgradeKymaOperation) :
    (NewEvaluationManager delegator).HasMonitors op = true ↔
      (EvalAssistant.internalEval.IsValid op.Avs = true ∨
       EvalAssistant.externalEval.IsValid op.Avs = true) := by
  simp [EvaluationManager.HasMonitors, NewEvaluationManager]

/-- C8 (SetMaintenanceStatus): for every operation, delegator and delegator state,
`SetMaintenanceStatus op` returns the same triple and leaves the same delegator state and the same
log of delegator calls as `SetStatus "MAINTENANCE" op`. -/
theorem SetMaintenanceStatus_eq_SetStatus {σ : Type} (delegator : Delegator σ)
    (op : UpgradeKymaOperation) (w : World σ) :
    (NewEvaluationManager delegator).SetMaintenanceStatus op w =
      (NewEvaluationManager delegator).SetStatus "MAINTENANCE" op w := by
  rfl

/-- The test `delay != 0 || err != nil` fails exactly on a zero delay with a nil error. -/
theorem delayOrError_eq_false_iff (r : StepResult) : delayOrError r = false ↔ r.2 = (0, none) := by
  obtain ⟨op, d, e⟩ := r
  cases e <;> simp [delayOrError]

/-- The two assistants are different. -/
theorem internalEval_ne_externalEval : EvalAssistant.internalEval ≠ EvalAssistant.externalEval := by
  decide

/-- Counterexample to C2: with a delegator whose successful SetStatus always leaves the addressed
monitor with the requested current status, SetStatus "ACTIVE" on an operation whose valid internal
monitor is already in maintenance returns zero delay and nil error, yet the internal monitor is
valid in the returned operation and its current status is still "MAINTENANCE". -/
theorem SetStatus_success_not_all_in_status :
    (∀ (st : Unit) (op : UpgradeKymaOperation) (a : EvalAssistant) (status : String),
      (fixDelegator.SetStatus st op a status).1.2 = (0, none) →
      a.currentStatus (fixDelegator.SetStatus st op a status).1.1.Avs = status) ∧
    ((NewEvaluationManager fixDelegator).SetStatus "ACTIVE"
      (fixOperation
        monitorInMaintenance
        monitorInactive)
      { state := (), calls := [] }).1
      = (fixOperation
          monitorInMaintenance
          monitorActivated,
         0, none) ∧
    EvalAssistant.internalEval.IsValid (fixOperation
          monitorInMaintenance
          monitorActivated).Avs
      = true ∧
    EvalAssistant.internalEval.currentStatus (fixOperation
          monitorInMaintenance
          monitorActivated).Avs
      ≠ "ACTIVE" := by
  refine ⟨?_, ?_, ?_, ?_⟩
  · intro st op a status _
    cases a <;> rfl
  · decide
  · decide
  · decide

/-- C2, amended (successful SetStatus): for a delegator whose successful SetStatus leaves the
addressed monitor with the requested current status and does not touch the other monitor, if
`SetStatus s op` returns `(op', 0, nil)` then every monitor that is valid in `op'` and was not in
maintenance in `op` has current status `s` in `op'`, while a monitor that was in maintenance in
`op` is skipped and its entry in `op'` is the one of `op`. -/
theorem SetStatus_success_sets_monitors_not_in_maintenance {σ : Type} (delegator : Delegator σ)
    (hset : delegator.SetStatusSetsCurrent) (hother : delegator.SetStatusKeepsOther)
    (s : String) (op : UpgradeKymaOperation) (w : World σ)
    (hok : ((NewEvaluationManager delegator).SetStatus s op w).1.2 = (0, none))
    (a : EvalAssistant) :
    (a.IsInMaintenance op.Avs = false →
      a.IsValid ((NewEvaluationManager delegator).SetStatus s op w).1.1.Avs = true →
      a.currentStatus ((NewEvaluationManager delegator).SetStatus s op w).1.1.Avs = s) ∧
    (a.IsInMaintenance op.Avs = true →
      a.monitor ((NewEvaluationManager delegator).SetStatus s op w).1.1.Avs = a.monitor op.Avs) := by
  have hne := internalEval_ne_externalEval
  cases hmi : EvalAssistant.internalEval.IsInMaintenance op.Avs <;>
    cases hme : EvalAssistant.externalEval.IsInMaintenance op.Avs <;>
    simp only [EvaluationManager.SetStatus, NewEvaluationManager, Delegator.callSetStatus, hmi,
      hme, Bool.not_false, Bool.not_true, if_true, if_false, Bool.false_eq_true] at hok ⊢
  · -- both monitors are handed to the delegator
    cases hdi : delayOrError (delegator.SetStatus w.state op EvalAssistant.internalEval s).1
    · have hi := (delayOrError_eq_false_iff _).mp hdi
      simp only [hdi, if_false, Bool.false_eq_true] at hok ⊢
      cases hde : delayOrError (delegator.SetStatus
          (delegator.SetStatus w.state op EvalAssistant.internalEval s).2
          (delegator.SetStatus w.state op EvalAssistant.internalEval s).1.1
          EvalAssistant.externalEval s).1
      · have he := (delayOrError_eq_false_iff _).mp hde
        simp only [hde, if_false, Bool.false_eq_true] at hok ⊢
        cases a
        · refine ⟨fun _ hv => ?_, fun h => ?_⟩
          · have hfr := hother _ _ EvalAssistant.externalEval EvalAssistant.internalEval s
              hne.symm he
            have hv1 : EvalAssistant.internalEval.IsValid
                (delegator.SetStatus w.state op EvalAssistant.internalEval s).1.1.Avs = true := by
              simpa [EvalAssistant.IsValid, hfr] using hv
            have := hset _ _ _ _ hi hv1
            simpa [EvalAssistant.currentStatus, hfr] using this
          · rw [hmi] at h
            exact absurd h (by decide)
        · refine ⟨fun _ hv => hset _ _ _ _ he hv, fun h => ?_⟩
          rw [hme] at h
          exact absurd h (by decide)
      · simp only [hde, if_true] at hok
        have := (delayOrError_eq_false_iff _).mpr hok
        rw [hde] at this
        exact absurd this (by decide)
    · simp only [hdi, if_true] at hok
      have := (delayOrError_eq_false_iff _).mpr hok
      rw [hdi] at this
      exact absurd this (by decide)
  · -- only the internal monitor is handed to the delegator
    cases hdi : delayOrError (delegator.SetStatus w.state op EvalAssistant.internalEval s).1
    · have hi := (delayOrError_eq_false_iff _).mp hdi
      simp only [hdi, if_false, Bool.false_eq_true] at hok ⊢
      cases a
      · refine ⟨fun _ hv => hset _ _ _ _ hi hv, fun h => ?_⟩
        rw [hmi] at h
        exact absurd h (by decide)
      · refine ⟨fun h => ?_, fun _ => hother _ _ _ _ s hne hi⟩
        rw [hme] at h
        exact absurd h (by decide)
    · simp only [hdi, if_true] at hok
      have := (delayOrError_eq_false_iff _).mpr hok
      rw [hdi] at this
      exact absurd this (by decide)
  · -- only the external monitor is handed to the delegator
    cases hde : delayOrError (delegator.SetStatus w.state op EvalAssistant.externalEval s).1
    · have he := (delayOrError_eq_false_iff _).mp hde
      simp only [hde, if_false, Bool.false_eq_true] at hok ⊢
      cases a
      · refine ⟨fun h => ?_, fun _ => hother _ _ _ _ s hne.symm he⟩
        rw [hmi] at h
        exact absurd h (by decide)
      · refine ⟨fun _ hv => hset _ _ _ _ he hv, fun h => ?_⟩
        rw [hme] at h
        exact absurd h (by decide)
    · simp only [hde, if_true] at hok
      have := (delayOrError_eq_false_iff _).mpr hok
      rw [hde] at this
      exact absurd this (by decide)
  · -- both monitors are skipped
    cases a
    · exact ⟨fun h => by rw [hmi] at h; exact absurd h (by decide), fun _ => trivial⟩
    · exact ⟨fun h => by rw [hme] at h; exact absurd h (by decide), fun _ => trivial⟩

/-- Witness of C2, amended: the well-behaved delegator, asked for "ACTIVE" on an operation whose
internal monitor is in maintenance and whose external monitor is not. -/
theorem SetStatus_success_sets_monitors_not_in_maintenance_witness :
    fixDelegator.SetStatusSetsCurrent ∧ fixDelegator.SetStatusKeepsOther ∧
    ((NewEvaluationManager fixDelegator).SetStatus "ACTIVE"
      (fixOperation monitorInMaintenance monitorInactive) { state := (), calls := [] }).1.2
      = (0, none) ∧
    ((EvalAssistant.externalEval.IsInMaintenance
        (fixOperation monitorInMaintenance monitorInactive).Avs = false →
      EvalAssistant.externalEval.IsValid ((NewEvaluationManager fixDelegator).SetStatus "ACTIVE"
        (fixOperation monitorInMaintenance monitorInactive)
        { state := (), calls := [] }).1.1.Avs = true →
      EvalAssistant.externalEval.currentStatus ((NewEvaluationManager fixDelegator).SetStatus "ACTIVE"
        (fixOperation monitorInMaintenance monitorInactive)
        { state := (), calls := [] }).1.1.Avs = "ACTIVE") ∧
    (EvalAssistant.externalEval.IsInMaintenance
        (fixOperation monitorInMaintenance monitorInactive).Avs = true →
      EvalAssistant.externalEval.monitor ((NewEvaluationManager fixDelegator).SetStatus "ACTIVE"
        (fixOperation monitorInMaintenance monitorInactive)
        { state := (), calls := [] }).1.1.Avs
      = EvalAssistant.externalEval.monitor (fixOperation monitorInMaintenance monitorInactive).Avs)) :=
  have hset : fixDelegator.SetStatusSetsCurrent := by
    intro st op a status _ _
    cases a <;> rfl
  have hother : fixDelegator.SetStatusKeepsOther := by
    intro st op a b status hab _
    cases a <;> cases b <;> first | rfl | exact absurd rfl hab
  ⟨hset, hother, by decide,
    SetStatus_success_sets_monitors_not_in_maintenance fixDelegator hset hother "ACTIVE"
      (fixOperation monitorInMaintenance monitorInactive) { state := (), calls := [] } (by decide)
      EvalAssistant.externalEval⟩

/-- Counterexample to C3: the delegator `failExternalDelegator` hands back the Avs sub-state
unchanged whenever it returns an error; SetStatus "MAINTENANCE" on an operation with both monitors
out of maintenance returns a non-nil error (the external call failed), and the internal monitor
entry of the returned operation is the one the internal call wrote, not the one of the input. -/
theorem SetStatus_error_internal_monitor_changed :
    failExternalDelegator.SetStatusErrorKeepsAvs ∧
    ((NewEvaluationManager failExternalDelegator).SetStatus "MAINTENANCE"
      (fixOperation monitorInactive monitorInactive) { state := (), calls := [] }).1
      = (fixOperation monitorSuspended monitorInactive, 0,
          some "avs: external evaluation unavailable") ∧
    (fixOperation monitorSuspended monitorInactive).Avs.internalMonitor
      ≠ (fixOperation monitorInactive monitorInactive).Avs.internalMonitor := by
  refine ⟨?_, by decide, by decide⟩
  intro st op a status h
  cases a
  · exact absurd rfl h
  · rfl

/-- C3, amended (failed SetStatus): SetStatus restores nothing itself. For a delegator that hands
back the Avs sub-state unchanged whenever it returns an error: (1) when the call for the internal
monitor fails, the result is that call's triple and its Avs sub-state is the one of the input;
(2) when the internal monitor is skipped and the call for the external monitor fails, likewise;
(3) when the call for the internal monitor returned zero delay and nil error and the call for the
external monitor then fails, the result is the triple of the external call and its Avs sub-state is
the one of the operation returned by the internal call, so the internal monitor's change is kept;
(4) a non-nil error of SetStatus always arises in one of these three ways. -/
theorem SetStatus_error_keeps_avs_of_failing_call {σ : Type} (delegator : Delegator σ)
    (hkeep : delegator.SetStatusErrorKeepsAvs)
    (s : String) (op : UpgradeKymaOperation) (w : World σ) :
    (EvalAssistant.internalEval.IsInMaintenance op.Avs = false →
      (delegator.SetStatus w.state op EvalAssistant.internalEval s).1.2.2 ≠ none →
      ((NewEvaluationManager delegator).SetStatus s op w).1
        = (delegator.SetStatus w.state op EvalAssistant.internalEval s).1 ∧
      ((NewEvaluationManager delegator).SetStatus s op w).1.1.Avs = op.Avs) ∧
    (EvalAssistant.internalEval.IsInMaintenance op.Avs = true →
      EvalAssistant.externalEval.IsInMaintenance op.Avs = false →
      (delegator.SetStatus w.state op EvalAssistant.externalEval s).1.2.2 ≠ none →
      ((NewEvaluationManager delegator).SetStatus s op w).1
        = (delegator.SetStatus w.state op EvalAssistant.externalEval s).1 ∧
      ((NewEvaluationManager delegator).SetStatus s op w).1.1.Avs = op.Avs) ∧
    (EvalAssistant.internalEval.IsInMaintenance op.Avs = false →
      EvalAssistant.externalEval.IsInMaintenance op.Avs = false →
      (delegator.SetStatus w.state op EvalAssistant.internalEval s).1.2 = (0, none) →
      (delegator.SetStatus (delegator.SetStatus w.state op EvalAssistant.internalEval s).2
        (delegator.SetStatus w.state op EvalAssistant.internalEval s).1.1
        EvalAssistant.externalEval s).1.2.2 ≠ none →
      ((NewEvaluationManager delegator).SetStatus s op w).1
        = (delegator.SetStatus (delegator.SetStatus w.state op EvalAssistant.internalEval s).2
            (delegator.SetStatus w.state op EvalAssistant.internalEval s).1.1
            EvalAssistant.externalEval s).1 ∧
      ((NewEvaluationManager delegator).SetStatus s op w).1.1.Avs
        = (delegator.SetStatus w.state op EvalAssistant.internalEval s).1.1.Avs) ∧
    (((NewEvaluationManager delegator).SetStatus s op w).1.2.2 ≠ none →
      (EvalAssistant.internalEval.IsInMaintenance op.Avs = false ∧
        (delegator.SetStatus w.state op EvalAssistant.internalEval s).1.2.2 ≠ none) ∨
      (EvalAssistant.internalEval.IsInMaintenance op.Avs = true ∧
        EvalAssistant.externalEval.IsInMaintenance op.Avs = false ∧
        (delegator.SetStatus w.state op EvalAssistant.externalEval s).1.2.2 ≠ none) ∨
      (EvalAssistant.internalEval.IsInMaintenance op.Avs = false ∧
        EvalAssistant.externalEval.IsInMaintenance op.Avs = false ∧
        (delegator.SetStatus w.state op EvalAssistant.internalEval s).1.2 = (0, none) ∧
        (delegator.SetStatus (delegator.SetStatus w.state op EvalAssistant.internalEval s).2
          (delegator.SetStatus w.state op EvalAssistant.internalEval s).1.1
          EvalAssistant.externalEval s).1.2.2 ≠ none)) := by
  have herr : ∀ r : StepResult, r.2.2 ≠ none → delayOrError r = true := by
    intro r h
    obtain ⟨o, d, e⟩ := r
    cases e with
    | none => exact absurd rfl h
    | some msg => simp [delayOrError]
  refine ⟨?_, ?_, ?_, ?_⟩
  · intro hmi he
    have hde := herr _ he
    simp only [EvaluationManager.SetStatus, NewEvaluationManager, Delegator.callSetStatus, hmi,
      hde, Bool.not_false, if_true, true_and]
    exact hkeep _ _ _ _ he
  · intro hmi hme he
    have hde := herr _ he
    simp only [EvaluationManager.SetStatus, NewEvaluationManager, Delegator.callSetStatus, hmi,
      hme, hde, Bool.not_false, Bool.not_true, if_true, if_false, Bool.false_eq_true, true_and]
    exact hkeep _ _ _ _ he
  · intro hmi hme hi he
    have hdi := (delayOrError_eq_false_iff _).mpr hi
    have hde := herr _ he
    simp only [EvaluationManager.SetStatus, NewEvaluationManager, Delegator.callSetStatus, hmi,
      hme, hdi, hde, Bool.not_false, if_true, if_false, Bool.false_eq_true, true_and]
    exact hkeep _ _ _ _ he
  · intro hres
    cases hmi : EvalAssistant.internalEval.IsInMaintenance op.Avs <;>
      cases hme : EvalAssistant.externalEval.IsInMaintenance op.Avs <;>
      simp only [EvaluationManager.SetStatus, NewEvaluationManager, Delegator.callSetStatus, hmi,
        hme, Bool.not_false, Bool.not_true, if_true, if_false, Bool.false_eq_true] at hres ⊢
    · cases hdi : delayOrError (delegator.SetStatus w.state op EvalAssistant.internalEval s).1
      · have hi := (delayOrError_eq_false_iff _).mp hdi
        simp only [hdi, if_false, Bool.false_eq_true] at hres
        cases hde : delayOrError (delegator.SetStatus
            (delegator.SetStatus w.state op EvalAssistant.internalEval s).2
            (delegator.SetStatus w.state op EvalAssistant.internalEval s).1.1
            EvalAssistant.externalEval s).1
        · simp only [hde, if_false, Bool.false_eq_true] at hres
          exact absurd rfl hres
        · simp only [hde, if_true] at hres
          exact Or.inr (Or.inr ⟨trivial, trivial, hi, hres⟩)
      · simp only [hdi, if_true] at hres
        exact Or.inl ⟨trivial, hres⟩
    · cases hdi : delayOrError (delegator.SetStatus w.state op EvalAssistant.internalEval s).1
      · simp only [hdi, if_false, Bool.false_eq_true] at hres
        exact absurd rfl hres
      · simp only [hdi, if_true] at hres
        exact Or.inl ⟨trivial, hres⟩
    · cases hde : delayOrError (delegator.SetStatus w.state op EvalAssistant.externalEval s).1
      · simp only [hde, if_false, Bool.false_eq_true] at hres
        exact absurd rfl hres
      · simp only [hde, if_true] at hres
        exact Or.inr (Or.inl ⟨trivial, trivial, hres⟩)
    · exact absurd rfl hres

/-- Witness of C3, amended: the external call fails after the internal call succeeded; the returned
operation carries the internal monitor as the internal call left it, in maintenance. -/
theorem SetStatus_error_keeps_avs_of_failing_call_witness :
    failExternalDelegator.SetStatusErrorKeepsAvs ∧
    (failExternalDelegator.SetStatus () (fixOperation monitorInactive monitorInactive)
      EvalAssistant.internalEval "MAINTENANCE").1
      = (fixOperation monitorSuspended monitorInactive, 0, none) ∧
    (((NewEvaluationManager failExternalDelegator).SetStatus "MAINTENANCE"
        (fixOperation monitorInactive monitorInactive) { state := (), calls := [] }).1
      = (failExternalDelegator.SetStatus
          (failExternalDelegator.SetStatus () (fixOperation monitorInactive monitorInactive)
            EvalAssistant.internalEval "MAINTENANCE").2
          (failExternalDelegator.SetStatus () (fixOperation monitorInactive monitorInactive)
            EvalAssistant.internalEval "MAINTENANCE").1.1
          EvalAssistant.externalEval "MAINTENANCE").1 ∧
     ((NewEvaluationManager failExternalDelegator).SetStatus "MAINTENANCE"
        (fixOperation monitorInactive monitorInactive) { state := (), calls := [] }).1.1.Avs
      = (failExternalDelegator.SetStatus () (fixOperation monitorInactive monitorInactive)
          EvalAssistant.internalEval "MAINTENANCE").1.1.Avs) :=
  have hkeep : failExternalDelegator.SetStatusErrorKeepsAvs := by
    intro st op a status h
    cases a
    · exact absurd rfl h
    · rfl
  ⟨hkeep, by decide,
    (SetStatus_error_keeps_avs_of_failing_call failExternalDelegator hkeep "MAINTENANCE"
      (fixOperation monitorInactive monitorInactive) { state := (), calls := [] }).2.2.1
      (by decide) (by decide) (by decide) (by decide)⟩

/-- Counterexample to C4: every successful `ResetStatus` of `meddlingDelegator` puts the addressed
monitor back to its previous status and out of maintenance, which is all the claim assumes; yet
`RestoreStatus` on an operation with both monitors in maintenance returns zero delay and nil error
with the internal monitor valid and in maintenance, because the reset of the external monitor wrote
the internal one back. -/
theorem RestoreStatus_success_internal_still_in_maintenance :
    (∀ (st : Unit) (op : UpgradeKymaOperation) (a : EvalAssistant),
      (meddlingDelegator.ResetStatus st op a).1.2 = (0, none) ∧
      a.IsInMaintenance (meddlingDelegator.ResetStatus st op a).1.1.Avs = false ∧
      a.currentStatus (meddlingDelegator.ResetStatus st op a).1.1.Avs
        = (a.monitor op.Avs).previousStatus) ∧
    ((NewEvaluationManager meddlingDelegator).RestoreStatus
      (fixOperation monitorInMaintenance monitorSuspended) { state := (), calls := [] }).1.2
      = (0, none) ∧
    EvalAssistant.internalEval.IsValid ((NewEvaluationManager meddlingDelegator).RestoreStatus
      (fixOperation monitorInMaintenance monitorSuspended)
      { state := (), calls := [] }).1.1.Avs = true ∧
    EvalAssistant.internalEval.IsInMaintenance ((NewEvaluationManager meddlingDelegator).RestoreStatus
      (fixOperation monitorInMaintenance monitorSuspended)
      { state := (), calls := [] }).1.1.Avs = true := by
  refine ⟨?_, by decide, by decide, by decide⟩
  intro st op a
  cases a <;> exact ⟨rfl, rfl, rfl⟩

/-- C4, amended (successful RestoreStatus): for a delegator whose successful ResetStatus puts the
addressed monitor out of maintenance and does not touch the other monitor, if `RestoreStatus op`
returns `(op', 0, nil)` then no monitor that is valid in `op'` is in maintenance in `op'`. -/
theorem RestoreStatus_success_no_valid_monitor_in_maintenance {σ : Type}
    (delegator : Delegator σ)
    (hreset : delegator.ResetStatusLeavesMaintenance) (hother : delegator.ResetStatusKeepsOther)
    (op : UpgradeKymaOperation) (w : World σ)
    (hok : ((NewEvaluationManager delegator).RestoreStatus op w).1.2 = (0, none))
    (a : EvalAssistant)
    (hvalid : a.IsValid ((NewEvaluationManager delegator).RestoreStatus op w).1.1.Avs = true) :
    a.IsInMaintenance ((NewEvaluationManager delegator).RestoreStatus op w).1.1.Avs = false := by
  have hne := internalEval_ne_externalEval
  cases hmi : EvalAssistant.internalEval.IsInMaintenance op.Avs <;>
    cases hme : EvalAssistant.externalEval.IsInMaintenance op.Avs <;>
    simp only [EvaluationManager.RestoreStatus, NewEvaluationManager, Delegator.callResetStatus,
      hmi, hme, if_true, if_false, Bool.false_eq_true] at hok hvalid ⊢
  · -- no monitor is in maintenance: nothing is called
    cases a
    · exact hmi
    · exact hme
  · -- only the external monitor is reset
    cases hde : delayOrError (delegator.ResetStatus w.state op EvalAssistant.externalEval).1
    · have he := (delayOrError_eq_false_iff _).mp hde
      simp only [hde, if_false, Bool.false_eq_true] at hok hvalid ⊢
      cases a
      · have hfr := hother _ _ EvalAssistant.externalEval EvalAssistant.internalEval hne.symm he
        simpa [EvalAssistant.IsInMaintenance, hfr] using hmi
      · exact hreset _ _ _ he hvalid
    · simp only [hde, if_true] at hok
      have := (delayOrError_eq_false_iff _).mpr hok
      rw [hde] at this
      exact absurd this (by decide)
  · -- only the internal monitor is reset
    cases hdi : delayOrError (delegator.ResetStatus w.state op EvalAssistant.internalEval).1
    · have hi := (delayOrError_eq_false_iff _).mp hdi
      simp only [hdi, if_false, Bool.false_eq_true] at hok hvalid ⊢
      cases a
      · exact hreset _ _ _ hi hvalid
      · have hfr := hother _ _ EvalAssistant.internalEval EvalAssistant.externalEval hne hi
        simpa [EvalAssistant.IsInMaintenance, hfr] using hme
    · simp only [hdi, if_true] at hok
      have := (delayOrError_eq_false_iff _).mpr hok
      rw [hdi] at this
      exact absurd this (by decide)
  · -- both monitors are reset, the internal one first
    cases hdi : delayOrError (delegator.ResetStatus w.state op EvalAssistant.internalEval).1
    · have hi := (delayOrError_eq_false_iff _).mp hdi
      simp only [hdi, if_false, Bool.false_eq_true] at hok hvalid ⊢
      cases hde : delayOrError (delegator.ResetStatus
          (delegator.ResetStatus w.state op EvalAssistant.internalEval).2
          (delegator.ResetStatus w.state op EvalAssistant.internalEval).1.1
          EvalAssistant.externalEval).1
      · have he := (delayOrError_eq_false_iff _).mp hde
        simp only [hde, if_false, Bool.false_eq_true] at hok hvalid ⊢
        cases a
        · have hfr := hother _ _ EvalAssistant.externalEval EvalAssistant.internalEval
            hne.symm he
          have hv1 : EvalAssistant.internalEval.IsValid
              (delegator.ResetStatus w.state op EvalAssistant.internalEval).1.1.Avs = true := by
            simpa [EvalAssistant.IsValid, hfr] using hvalid
          have := hreset _ _ _ hi hv1
          simpa [EvalAssistant.IsInMaintenance, hfr] using this
        · exact hreset _ _ _ he hvalid
      · simp only [hde, if_true] at hok
        have := (delayOrError_eq_false_iff _).mpr hok
        rw [hde] at this
        exact absurd this (by decide)
    · simp only [hdi, if_true] at hok
      have := (delayOrError_eq_false_iff _).mpr hok
      rw [hdi] at this
      exact absurd this (by decide)

/-- Witness of C4, amended: the well-behaved delegator restores an operation whose two valid monitors are in
maintenance. -/
theorem RestoreStatus_success_no_valid_monitor_in_maintenance_witness :
    fixDelegator.ResetStatusLeavesMaintenance ∧ fixDelegator.ResetStatusKeepsOther ∧
    ((NewEvaluationManager fixDelegator).RestoreStatus
      (fixOperation monitorInMaintenance monitorSuspended) { state := (), calls := [] }).1.2
      = (0, none) ∧
    EvalAssistant.internalEval.IsValid ((NewEvaluationManager fixDelegator).RestoreStatus
      (fixOperation monitorInMaintenance monitorSuspended)
      { state := (), calls := [] }).1.1.Avs = true ∧
    EvalAssistant.internalEval.IsInMaintenance ((NewEvaluationManager fixDelegator).RestoreStatus
      (fixOperation monitorInMaintenance monitorSuspended)
      { state := (), calls := [] }).1.1.Avs = false :=
  have hreset : fixDelegator.ResetStatusLeavesMaintenance := by
    intro st op a _ _
    cases a <;> rfl
  have hother : fixDelegator.ResetStatusKeepsOther := by
    intro st op a b hab _
    cases a <;> cases b <;> first | rfl | exact absurd rfl hab
  ⟨hreset, hother, by decide, by decide,
    RestoreStatus_success_no_valid_monitor_in_maintenance fixDelegator hreset hother
      (fixOperation monitorInMaintenance monitorSuspended) { state := (), calls := [] }
      (by decide) EvalAssistant.internalEval (by decide)⟩

/-- C7 (RestoreStatus mirrors SetStatus): the delegator calls of `RestoreStatus op` are ResetStatus
calls for monitors that are in maintenance in the input `op`, the internal one before the external
one; when no monitor is in maintenance it returns `(op, 0, nil)` without any delegator call; and
when the internal monitor is in maintenance and its ResetStatus returns `(op1, d, e)` with a
non-zero delay or a non-nil error, it returns exactly `(op1, d, e)` and that call is the only one:
ResetStatus is not called for the external monitor. -/
theorem RestoreStatus_calls_only_monitors_in_maintenance {σ : Type} (delegator : Delegator σ)
    (op : UpgradeKymaOperation) (w : World σ) :
    (∃ calls : List DelegatorCall,
      ((NewEvaluationManager delegator).RestoreStatus op w).2.calls = w.calls ++ calls ∧
      (∀ c ∈ calls, (∃ o, c = DelegatorCall.ResetStatus o c.assistant) ∧
        c.assistant.IsInMaintenance op.Avs = true) ∧
      (calls.map DelegatorCall.assistant).Sublist
        [EvalAssistant.internalEval, EvalAssistant.externalEval]) ∧
    ((∀ a : EvalAssistant, a.IsInMaintenance op.Avs = false) →
      (NewEvaluationManager delegator).RestoreStatus op w = ((op, 0, none), w)) ∧
    (∀ (op1 : UpgradeKymaOperation) (d : Duration) (e : GoError),
      EvalAssistant.internalEval.IsInMaintenance op.Avs = true →
      (delegator.ResetStatus w.state op EvalAssistant.internalEval).1 = (op1, d, e) →
      (d ≠ 0 ∨ e ≠ none) →
      ((NewEvaluationManager delegator).RestoreStatus op w).1 = (op1, d, e) ∧
      ((NewEvaluationManager delegator).RestoreStatus op w).2.calls =
        w.calls ++ [DelegatorCall.ResetStatus op EvalAssistant.internalEval]) := by
  refine ⟨?_, ?_, ?_⟩
  · cases hmi : EvalAssistant.internalEval.IsInMaintenance op.Avs <;>
      cases hme : EvalAssistant.externalEval.IsInMaintenance op.Avs <;>
      simp only [EvaluationManager.RestoreStatus, NewEvaluationManager,
        Delegator.callResetStatus, hmi, hme, if_true, if_false, Bool.false_eq_true]
    · exact ⟨[], by simp, by simp, by simp⟩
    · refine ⟨[DelegatorCall.ResetStatus op EvalAssistant.externalEval], ?_, ?_, ?_⟩
      · split <;> rfl
      · intro c hc
        rw [List.mem_singleton] at hc
        subst hc
        exact ⟨⟨_, rfl⟩, hme⟩
      · exact List.Sublist.cons _ (List.Sublist.refl _)
    · refine ⟨[DelegatorCall.ResetStatus op EvalAssistant.internalEval], ?_, ?_, ?_⟩
      · split <;> rfl
      · intro c hc
        rw [List.mem_singleton] at hc
        subst hc
        exact ⟨⟨_, rfl⟩, hmi⟩
      · exact List.Sublist.cons₂ _ (List.nil_sublist _)
    · cases hdi : delayOrError (delegator.ResetStatus w.state op EvalAssistant.internalEval).1
      · simp only [if_false, Bool.false_eq_true]
        refine ⟨[DelegatorCall.ResetStatus op EvalAssistant.internalEval,
          DelegatorCall.ResetStatus (delegator.ResetStatus w.state op
            EvalAssistant.internalEval).1.1 EvalAssistant.externalEval], ?_, ?_, ?_⟩
        · split <;> simp
        · intro c hc
          simp only [List.mem_cons, List.mem_singleton, List.not_mem_nil, or_false] at hc
          rcases hc with hc | hc <;> subst hc
          · exact ⟨⟨_, rfl⟩, hmi⟩
          · exact ⟨⟨_, rfl⟩, hme⟩
        · exact List.Sublist.refl _
      · simp only [if_true]
        refine ⟨[DelegatorCall.ResetStatus op EvalAssistant.internalEval], rfl, ?_, ?_⟩
        · intro c hc
          rw [List.mem_singleton] at hc
          subst hc
          exact ⟨⟨_, rfl⟩, hmi⟩
        · exact List.Sublist.cons₂ _ (List.nil_sublist _)
  · intro hnone
    simp only [EvaluationManager.RestoreStatus, NewEvaluationManager,
      hnone EvalAssistant.internalEval, hnone EvalAssistant.externalEval, if_false,
      Bool.false_eq_true]
  · intro op1 d e hmi hcall hstop
    have hde : delayOrError (delegator.ResetStatus w.state op EvalAssistant.internalEval).1
        = true := by
      rw [hcall]
      rcases hstop with h | h
      · simp [delayOrError, h]
      · cases e with
        | none => exact absurd rfl h
        | some msg => simp [delayOrError]
    simp only [EvaluationManager.RestoreStatus, NewEvaluationManager,
      Delegator.callResetStatus, hmi, hde, if_true]
    exact ⟨hcall, trivial⟩

/-- Witness of C7: the internal monitor is in maintenance and its reset asks for a retry. -/
theorem RestoreStatus_calls_only_monitors_in_maintenance_witness :
    ((NewEvaluationManager (retryDelegator 10)).RestoreStatus
      (fixOperation monitorInMaintenance monitorSuspended) { state := (), calls := [] }).1
      = (fixOperation monitorInMaintenance monitorSuspended, 10, none) ∧
    ((NewEvaluationManager (retryDelegator 10)).RestoreStatus
      (fixOperation monitorInMaintenance monitorSuspended) { state := (), calls := [] }).2.calls
      = [] ++ [DelegatorCall.ResetStatus (fixOperation monitorInMaintenance monitorSuspended)
          EvalAssistant.internalEval] :=
  (RestoreStatus_calls_only_monitors_in_maintenance (retryDelegator 10)
    (fixOperation monitorInMaintenance monitorSuspended) { state := (), calls := [] }).2.2
    (fixOperation monitorInMaintenance monitorSuspended) 10 none (by decide) rfl
    (Or.inl (by decide))

/-! ## Properties of the Azure provider input -/

/-- Region after `updateString(&input.GardenerConfig.Region, value)`. -/
theorem regionOf_assignRegion (input : Option ClusterConfigInput) (value : Option String) :
    regionOf (assignRegion input value).input
      = (regionOf input).map fun old => updateString old value := by
  cases input with
  | none => rfl
  | some c =>
    cases hg : c.GardenerConfig with
    | none => simp [assignRegion, regionOf, hg]
    | some g => simp [assignRegion, regionOf, hg]

/-- The zones update leaves the region alone. -/
theorem regionOf_assignZones (deps : ProviderDeps) (input : Option ClusterConfigInput)
    (value : StringSlice) : regionOf (assignZones deps input value).input = regionOf input := by
  cases input with
  | none => rfl
  | some c =>
    cases hg : c.GardenerConfig with
    | none => simp [assignZones, regionOf, hg]
    | some g =>
      cases hps : g.ProviderSpecificConfig with
      | none => simp [assignZones, regionOf, hg, hps]
      | some ps =>
        cases haz : ps.AzureConfig with
        | none => simp [assignZones, regionOf, hg, hps, haz]
        | some az => simp [assignZones, regionOf, hg, hps, haz]

/-- The region update panics exactly when there is no Gardener configuration, and then leaves the
input as it is. -/
theorem assignRegion_panicked (input : Option ClusterConfigInput) (value : Option String) :
    (assignRegion input value).panicked = true →
      (assignRegion input value).input = input ∧ regionOf input = none := by
  cases input with
  | none => intro _; exact ⟨rfl, rfl⟩
  | some c =>
    cases hg : c.GardenerConfig with
    | none => intro _; simp [assignRegion, regionOf, hg]
    | some g => simp [assignRegion, hg]

/-- A step of `ApplyParameters` that is either a region update or nothing at all: the region it
leaves, and that it panics only when there is no Gardener configuration. -/
theorem regionOf_step (o : ApplyOutcome) (input : Option ClusterConfigInput)
    (value : Option String)
    (h : o = assignRegion input value ∨
      (o = { input := input, panicked := false } ∧ value = none)) :
    regionOf o.input = (regionOf input).map (fun old => updateString old value) ∧
    (o.panicked = true → regionOf input = none) := by
  rcases h with h | ⟨h, hv⟩
  · subst h
    exact ⟨regionOf_assignRegion input value, fun hp => (assignRegion_panicked input value hp).2⟩
  · subst h
    subst hv
    refine ⟨?_, fun hp => absurd hp (by simp)⟩
    cases hr : regionOf input <;> simp [updateString]

/-- Region left by the Trial `ApplyParameters`: the region of the input, overwritten first by the
Azure region of the mapped platform region and then by the Azure region of the explicit parameter
region, each only when it exists. -/
theorem regionOf_AzureTrialInput_ApplyParameters (deps : ProviderDeps) (p : AzureTrialInput)
    (input : Option ClusterConfigInput) (pp : ProvisioningParameters) :
    regionOf (p.ApplyParameters deps input pp).input
      = (regionOf input).map fun old =>
          updateString
            (updateString old
              (if pp.PlatformRegion ≠ "" then
                (p.PlatformRegionMapping pp.PlatformRegion).bind (toAzureSpecific deps)
               else none))
            (pp.Parameters.Region.bind (toAzureSpecific deps)) := by
  -- the two region steps of the method
  obtain ⟨o1, ho1⟩ : ∃ o1 : ApplyOutcome, o1 =
      (if pp.PlatformRegion ≠ "" then
        match p.PlatformRegionMapping pp.PlatformRegion with
        | some abstractRegion => assignRegion input (toAzureSpecific deps abstractRegion)
        | none => { input := input, panicked := false }
      else { input := input, panicked := false }) := ⟨_, rfl⟩
  obtain ⟨o2, ho2⟩ : ∃ o2 : ApplyOutcome, o2 =
      (match pp.Parameters.Region with
        | some region => assignRegion o1.input (toAzureSpecific deps region)
        | none => { input := o1.input, panicked := false }) := ⟨_, rfl⟩
  have hres : p.ApplyParameters deps input pp =
      if o1.panicked then o1
      else if o2.panicked then o2 else assignZones deps o2.input pp.Parameters.Zones := by
    subst ho2
    subst ho1
    rfl
  have h1 := regionOf_step o1 input
    (if pp.PlatformRegion ≠ "" then
      (p.PlatformRegionMapping pp.PlatformRegion).bind (toAzureSpecific deps) else none)
    (by
      rw [ho1]
      by_cases hp : pp.PlatformRegion = ""
      · simp [hp]
      · cases hm : p.PlatformRegionMapping pp.PlatformRegion <;> simp [hp])
  have h2 := regionOf_step o2 o1.input (pp.Parameters.Region.bind (toAzureSpecific deps))
    (by
      rw [ho2]
      cases hr : pp.Parameters.Region <;> simp)
  rw [hres]
  cases hp1 : o1.panicked
  · cases hp2 : o2.panicked
    · simp only [if_false, Bool.false_eq_true, regionOf_assignZones]
      rw [h2.1, h1.1]
      cases regionOf input <;> rfl
    · simp only [if_false, if_true, Bool.false_eq_true]
      have hn := h2.2 hp2
      rw [h2.1, hn]
      rw [h1.1] at hn
      cases hr : regionOf input
      · rfl
      · rw [hr] at hn
        exact absurd hn (by simp)
  · simp only [if_true]
    have hn := h1.2 hp1
    rw [h1.1, hn]
    rfl

/-- Counterexample to C9: two provisioning parameters with the same explicit parameter region
"mars", which is no key of the Azure table, that differ only in the platform region ("cf-eu10",
mapped to Europe, and "cf-us10", mapped to Us): applied to the Trial defaults they leave the
regions "westeurope" and "eastus", so the explicit region did not override the platform region. -/
theorem ApplyParameters_unknown_explicit_region_does_not_override :
    (fixParameters "cf-eu10" (some "mars")).Parameters
      = (fixParameters "cf-us10" (some "mars")).Parameters ∧
    { fixParameters "cf-eu10" (some "mars") with PlatformRegion := "cf-us10" }
      = fixParameters "cf-us10" (some "mars") ∧
    (fixParameters "cf-eu10" (some "mars")).Parameters.Region ≠ none ∧
    regionOf (fixTrial.ApplyParameters fixDeps (fixTrial.Defaults fixDeps)
      (fixParameters "cf-eu10" (some "mars"))).input = some "westeurope" ∧
    regionOf (fixTrial.ApplyParameters fixDeps (fixTrial.Defaults fixDeps)
      (fixParameters "cf-us10" (some "mars"))).input = some "eastus" := by
  refine ⟨by decide, by decide, by decide, by decide, by decide⟩

/-- C9, amended (explicit region overrides): if two provisioning parameters carry the same explicit
parameter region and that region is a key of the Azure table (Europe, Us or Asia), then whatever
their platform regions and the platform region mapping are, the Trial `ApplyParameters` leaves the
same `GardenerConfig.Region` for both, namely the Azure region of the explicit region whenever the
input has a Gardener configuration. -/
theorem ApplyParameters_known_explicit_region_overrides (deps : ProviderDeps)
    (p : AzureTrialInput) (input : Option ClusterConfigInput)
    (pp1 pp2 : ProvisioningParameters) (region azureRegion : String)
    (hsame : pp1.Parameters = pp2.Parameters)
    (hregion : pp1.Parameters.Region = some region)
    (hknown : toAzureSpecific deps region = some azureRegion) :
    regionOf (p.ApplyParameters deps input pp1).input
      = regionOf (p.ApplyParameters deps input pp2).input ∧
    regionOf (p.ApplyParameters deps input pp1).input
      = (regionOf input).map fun _ => azureRegion := by
  have h1 := regionOf_AzureTrialInput_ApplyParameters deps p input pp1
  have h2 := regionOf_AzureTrialInput_ApplyParameters deps p input pp2
  rw [← hsame] at h2
  simp only [hregion, Option.some_bind, hknown, updateString] at h1 h2
  exact ⟨h1.trans h2.symm, h1⟩

/-- Witness of C9, amended: the explicit region "asia" with the platform regions "cf-eu10" and
"cf-us10". -/
theorem ApplyParameters_known_explicit_region_overrides_witness :
    (fixParameters "cf-eu10" (some "asia")).Parameters
      = (fixParameters "cf-us10" (some "asia")).Parameters ∧
    (fixParameters "cf-eu10" (some "asia")).Parameters.Region = some "asia" ∧
    toAzureSpecific fixDeps "asia" = some "southeastasia" ∧
    (regionOf (fixTrial.ApplyParameters fixDeps (fixTrial.Defaults fixDeps)
        (fixParameters "cf-eu10" (some "asia"))).input
      = regionOf (fixTrial.ApplyParameters fixDeps (fixTrial.Defaults fixDeps)
        (fixParameters "cf-us10" (some "asia"))).input ∧
    regionOf (fixTrial.ApplyParameters fixDeps (fixTrial.Defaults fixDeps)
        (fixParameters "cf-eu10" (some "asia"))).input
      = (regionOf (fixTrial.Defaults fixDeps)).map fun _ => "southeastasia") :=
  ⟨by decide, by decide, by decide,
    ApplyParameters_known_explicit_region_overrides fixDeps fixTrial (fixTrial.Defaults fixDeps)
      (fixParameters "cf-eu10" (some "asia")) (fixParameters "cf-us10" (some "asia"))
      "asia" "southeastasia" (by decide) (by decide) (by decide)⟩

/-- C10 (platform region resolution): with no explicit parameter region, a non-empty platform
region that the platform region mapping sends to the abstract region `a`, and an input that has a
Gardener configuration, the Trial `ApplyParameters` sets `GardenerConfig.Region` to "westeurope"
when `a` is Europe, to "eastus" when `a` is Us and to "southeastasia" when `a` is Asia (the three
abstract region names being pairwise distinct, as keys of a map literal are). -/
theorem ApplyParameters_platform_region (deps : ProviderDeps) (p : AzureTrialInput)
    (input : Option ClusterConfigInput) (pp : ProvisioningParameters) (a old : String)
    (hdistinct : deps.KeysDistinct)
    (hcfg : regionOf input = some old)
    (hnone : pp.Parameters.Region = none)
    (hplatform : pp.PlatformRegion ≠ "")
    (hmap : p.PlatformRegionMapping pp.PlatformRegion = some a) :
    (a = deps.Europe → regionOf (p.ApplyParameters deps input pp).input = some "westeurope") ∧
    (a = deps.Us → regionOf (p.ApplyParameters deps input pp).input = some "eastus") ∧
    (a = deps.Asia → regionOf (p.ApplyParameters deps input pp).input = some "southeastasia") := by
  obtain ⟨heu, hea, hua⟩ := hdistinct
  have h := regionOf_AzureTrialInput_ApplyParameters deps p input pp
  simp only [hcfg, hnone, hmap, hplatform, ne_eq, not_false_eq_true, if_true, Option.some_bind,
    Option.none_bind, Option.map_some'] at h
  refine ⟨fun ha => ?_, fun ha => ?_, fun ha => ?_⟩
  · rw [h, ha]
    simp [toAzureSpecific, updateString, europeAzure]
  · rw [h, ha]
    simp [toAzureSpecific, updateString, usAzure, Ne.symm heu]
  · rw [h, ha]
    simp [toAzureSpecific, updateString, asiaAzure, Ne.symm hea, Ne.symm hua]

/-- Witness of C10: the platform region "cf-us10", mapped to Us, on the Trial defaults. -/
theorem ApplyParameters_platform_region_witness :
    fixDeps.KeysDistinct ∧
    regionOf (fixTrial.Defaults fixDeps) = some "westeurope" ∧
    (fixParameters "cf-us10" none).Parameters.Region = none ∧
    (fixParameters "cf-us10" none).PlatformRegion ≠ "" ∧
    fixTrial.PlatformRegionMapping (fixParameters "cf-us10" none).PlatformRegion = some "us" ∧
    regionOf (fixTrial.ApplyParameters fixDeps (fixTrial.Defaults fixDeps)
      (fixParameters "cf-us10" none)).input = some "eastus" :=
  ⟨by decide, by decide, by decide, by decide, by decide,
    (ApplyParameters_platform_region fixDeps fixTrial (fixTrial.Defaults fixDeps)
      (fixParameters "cf-us10" none) "us" "westeurope" (by decide) (by decide) (by decide)
      (by decide) (by decide)).2.1 (by decide)⟩

/-- The region update changes no field of the Gardener configuration but `Region`: any
observation `f` that does not look at `Region` sees the same value before and after. -/
theorem gardenerOf_assignRegion_map {α : Type} (f : GardenerConfigInput → α)
    (hf : ∀ (g : GardenerConfigInput) (r : String), f { g with Region := r } = f g)
    (input : Option ClusterConfigInput) (value : Option String) :
    (gardenerOf (assignRegion input value).input).map f = (gardenerOf input).map f := by
  cases input with
  | none => rfl
  | some c =>
    cases hg : c.GardenerConfig with
    | none => simp [assignRegion, gardenerOf, hg]
    | some g => simp [assignRegion, gardenerOf, hg, hf]

/-- The zones update changes no field of the Gardener configuration but
`ProviderSpecificConfig`. -/
theorem gardenerOf_assignZones_map {α : Type} (f : GardenerConfigInput → α)
    (hf : ∀ (g : GardenerConfigInput) (ps : Option ProviderSpecificInput),
      f { g with ProviderSpecificConfig := ps } = f g)
    (deps : ProviderDeps) (input : Option ClusterConfigInput) (value : StringSlice) :
    (gardenerOf (assignZones deps input value).input).map f = (gardenerOf input).map f := by
  cases input with
  | none => rfl
  | some c =>
    cases hg : c.GardenerConfig with
    | none => simp [assignZones, gardenerOf, hg]
    | some g =>
      cases hps : g.ProviderSpecificConfig with
      | none => simp [assignZones, gardenerOf, hg, hps]
      | some ps =>
        cases haz : ps.AzureConfig with
        | none => simp [assignZones, gardenerOf, hg, hps, haz]
        | some az => simp [assignZones, gardenerOf, hg, hps, haz, hf]

/-- Shape of the Trial `ApplyParameters`: two steps that are each a region update or nothing,
then the zones update, a panic ending the call at once. -/
theorem AzureTrialInput_ApplyParameters_steps (deps : ProviderDeps) (p : AzureTrialInput)
    (input : Option ClusterConfigInput) (pp : ProvisioningParameters) :
    ∃ o1 o2 : ApplyOutcome,
      ((∃ v, o1 = assignRegion input v) ∨ o1 = { input := input, panicked := false }) ∧
      ((∃ v, o2 = assignRegion o1.input v) ∨ o2 = { input := o1.input, panicked := false }) ∧
      p.ApplyParameters deps input pp =
        if o1.panicked then o1
        else if o2.panicked then o2 else assignZones deps o2.input pp.Parameters.Zones := by
  refine ⟨(if pp.PlatformRegion ≠ "" then
        match p.PlatformRegionMapping pp.PlatformRegion with
        | some abstractRegion => assignRegion input (toAzureSpecific deps abstractRegion)
        | none => { input := input, panicked := false }
      else { input := input, panicked := false }), _, ?_, ?_, rfl⟩
  · by_cases hp : pp.PlatformRegion = ""
    · simp [hp]
    · cases hm : p.PlatformRegionMapping pp.PlatformRegion with
      | none => simp [hp]
      | some a => exact Or.inl ⟨toAzureSpecific deps a, by simp [hp]⟩
  · cases hr : pp.Parameters.Region with
    | none => exact Or.inr rfl
    | some r => exact Or.inl ⟨toAzureSpecific deps r, rfl⟩

/-- Frame of the Trial `ApplyParameters`: an observation of the Gardener configuration that looks
neither at `Region` nor at `ProviderSpecificConfig` is the same before and after the call, for
every provisioning parameters. -/
theorem gardenerOf_AzureTrialInput_ApplyParameters_map {α : Type}
    (f : GardenerConfigInput → α)
    (hregion : ∀ (g : GardenerConfigInput) (r : String), f { g with Region := r } = f g)
    (hzones : ∀ (g : GardenerConfigInput) (ps : Option ProviderSpecificInput),
      f { g with ProviderSpecificConfig := ps } = f g)
    (deps : ProviderDeps) (p : AzureTrialInput) (input : Option ClusterConfigInput)
    (pp : ProvisioningParameters) :
    (gardenerOf (p.ApplyParameters deps input pp).input).map f = (gardenerOf input).map f := by
  obtain ⟨o1, o2, h1, h2, hres⟩ := AzureTrialInput_ApplyParameters_steps deps p input pp
  have e1 : (gardenerOf o1.input).map f = (gardenerOf input).map f := by
    rcases h1 with ⟨v, h⟩ | h
    · rw [h]
      exact gardenerOf_assignRegion_map f hregion _ _
    · rw [h]
  have e2 : (gardenerOf o2.input).map f = (gardenerOf input).map f := by
    rcases h2 with ⟨v, h⟩ | h
    · rw [h, gardenerOf_assignRegion_map f hregion, e1]
    · rw [h]
      exact e1
  rw [hres]
  cases o1.panicked
  · cases o2.panicked
    · simp only [if_false, Bool.false_eq_true]
      rw [gardenerOf_assignZones_map f hzones, e2]
    · simpa using e2
  · simpa using e1

/-- C11 (unknown regions fall back to the default): when the platform region is empty, absent from
the platform region mapping or mapped to an abstract region outside the Azure table, and the
explicit parameter region is nil or outside the Azure table, the Trial `ApplyParameters` applied to
the Trial `Defaults` leaves `GardenerConfig.Region` at `DefaultAzureRegion`, "westeurope". -/
theorem ApplyParameters_unknown_regions_fall_back_to_default (deps : ProviderDeps)
    (p : AzureTrialInput) (pp : ProvisioningParameters)
    (hplatform : pp.PlatformRegion = "" ∨ p.PlatformRegionMapping pp.PlatformRegion = none ∨
      ∃ a, p.PlatformRegionMapping pp.PlatformRegion = some a ∧ toAzureSpecific deps a = none)
    (hparam : pp.Parameters.Region = none ∨
      ∃ r, pp.Parameters.Region = some r ∧ toAzureSpecific deps r = none) :
    regionOf (p.ApplyParameters deps (p.Defaults deps) pp).input = some DefaultAzureRegion ∧
    DefaultAzureRegion = "westeurope" := by
  refine ⟨?_, rfl⟩
  have h := regionOf_AzureTrialInput_ApplyParameters deps p (p.Defaults deps) pp
  have hp : (if pp.PlatformRegion ≠ "" then
      (p.PlatformRegionMapping pp.PlatformRegion).bind (toAzureSpecific deps) else none)
      = none := by
    rcases hplatform with h0 | h0 | ⟨a, h0, h1⟩
    · simp [h0]
    · simp [h0]
    · simp [h0, h1]
  have hq : pp.Parameters.Region.bind (toAzureSpecific deps) = none := by
    rcases hparam with h0 | ⟨r, h0, h1⟩
    · simp [h0]
    · simp [h0, h1]
  rw [hp, hq] at h
  rw [h]
  rfl

/-- Witness of C11: the platform region "cf-jp10" is absent from the mapping and the explicit
region "mars" is outside the Azure table. -/
theorem ApplyParameters_unknown_regions_fall_back_to_default_witness :
    fixTrial.PlatformRegionMapping (fixParameters "cf-jp10" (some "mars")).PlatformRegion = none ∧
    (fixParameters "cf-jp10" (some "mars")).Parameters.Region = some "mars" ∧
    toAzureSpecific fixDeps "mars" = none ∧
    (regionOf (fixTrial.ApplyParameters fixDeps (fixTrial.Defaults fixDeps)
      (fixParameters "cf-jp10" (some "mars"))).input = some DefaultAzureRegion ∧
    DefaultAzureRegion = "westeurope") :=
  ⟨by decide, by decide, by decide,
    ApplyParameters_unknown_regions_fall_back_to_default fixDeps fixTrial
      (fixParameters "cf-jp10" (some "mars")) (Or.inr (Or.inl (by decide)))
      (Or.inr ⟨"mars", by decide, by decide⟩)⟩

/-- Counterexample to C12: `Purpose` of the Trial `Defaults` is the address of the package
variable `trialPurpose`. Once a holder of an earlier result has written "production" through that
pointer, the configuration obtained from `Defaults` and `ApplyParameters` reads "production", not
"evaluation". -/
theorem Defaults_purpose_reads_package_variable :
    (gardenerOf (fixTrial.Defaults fixDeps)).map (fun g => g.Purpose)
      = some (some StringPtr.trialPurposeVar) ∧
    (StringPtr.store PackageVars.initial StringPtr.trialPurposeVar "production").1
      = { trialPurpose := "production" } ∧
    purposeOf (StringPtr.store PackageVars.initial StringPtr.trialPurposeVar "production").1
      (fixTrial.ApplyParameters fixDeps (fixTrial.Defaults fixDeps)
        (fixParameters "cf-eu10" none)).input = some (some "production") ∧
    ("production" : String) ≠ "evaluation" := by
  refine ⟨by decide, by decide, by decide, by decide⟩

/-- C12, amended (Trial markers): for every provisioning parameters, the configuration left by the
Trial `ApplyParameters` on the Trial `Defaults` has `AutoScalerMin = AutoScalerMax = 1` and its
`Purpose` is the address of the package variable `trialPurpose`; it reads what that variable
holds, which is "evaluation" as the package initialises it and as long as nobody has written
through the pointer. The call itself never changes the `Purpose` pointer or the autoscaler bounds,
whatever its input and parameters are. -/
theorem ApplyParameters_keeps_trial_purpose_and_autoscaler (deps : ProviderDeps)
    (p : AzureTrialInput) (pp : ProvisioningParameters) :
    ((gardenerOf (p.ApplyParameters deps (p.Defaults deps) pp).input).map
        (fun g => g.Purpose) = some (some StringPtr.trialPurposeVar) ∧
     (∀ vars : PackageVars,
        purposeOf vars (p.ApplyParameters deps (p.Defaults deps) pp).input
          = some (some vars.trialPurpose)) ∧
     (∀ vars : PackageVars, vars.trialPurpose = "evaluation" →
        purposeOf vars (p.ApplyParameters deps (p.Defaults deps) pp).input
          = some (some "evaluation")) ∧
     purposeOf PackageVars.initial (p.ApplyParameters deps (p.Defaults deps) pp).input
        = some (some "evaluation") ∧
     (gardenerOf (p.ApplyParameters deps (p.Defaults deps) pp).input).map
        (fun g => g.AutoScalerMin) = some 1 ∧
     (gardenerOf (p.ApplyParameters deps (p.Defaults deps) pp).input).map
        (fun g => g.AutoScalerMax) = some 1) ∧
    (∀ input : Option ClusterConfigInput,
      (gardenerOf (p.ApplyParameters deps input pp).input).map (fun g => g.Purpose)
        = (gardenerOf input).map (fun g => g.Purpose) ∧
      (gardenerOf (p.ApplyParameters deps input pp).input).map (fun g => g.AutoScalerMin)
        = (gardenerOf input).map (fun g => g.AutoScalerMin) ∧
      (gardenerOf (p.ApplyParameters deps input pp).input).map (fun g => g.AutoScalerMax)
        = (gardenerOf input).map (fun g => g.AutoScalerMax)) := by
  have hframe : ∀ input : Option ClusterConfigInput,
      (gardenerOf (p.ApplyParameters deps input pp).input).map (fun g => g.Purpose)
        = (gardenerOf input).map (fun g => g.Purpose) ∧
      (gardenerOf (p.ApplyParameters deps input pp).input).map (fun g => g.AutoScalerMin)
        = (gardenerOf input).map (fun g => g.AutoScalerMin) ∧
      (gardenerOf (p.ApplyParameters deps input pp).input).map (fun g => g.AutoScalerMax)
        = (gardenerOf input).map (fun g => g.AutoScalerMax) := fun input =>
    ⟨gardenerOf_AzureTrialInput_ApplyParameters_map (fun g => g.Purpose)
        (fun _ _ => rfl) (fun _ _ => rfl) deps p input pp,
      gardenerOf_AzureTrialInput_ApplyParameters_map (fun g => g.AutoScalerMin)
        (fun _ _ => rfl) (fun _ _ => rfl) deps p input pp,
      gardenerOf_AzureTrialInput_ApplyParameters_map (fun g => g.AutoScalerMax)
        (fun _ _ => rfl) (fun _ _ => rfl) deps p input pp⟩
  refine ⟨?_, hframe⟩
  obtain ⟨h1, h2, h3⟩ := hframe (p.Defaults deps)
  have hload : ∀ vars : PackageVars,
      purposeOf vars (p.ApplyParameters deps (p.Defaults deps) pp).input
        = some (some vars.trialPurpose) := by
    intro vars
    have : purposeOf vars (p.ApplyParameters deps (p.Defaults deps) pp).input
        = ((gardenerOf (p.ApplyParameters deps (p.Defaults deps) pp).input).map
            (fun g => g.Purpose)).map (fun ptr => ptr.map (StringPtr.load vars)) := by
      rw [Option.map_map]
      rfl
    rw [this, h1]
    rfl
  refine ⟨?_, hload, ?_, ?_, ?_, ?_⟩
  · rw [h1]
    rfl
  · intro vars hv
    rw [hload vars, hv]
  · rw [hload]
    rfl
  · rw [h2]
    rfl
  · rw [h3]
    rfl

/-- Witness of C12, amended: the package variables as initialised. -/
theorem ApplyParameters_keeps_trial_purpose_and_autoscaler_witness :
    PackageVars.initial.trialPurpose = "evaluation" ∧
    purposeOf PackageVars.initial (fixTrial.ApplyParameters fixDeps (fixTrial.Defaults fixDeps)
      (fixParameters "cf-eu10" (some "asia"))).input = some (some "evaluation") :=
  ⟨rfl,
    (ApplyParameters_keeps_trial_purpose_and_autoscaler fixDeps fixTrial
      (fixParameters "cf-eu10" (some "asia"))).1.2.2.1 PackageVars.initial rfl⟩

/-- C13 (profile per plan): `Profile` is Production for the standard plan and Evaluation for the
Lite and Trial plans, whatever the receiver holds (for Trial, whatever the platform region mapping
is). -/
theorem Profile_per_plan :
    (∀ p : AzureInput, p.Profile = KymaProfile.Production) ∧
    (∀ p : AzureLiteInput, p.Profile = KymaProfile.Evaluation) ∧
    (∀ p : AzureTrialInput, p.Profile = KymaProfile.Evaluation) :=
  ⟨fun _ => rfl, fun _ => rfl, fun _ => rfl⟩

/-- C14 (fixed defaults per plan): whatever the receiver, the `Defaults` of the three plans have
provider "azure", region "westeurope", disk type "Standard_LRS", volume size 50, worker CIDR and
VNet CIDR "10.250.0.0/19", the zones of `generateDefaultAzureZones()` and autoscaler bounds with
`1 <= AutoScalerMin <= AutoScalerMax`; the standard plan has machine type "Standard_D8_v3",
autoscaler 2..10, MaxSurge 4, MaxUnavailable 0 and no purpose; Lite has "Standard_D4_v3", 3..4,
MaxSurge 4, MaxUnavailable 1 and no purpose; Trial has "Standard_D4_v3", 1..1, MaxSurge 1 and
MaxUnavailable 1. -/
theorem Defaults_fixed_per_plan (deps : ProviderDeps) (standard : AzureInput)
    (lite : AzureLiteInput) (trial : AzureTrialInput) :
    (∀ d ∈ [standard.Defaults deps, lite.Defaults deps, trial.Defaults deps],
      (gardenerOf d).map (fun g => g.Provider) = some "azure" ∧
      regionOf d = some "westeurope" ∧
      (gardenerOf d).map (fun g => g.DiskType) = some "Standard_LRS" ∧
      (gardenerOf d).map (fun g => g.VolumeSizeGb) = some 50 ∧
      (gardenerOf d).map (fun g => g.WorkerCidr) = some "10.250.0.0/19" ∧
      vnetCidrOf d = some "10.250.0.0/19" ∧
      zonesOf d = some deps.generateDefaultAzureZones ∧
      ∃ g, gardenerOf d = some g ∧ 1 ≤ g.AutoScalerMin ∧ g.AutoScalerMin ≤ g.AutoScalerMax) ∧
    ((gardenerOf (standard.Defaults deps)).map
        (fun g => (g.MachineType, g.AutoScalerMin, g.AutoScalerMax, g.MaxSurge, g.MaxUnavailable,
          g.Purpose))
      = some ("Standard_D8_v3", 2, 10, 4, 0, none)) ∧
    ((gardenerOf (lite.Defaults deps)).map
        (fun g => (g.MachineType, g.AutoScalerMin, g.AutoScalerMax, g.MaxSurge, g.MaxUnavailable,
          g.Purpose))
      = some ("Standard_D4_v3", 3, 4, 4, 1, none)) ∧
    ((gardenerOf (trial.Defaults deps)).map
        (fun g => (g.MachineType, g.AutoScalerMin, g.AutoScalerMax, g.MaxSurge, g.MaxUnavailable))
      = some ("Standard_D4_v3", 1, 1, 1, 1)) := by
  refine ⟨?_, rfl, rfl, rfl⟩
  intro d hd
  simp only [List.mem_cons, List.mem_singleton, List.not_mem_nil, or_false] at hd
  rcases hd with hd | hd | hd <;> subst hd
  · exact ⟨rfl, rfl, rfl, rfl, rfl, rfl, rfl, _, rfl, by show (1 : Int) ≤ 2; decide,
      by show (2 : Int) ≤ 10; decide⟩
  · exact ⟨rfl, rfl, rfl, rfl, rfl, rfl, rfl, _, rfl, by show (1 : Int) ≤ 3; decide,
      by show (3 : Int) ≤ 4; decide⟩
  · exact ⟨rfl, rfl, rfl, rfl, rfl, rfl, rfl, _, rfl, by show (1 : Int) ≤ 1; decide,
      by show (1 : Int) ≤ 1; decide⟩

/-! ## Properties of the update controller -/

/-- The three scenarios of `instance_update_test.go` (suspension, unsuspension, wrong active value):
the handler is called once, with the incoming context, and the instance it is handed carries the
inverted `active` and the recovered credentials. -/
theorem Update_agrees_with_tests :
    (({ handler := fixHandler } : UpdateEndpoint Unit).Update instanceID
      (fixUpdateDetails (RawContext.object (some false))) true
      (fixUpdateWorld none [fixProvisioningOperation "01" 1, fixSuspensionOperation 2,
        fixProvisioningOperation "02" 3])).2.calls.map
        (fun c => (c.inst.Parameters.ErsContext.Active,
          c.inst.Parameters.ErsContext.ServiceManager, c.ersContext))
      = [(some true, some (fixServiceManager "u" "p"), incomingContext (some false))] ∧
    (({ handler := fixHandler } : UpdateEndpoint Unit).Update instanceID
      (fixUpdateDetails (RawContext.object (some true))) true
      (fixUpdateWorld none [fixProvisioningOperation "01" 1, fixSuspensionOperation 2])).2.calls.map
        (fun c => (c.inst.Parameters.ErsContext.Active,
          c.inst.Parameters.ErsContext.ServiceManager, c.ersContext))
      = [(some false, some (fixServiceManager "u" "p"), incomingContext (some true))] ∧
    (({ handler := fixHandler } : UpdateEndpoint Unit).Update instanceID
      (fixUpdateDetails (RawContext.object (some false))) true
      (fixUpdateWorld (some false) [fixProvisioningOperation "01" 1])).2.calls.map
        (fun c => (c.inst.Parameters.ErsContext.Active,
          c.inst.Parameters.ErsContext.ServiceManager, c.ersContext))
      = [(some true, some (fixServiceManager "u" "p"), incomingContext (some false))] := by
  refine ⟨by decide, by decide, by decide⟩

/-- Looking up a record that exists returns a record with the id asked for. -/
theorem GetByID_InstanceID (st : BrokerStorage) (id : String) (inst : Instance)
    (h : st.GetByID id = some inst) : inst.InstanceID = id := by
  have := List.find?_some h
  simpa using this

/-- After the record of an existing id has been replaced, the lookup returns the new record. -/
theorem GetByID_UpdateInstance (st : BrokerStorage) (id : String) (inst updated : Instance)
    (h : st.GetByID id = some inst) (hid : updated.InstanceID = id) :
    (st.UpdateInstance updated).GetByID id = some updated := by
  obtain ⟨instances, operations⟩ := st
  simp only [BrokerStorage.GetByID, BrokerStorage.UpdateInstance] at h ⊢
  induction instances with
  | nil => simp at h
  | cons x xs ih =>
    by_cases hx : x.InstanceID = id
    · simp [List.find?, hx, hid]
    · have hxs : List.find? (fun i => decide (i.InstanceID = id)) xs = some inst := by
        simpa [List.find?, hx] using h
      simpa [List.find?, hx, hid] using ih hxs

/-- The restored instance keeps the id of the stored one. -/
theorem restoreContext_InstanceID (inst : Instance) (recovered : Option ServiceManagerEntryDTO)
    (intent : UpdateIntent) : (restoreContext inst recovered intent).InstanceID = inst.InstanceID :=
  rfl

/-- An update that finds the instance, parses the context and does not miss required credentials
writes the restored instance back and calls the handler once, with the restored instance and the
incoming context. -/
theorem Update_reaches_handler {σ : Type} (svc : UpdateEndpoint σ) (id : String)
    (details : UpdateDetails) (asyncAllowed : Bool) (w : UpdateWorld σ) (inst : Instance)
    (active : Option Bool)
    (hinst : w.storage.GetByID id = some inst)
    (hctx : details.RawContext = RawContext.object active)
    (hcreds : (recoverServiceManager (w.storage.FindByInstanceID id)).isSome = true ∨
      svc.handler.RequiresServiceManager = false) :
    (svc.Update id details asyncAllowed w).2.calls = w.calls ++
      [{ inst := restoreContext inst (recoverServiceManager (w.storage.FindByInstanceID id))
            (classifyUpdate (w.storage.FindByInstanceID id) active),
         ersContext := incomingContext active }] ∧
    (svc.Update id details asyncAllowed w).2.storage.GetByID id =
      some (restoreContext inst (recoverServiceManager (w.storage.FindByInstanceID id))
        (classifyUpdate (w.storage.FindByInstanceID id) active)) := by
  have hgate : ((recoverServiceManager (w.storage.FindByInstanceID id)).isNone &&
      svc.handler.RequiresServiceManager) = false := by
    rcases hcreds with h | h
    · cases hr : recoverServiceManager (w.storage.FindByInstanceID id)
      · rw [hr] at h
        exact absurd h (by simp)
      · rfl
    · simp [h]
  have hstore := GetByID_UpdateInstance w.storage id inst
    (restoreContext inst (recoverServiceManager (w.storage.FindByInstanceID id))
      (classifyUpdate (w.storage.FindByInstanceID id) active)) hinst
    (GetByID_InstanceID w.storage id inst hinst)
  simp only [UpdateEndpoint.Update, hinst, hctx, hgate, Bool.false_eq_true, if_false]
  split <;> exact ⟨rfl, hstore⟩

/-- C15 (handler receives the incoming context): for an update request whose raw context is a JSON
object with `active = v`, every call of `handler.Handle` made by Update passes an ERS context with
`Active = v` and no other field set, whatever the stored instance and the history are; and the
call is made, exactly once, whenever the instance exists and the credentials are recovered or not
required. -/
theorem Update_handler_receives_incoming_context {σ : Type} (svc : UpdateEndpoint σ)
    (id : String) (details : UpdateDetails) (asyncAllowed : Bool) (w : UpdateWorld σ) (v : Bool)
    (hctx : details.RawContext = RawContext.object (some v)) :
    (∀ c ∈ (svc.Update id details asyncAllowed w).2.calls, c ∈ w.calls ∨
      c.ersContext = { TenantID := "", SubAccountID := "", GlobalAccountID := "",
                       ServiceManager := none, Active := some v }) ∧
    (∀ inst, w.storage.GetByID id = some inst →
      ((recoverServiceManager (w.storage.FindByInstanceID id)).isSome = true ∨
        svc.handler.RequiresServiceManager = false) →
      ∃ handed, (svc.Update id details asyncAllowed w).2.calls = w.calls ++
        [{ inst := handed,
           ersContext := { TenantID := "", SubAccountID := "", GlobalAccountID := "",
                           ServiceManager := none, Active := some v } }]) := by
  constructor
  · intro c hc
    cases hinst : w.storage.GetByID id with
    | none =>
      simp only [UpdateEndpoint.Update, hinst] at hc
      exact Or.inl hc
    | some inst =>
      cases hgate : ((recoverServiceManager (w.storage.FindByInstanceID id)).isNone &&
          svc.handler.RequiresServiceManager)
      · have hcreds : (recoverServiceManager (w.storage.FindByInstanceID id)).isSome = true ∨
            svc.handler.RequiresServiceManager = false := by
          cases hr : recoverServiceManager (w.storage.FindByInstanceID id)
          · rw [hr] at hgate
            exact Or.inr (by simpa using hgate)
          · exact Or.inl rfl
        rw [(Update_reaches_handler svc id details asyncAllowed w inst (some v) hinst hctx
          hcreds).1] at hc
        rcases List.mem_append.mp hc with h | h
        · exact Or.inl h
        · rw [List.mem_singleton] at h
          subst h
          exact Or.inr rfl
      · simp only [UpdateEndpoint.Update, hinst, hctx, hgate, if_true] at hc
        exact Or.inl hc
  · intro inst hinst hcreds
    exact ⟨_, (Update_reaches_handler svc id details asyncAllowed w inst (some v) hinst hctx
      hcreds).1⟩

/-- Witness of C15: the suspension scenario of the tests. -/
theorem Update_handler_receives_incoming_context_witness :
    (fixUpdateDetails (RawContext.object (some false))).RawContext
      = RawContext.object (some false) ∧
    (fixUpdateWorld none [fixProvisioningOperation "01" 1, fixSuspensionOperation 2,
      fixProvisioningOperation "02" 3]).storage.GetByID instanceID
      = some (fixStoredInstance none) ∧
    ∃ handed, (({ handler := fixHandler } : UpdateEndpoint Unit).Update instanceID
      (fixUpdateDetails (RawContext.object (some false))) true
      (fixUpdateWorld none [fixProvisioningOperation "01" 1, fixSuspensionOperation 2,
        fixProvisioningOperation "02" 3])).2.calls = [] ++
        [{ inst := handed,
           ersContext := { TenantID := "", SubAccountID := "", GlobalAccountID := "",
                           ServiceManager := none, Active := some false } }] :=
  ⟨rfl, by decide,
    (Update_handler_receives_incoming_context ({ handler := fixHandler } : UpdateEndpoint Unit)
      instanceID (fixUpdateDetails (RawContext.object (some false))) true
      (fixUpdateWorld none [fixProvisioningOperation "01" 1, fixSuspensionOperation 2,
        fixProvisioningOperation "02" 3]) false rfl).2 (fixStoredInstance none) (by decide)
      (Or.inl (by decide))⟩

/-- Credentials of an older operation are not adopted when a newer one has an entry: the instance
is stored without credentials, its history holds the provisioning "01" with BasicAuth ("u", "p")
and the newer provisioning "02" with ("u2", "p2"); the update succeeds and the persisted instance,
like the instance handed to the handler, has BasicAuth ("u2", "p2"). -/
theorem Update_adopts_newest_credentials_only :
    (fixStoredInstance none).Parameters.ErsContext.ServiceManager = none ∧
    fixProvisioningOperationWith "01" 1 "u" "p" ∈
      (fixUpdateWorld none [fixProvisioningOperationWith "01" 1 "u" "p",
        fixProvisioningOperationWith "02" 2 "u2" "p2"]).storage.FindByInstanceID instanceID ∧
    (fixProvisioningOperationWith "01" 1 "u" "p").serviceManager
      = some (fixServiceManager "u" "p") ∧
    (({ handler := fixHandler } : UpdateEndpoint Unit).Update instanceID
      (fixUpdateDetails (RawContext.object (some false))) true
      (fixUpdateWorld none [fixProvisioningOperationWith "01" 1 "u" "p",
        fixProvisioningOperationWith "02" 2 "u2" "p2"])).1 = none ∧
    ((({ handler := fixHandler } : UpdateEndpoint Unit).Update instanceID
      (fixUpdateDetails (RawContext.object (some false))) true
      (fixUpdateWorld none [fixProvisioningOperationWith "01" 1 "u" "p",
        fixProvisioningOperationWith "02" 2 "u2" "p2"])).2.storage.GetByID instanceID).map
        (fun i => i.Parameters.ErsContext.ServiceManager)
      = some (some (fixServiceManager "u2" "p2")) ∧
    (({ handler := fixHandler } : UpdateEndpoint Unit).Update instanceID
      (fixUpdateDetails (RawContext.object (some false))) true
      (fixUpdateWorld none [fixProvisioningOperationWith "01" 1 "u" "p",
        fixProvisioningOperationWith "02" 2 "u2" "p2"])).2.calls.map
        (fun c => c.inst.Parameters.ErsContext.ServiceManager)
      = [some (fixServiceManager "u2" "p2")] ∧
    (fixServiceManager "u2" "p2").Credentials.BasicAuth
      ≠ (fixServiceManager "u" "p").Credentials.BasicAuth := by
  refine ⟨by decide, by decide, by decide, by decide, by decide, by decide, by decide⟩

/-- C17 (persisted active inversion): for an update that finds the instance and gets as far as
persisting (the credentials are recovered or not required), if the incoming `active` is false and
the latest operation is a provisioning (suspension) the instance handed to the handler, which is
the persisted one, has `active` set to true; if the incoming `active` is true and the latest
operation is a deprovisioning with `temporary = true` (unsuspension) it has `active` set to false;
in both cases whatever the stored `active` was, unset included. -/
theorem Update_persisted_active_inverted {σ : Type} (svc : UpdateEndpoint σ) (id : String)
    (details : UpdateDetails) (asyncAllowed : Bool) (w : UpdateWorld σ) (inst : Instance)
    (hinst : w.storage.GetByID id = some inst)
    (hcreds : (recoverServiceManager (w.storage.FindByInstanceID id)).isSome = true ∨
      svc.handler.RequiresServiceManager = false) :
    (details.RawContext = RawContext.object (some false) →
      (∃ op rest, w.storage.FindByInstanceID id = StoredOperation.provisioning op :: rest) →
      ∃ handed,
        (svc.Update id details asyncAllowed w).2.calls = w.calls ++
          [{ inst := handed, ersContext := incomingContext (some false) }] ∧
        (svc.Update id details asyncAllowed w).2.storage.GetByID id = some handed ∧
        handed.Parameters.ErsContext.Active = some true) ∧
    (details.RawContext = RawContext.object (some true) →
      (∃ op rest, w.storage.FindByInstanceID id = StoredOperation.deprovisioning op :: rest ∧
        op.Temporary = true) →
      ∃ handed,
        (svc.Update id details asyncAllowed w).2.calls = w.calls ++
          [{ inst := handed, ersContext := incomingContext (some true) }] ∧
        (svc.Update id details asyncAllowed w).2.storage.GetByID id = some handed ∧
        handed.Parameters.ErsContext.Active = some false) := by
  constructor
  · rintro hctx ⟨op, rest, hhistory⟩
    obtain ⟨hcalls, hstore⟩ := Update_reaches_handler svc id details asyncAllowed w inst
      (some false) hinst hctx hcreds
    refine ⟨_, hcalls, hstore, ?_⟩
    simp [restoreContext, hhistory, classifyUpdate, persistedActive]
  · rintro hctx ⟨op, rest, hhistory, htemp⟩
    obtain ⟨hcalls, hstore⟩ := Update_reaches_handler svc id details asyncAllowed w inst
      (some true) hinst hctx hcreds
    refine ⟨_, hcalls, hstore, ?_⟩
    simp [restoreContext, hhistory, classifyUpdate, persistedActive, htemp]

/-- Witness of C17: the unsuspension scenario of the tests, the stored `active` being unset. -/
theorem Update_persisted_active_inverted_witness :
    (fixUpdateWorld none [fixProvisioningOperation "01" 1,
      fixSuspensionOperation 2]).storage.GetByID instanceID = some (fixStoredInstance none) ∧
    (fixStoredInstance none).Parameters.ErsContext.Active = none ∧
    ∃ handed,
      (({ handler := fixHandler } : UpdateEndpoint Unit).Update instanceID
        (fixUpdateDetails (RawContext.object (some true))) true
        (fixUpdateWorld none [fixProvisioningOperation "01" 1,
          fixSuspensionOperation 2])).2.calls = [] ++
        [{ inst := handed, ersContext := incomingContext (some true) }] ∧
      (({ handler := fixHandler } : UpdateEndpoint Unit).Update instanceID
        (fixUpdateDetails (RawContext.object (some true))) true
        (fixUpdateWorld none [fixProvisioningOperation "01" 1,
          fixSuspensionOperation 2])).2.storage.GetByID instanceID = some handed ∧
      handed.Parameters.ErsContext.Active = some false :=
  ⟨by decide, rfl,
    (Update_persisted_active_inverted ({ handler := fixHandler } : UpdateEndpoint Unit)
      instanceID (fixUpdateDetails (RawContext.object (some true))) true
      (fixUpdateWorld none [fixProvisioningOperation "01" 1, fixSuspensionOperation 2])
      (fixStoredInstance none) (by decide) (Or.inl (by decide))).2 rfl
      ⟨{ Operation := fixBaseOperation "" 2 (some (fixServiceManager "u" "p")), Temporary := true },
        [fixProvisioningOperation "01" 1], by decide, rfl⟩⟩

/-! ## Properties of the Azure Event Hub deprovision step -/

/-- The paths through `Run`, each with the collaborator calls it makes (replies included) and the
triple it returns: the short-circuit, the invocation cut short by a cancelled context (at its start
or after one of its six collaborator calls), and the ten ways to run to the end. -/
theorem DeprovisionAzureEventHubStep_Run_paths {σ : Type} (step : DeprovisionAzureEventHubStep σ)
    (op : UpgradeKymaOperation) (st : σ) :
    (op.Operation.InstanceDetails.EventHub.Deleted = true ∧
      (step.Run op st).calls = [] ∧ (step.Run op st).result = (op, 0, none) ∧
      (step.Run op st).state = st) ∨
    (op.Operation.InstanceDetails.EventHub.Deleted = false ∧
      ((step.Cancelled (step.Run op st).state = true ∧ (step.Run op st).result = (op, 0, none) ∧
        ((step.Run op st).calls = [] ∨
         (∃ r, (step.Run op st).calls =
          [StepCall.LoadInstance op.Operation.InstanceID r]) ∨
         (∃ inst r, (step.Run op st).calls =
          [StepCall.LoadInstance op.Operation.InstanceID (InstanceReply.ok inst),
           StepCall.GardenerCredentials HyperscalerType.Azure inst.Parameters.ErsContext.TenantID
             (r)]) ∨
         (∃ inst c r, c.HyperscalerType = HyperscalerType.Azure ∧ (step.Run op st).calls =
          [StepCall.LoadInstance op.Operation.InstanceID (InstanceReply.ok inst),
           StepCall.GardenerCredentials HyperscalerType.Azure inst.Parameters.ErsContext.TenantID
             (CredentialsReply.ok c),
           StepCall.GetClient c r]) ∨
         (∃ inst c r, c.HyperscalerType = HyperscalerType.Azure ∧ (step.Run op st).calls =
          [StepCall.LoadInstance op.Operation.InstanceID (InstanceReply.ok inst),
           StepCall.GardenerCredentials HyperscalerType.Azure inst.Parameters.ErsContext.TenantID
             (CredentialsReply.ok c),
           StepCall.GetClient c none,
           StepCall.GetResourceGroup inst.InstanceID r]) ∨
         (∃ inst c r, c.HyperscalerType = HyperscalerType.Azure ∧ (step.Run op st).calls =
          [StepCall.LoadInstance op.Operation.InstanceID (InstanceReply.ok inst),
           StepCall.GardenerCredentials HyperscalerType.Azure inst.Parameters.ErsContext.TenantID
             (CredentialsReply.ok c),
           StepCall.GetClient c none,
           StepCall.GetResourceGroup inst.InstanceID ResourceGroupReply.notFound,
           StepCall.UpdateOperation op.withEventHubDeleted r]) ∨
         (∃ inst c s r, c.HyperscalerType = HyperscalerType.Azure ∧ s ≠ ProvisioningStateDeleting ∧ (step.Run op st).calls =
          [StepCall.LoadInstance op.Operation.InstanceID (InstanceReply.ok inst),
           StepCall.GardenerCredentials HyperscalerType.Azure inst.Parameters.ErsContext.TenantID
             (CredentialsReply.ok c),
           StepCall.GetClient c none,
           StepCall.GetResourceGroup inst.InstanceID (ResourceGroupReply.group (some s)),
           StepCall.DeleteResourceGroup inst.InstanceID r]))) ∨
       (∃ m, (step.Run op st).calls =
          [StepCall.LoadInstance op.Operation.InstanceID (InstanceReply.malformed m)] ∧
          (step.Run op st).result = step.OperationFailed op "ParameterError") ∨
       (∃ inst m, (step.Run op st).calls =
          [StepCall.LoadInstance op.Operation.InstanceID (InstanceReply.ok inst),
           StepCall.GardenerCredentials HyperscalerType.Azure inst.Parameters.ErsContext.TenantID
             (CredentialsReply.error m)] ∧
          (step.Run op st).result = (op, retryInterval, none)) ∨
       (∃ inst c, c.HyperscalerType ≠ HyperscalerType.Azure ∧ (step.Run op st).calls =
          [StepCall.LoadInstance op.Operation.InstanceID (InstanceReply.ok inst),
           StepCall.GardenerCredentials HyperscalerType.Azure inst.Parameters.ErsContext.TenantID
             (CredentialsReply.ok c)] ∧
          (step.Run op st).result = step.OperationFailed op "WrongHyperscaler") ∨
       (∃ inst c m, c.HyperscalerType = HyperscalerType.Azure ∧ (step.Run op st).calls =
          [StepCall.LoadInstance op.Operation.InstanceID (InstanceReply.ok inst),
           StepCall.GardenerCredentials HyperscalerType.Azure inst.Parameters.ErsContext.TenantID
             (CredentialsReply.ok c),
           StepCall.GetClient c (some m)] ∧
          (step.Run op st).result = step.OperationFailed op "ClientError") ∨
       (∃ inst c, c.HyperscalerType = HyperscalerType.Azure ∧ (step.Run op st).calls =
          [StepCall.LoadInstance op.Operation.InstanceID (InstanceReply.ok inst),
           StepCall.GardenerCredentials HyperscalerType.Azure inst.Parameters.ErsContext.TenantID
             (CredentialsReply.ok c),
           StepCall.GetClient c none,
           StepCall.GetResourceGroup inst.InstanceID ResourceGroupReply.notFound,
           StepCall.UpdateOperation op.withEventHubDeleted none] ∧
          (step.Run op st).result = (op.withEventHubDeleted, 0, none)) ∨
       (∃ inst c m, c.HyperscalerType = HyperscalerType.Azure ∧ (step.Run op st).calls =
          [StepCall.LoadInstance op.Operation.InstanceID (InstanceReply.ok inst),
           StepCall.GardenerCredentials HyperscalerType.Azure inst.Parameters.ErsContext.TenantID
             (CredentialsReply.ok c),
           StepCall.GetClient c none,
           StepCall.GetResourceGroup inst.InstanceID ResourceGroupReply.notFound,
           StepCall.UpdateOperation op.withEventHubDeleted (some m)] ∧
          (step.Run op st).result = (op, retryInterval, none)) ∨
       (∃ inst c m, c.HyperscalerType = HyperscalerType.Azure ∧ (step.Run op st).calls =
          [StepCall.LoadInstance op.Operation.InstanceID (InstanceReply.ok inst),
           StepCall.GardenerCredentials HyperscalerType.Azure inst.Parameters.ErsContext.TenantID
             (CredentialsReply.ok c),
           StepCall.GetClient c none,
           StepCall.GetResourceGroup inst.InstanceID (ResourceGroupReply.error m)] ∧
          (step.Run op st).result = (op, retryInterval, none)) ∨
       (∃ inst c, c.HyperscalerType = HyperscalerType.Azure ∧ (step.Run op st).calls =
          [StepCall.LoadInstance op.Operation.InstanceID (InstanceReply.ok inst),
           StepCall.GardenerCredentials HyperscalerType.Azure inst.Parameters.ErsContext.TenantID
             (CredentialsReply.ok c),
           StepCall.GetClient c none,
           StepCall.GetResourceGroup inst.InstanceID (ResourceGroupReply.group none)] ∧
          (step.Run op st).result = step.OperationFailed op "ResourceGroupProperties") ∨
       (∃ inst c, c.HyperscalerType = HyperscalerType.Azure ∧ (step.Run op st).calls =
          [StepCall.LoadInstance op.Operation.InstanceID (InstanceReply.ok inst),
           StepCall.GardenerCredentials HyperscalerType.Azure inst.Parameters.ErsContext.TenantID
             (CredentialsReply.ok c),
           StepCall.GetClient c none,
           StepCall.GetResourceGroup inst.InstanceID
             (ResourceGroupReply.group (some ProvisioningStateDeleting))] ∧
          (step.Run op st).result = (op, retryInterval, none)) ∨
       (∃ inst c s r, c.HyperscalerType = HyperscalerType.Azure ∧ s ≠ ProvisioningStateDeleting ∧ (step.Run op st).calls =
          [StepCall.LoadInstance op.Operation.InstanceID (InstanceReply.ok inst),
           StepCall.GardenerCredentials HyperscalerType.Azure inst.Parameters.ErsContext.TenantID
             (CredentialsReply.ok c),
           StepCall.GetClient c none,
           StepCall.GetResourceGroup inst.InstanceID (ResourceGroupReply.group (some s)),
           StepCall.DeleteResourceGroup inst.InstanceID r] ∧
          (step.Run op st).result = (op, retryInterval, none)))) := by
  generalize ho : step.Run op st = o
  cases hdel : op.Operation.InstanceDetails.EventHub.Deleted
  · refine Or.inr ⟨rfl, ?_⟩
    simp only [DeprovisionAzureEventHubStep.Run, StepOutcome.cancelled, hdel, Bool.false_eq_true, if_false] at ho
    cases hc0 : step.Cancelled st
    · simp only [hc0, Bool.false_eq_true, if_false] at ho
      cases hc1 : step.Cancelled (step.LoadInstance st op.Operation.InstanceID).2
      · simp only [hc1, Bool.false_eq_true, if_false] at ho
        cases hload : (step.LoadInstance st op.Operation.InstanceID).1 with
        | malformed m =>
          simp only [hload] at ho
          subst ho
          exact Or.inr (Or.inl ⟨m, rfl, rfl⟩)
        | ok inst =>
          simp only [hload] at ho
          cases hc2 : step.Cancelled (step.GardenerCredentials (step.LoadInstance st op.Operation.InstanceID).2 HyperscalerType.Azure
      inst.Parameters.ErsContext.TenantID).2
          · simp only [hc2, Bool.false_eq_true, if_false] at ho
            cases hcreds : (step.GardenerCredentials (step.LoadInstance st op.Operation.InstanceID).2 HyperscalerType.Azure
      inst.Parameters.ErsContext.TenantID).1 with
            | error m =>
              simp only [hcreds] at ho
              subst ho
              exact Or.inr (Or.inr (Or.inl ⟨inst, m, rfl, rfl⟩))
            | ok c =>
              simp only [hcreds] at ho
              by_cases hkind : c.HyperscalerType = HyperscalerType.Azure
              · simp only [hkind, ne_eq, not_true_eq_false, if_false] at ho
                cases hc3 : step.Cancelled (step.GetClient (step.GardenerCredentials (step.LoadInstance st op.Operation.InstanceID).2 HyperscalerType.Azure
      inst.Parameters.ErsContext.TenantID).2 c).2
                · simp only [hc3, Bool.false_eq_true, if_false] at ho
                  cases hclient : (step.GetClient (step.GardenerCredentials (step.LoadInstance st op.Operation.InstanceID).2 HyperscalerType.Azure
      inst.Parameters.ErsContext.TenantID).2 c).1 with
                  | some m =>
                    simp only [hclient] at ho
                    subst ho
                    exact Or.inr (Or.inr (Or.inr (Or.inr (Or.inl ⟨inst, c, m, hkind, rfl, rfl⟩))))
                  | none =>
                    simp only [hclient] at ho
                    cases hc4 : step.Cancelled (step.GetResourceGroup (step.GetClient (step.GardenerCredentials (step.LoadInstance st op.Operation.InstanceID).2 HyperscalerType.Azure
      inst.Parameters.ErsContext.TenantID).2 c).2 inst.InstanceID).2
                    · simp only [hc4, Bool.false_eq_true, if_false] at ho
                      cases hread : (step.GetResourceGroup (step.GetClient (step.GardenerCredentials (step.LoadInstance st op.Operation.InstanceID).2 HyperscalerType.Azure
      inst.Parameters.ErsContext.TenantID).2 c).2 inst.InstanceID).1 with
                      | notFound =>
                        simp only [hread] at ho
                        cases hc5 : step.Cancelled (step.UpdateOperation (step.GetResourceGroup (step.GetClient (step.GardenerCredentials (step.LoadInstance st op.Operation.InstanceID).2 HyperscalerType.Azure
      inst.Parameters.ErsContext.TenantID).2 c).2 inst.InstanceID).2 op.withEventHubDeleted).2
                        · simp only [hc5, Bool.false_eq_true, if_false] at ho
                          cases hpersist : (step.UpdateOperation (step.GetResourceGroup (step.GetClient (step.GardenerCredentials (step.LoadInstance st op.Operation.InstanceID).2 HyperscalerType.Azure
      inst.Parameters.ErsContext.TenantID).2 c).2 inst.InstanceID).2 op.withEventHubDeleted).1 with
                          | none =>
                            simp only [hpersist] at ho
                            subst ho
                            exact Or.inr (Or.inr (Or.inr (Or.inr (Or.inr (Or.inl ⟨inst, c, hkind, rfl, rfl⟩)))))
                          | some m =>
                            simp only [hpersist] at ho
                            subst ho
                            exact Or.inr (Or.inr (Or.inr (Or.inr (Or.inr (Or.inr (Or.inl ⟨inst, c, m, hkind, rfl, rfl⟩))))))
                        · simp only [hc5, if_true] at ho
                          subst ho
                          exact Or.inl ⟨hc5, rfl, Or.inr (Or.inr (Or.inr (Or.inr (Or.inr (Or.inl ⟨inst, c, _, hkind, rfl⟩)))))⟩
                      | error m =>
                        simp only [hread] at ho
                        subst ho
                        exact Or.inr (Or.inr (Or.inr (Or.inr (Or.inr (Or.inr (Or.inr (Or.inl ⟨inst, c, m, hkind, rfl, rfl⟩)))))))
                      | group state =>
                        cases state with
                        | none =>
                          simp only [hread] at ho
                          subst ho
                          exact Or.inr (Or.inr (Or.inr (Or.inr (Or.inr (Or.inr (Or.inr (Or.inr (Or.inl ⟨inst, c, hkind, rfl, rfl⟩))))))))
                        | some s =>
                          simp only [hread] at ho
                          by_cases hs : s = ProvisioningStateDeleting
                          · simp only [hs, if_true] at ho
                            subst ho
                            subst hs
                            exact Or.inr (Or.inr (Or.inr (Or.inr (Or.inr (Or.inr (Or.inr (Or.inr (Or.inr (Or.inl ⟨inst, c, hkind, rfl, rfl⟩)))))))))
                          · simp only [hs, if_false] at ho
                            cases hc6 : step.Cancelled (step.DeleteResourceGroup (step.GetResourceGroup (step.GetClient (step.GardenerCredentials (step.LoadInstance st op.Operation.InstanceID).2 HyperscalerType.Azure
      inst.Parameters.ErsContext.TenantID).2 c).2 inst.InstanceID).2 inst.InstanceID).2
                            · simp only [hc6, Bool.false_eq_true, if_false] at ho
                              subst ho
                              exact Or.inr (Or.inr (Or.inr (Or.inr (Or.inr (Or.inr (Or.inr (Or.inr (Or.inr (Or.inr (⟨inst, c, s, _, hkind, hs, rfl, rfl⟩))))))))))
                            · simp only [hc6, if_true] at ho
                              subst ho
                              exact Or.inl ⟨hc6, rfl, Or.inr (Or.inr (Or.inr (Or.inr (Or.inr (Or.inr (⟨inst, c, s, _, hkind, hs, rfl⟩))))))⟩
                    · simp only [hc4, if_true] at ho
                      subst ho
                      exact Or.inl ⟨hc4, rfl, Or.inr (Or.inr (Or.inr (Or.inr (Or.inl ⟨inst, c, _, hkind, rfl⟩))))⟩
                · simp only [hc3, if_true] at ho
                  subst ho
                  exact Or.inl ⟨hc3, rfl, Or.inr (Or.inr (Or.inr (Or.inl ⟨inst, c, _, hkind, rfl⟩)))⟩
              · simp only [hkind, ne_eq, not_false_eq_true, if_true] at ho
                subst ho
                exact Or.inr (Or.inr (Or.inr (Or.inl ⟨inst, c, hkind, rfl, rfl⟩)))
          · simp only [hc2, if_true] at ho
            subst ho
            exact Or.inl ⟨hc2, rfl, Or.inr (Or.inr (Or.inl ⟨inst, _, rfl⟩))⟩
      · simp only [hc1, if_true] at ho
        subst ho
        exact Or.inl ⟨hc1, rfl, Or.inr (Or.inl ⟨_, rfl⟩)⟩
    · simp only [hc0, if_true] at ho
      subst ho
      exact Or.inl ⟨hc0, rfl, Or.inl rfl⟩
  · left
    simp only [DeprovisionAzureEventHubStep.Run, hdel, if_true] at ho
    subst ho
    exact ⟨rfl, rfl, rfl, rfl⟩

/-- The paths through an invocation of `Run` that the context does not cut short. -/
theorem DeprovisionAzureEventHubStep_Run_paths_of_not_cancelled {σ : Type}
    (step : DeprovisionAzureEventHubStep σ) (op : UpgradeKymaOperation) (st : σ)
    (hctx : step.Cancelled (step.Run op st).state = false) :
    (op.Operation.InstanceDetails.EventHub.Deleted = true ∧
      (step.Run op st).calls = [] ∧ (step.Run op st).result = (op, 0, none) ∧
      (step.Run op st).state = st) ∨
    (op.Operation.InstanceDetails.EventHub.Deleted = false ∧
      ((∃ m, (step.Run op st).calls =
          [StepCall.LoadInstance op.Operation.InstanceID (InstanceReply.malformed m)] ∧
          (step.Run op st).result = step.OperationFailed op "ParameterError") ∨
       (∃ inst m, (step.Run op st).calls =
          [StepCall.LoadInstance op.Operation.InstanceID (InstanceReply.ok inst),
           StepCall.GardenerCredentials HyperscalerType.Azure inst.Parameters.ErsContext.TenantID
             (CredentialsReply.error m)] ∧
          (step.Run op st).result = (op, retryInterval, none)) ∨
       (∃ inst c, c.HyperscalerType ≠ HyperscalerType.Azure ∧ (step.Run op st).calls =
          [StepCall.LoadInstance op.Operation.InstanceID (InstanceReply.ok inst),
           StepCall.GardenerCredentials HyperscalerType.Azure inst.Parameters.ErsContext.TenantID
             (CredentialsReply.ok c)] ∧
          (step.Run op st).result = step.OperationFailed op "WrongHyperscaler") ∨
       (∃ inst c m, c.HyperscalerType = HyperscalerType.Azure ∧ (step.Run op st).calls =
          [StepCall.LoadInstance op.Operation.InstanceID (InstanceReply.ok inst),
           StepCall.GardenerCredentials HyperscalerType.Azure inst.Parameters.ErsContext.TenantID
             (CredentialsReply.ok c),
           StepCall.GetClient c (some m)] ∧
          (step.Run op st).result = step.OperationFailed op "ClientError") ∨
       (∃ inst c, c.HyperscalerType = HyperscalerType.Azure ∧ (step.Run op st).calls =
          [StepCall.LoadInstance op.Operation.InstanceID (InstanceReply.ok inst),
           StepCall.GardenerCredentials HyperscalerType.Azure inst.Parameters.ErsContext.TenantID
             (CredentialsReply.ok c),
           StepCall.GetClient c none,
           StepCall.GetResourceGroup inst.InstanceID ResourceGroupReply.notFound,
           StepCall.UpdateOperation op.withEventHubDeleted none] ∧
          (step.Run op st).result = (op.withEventHubDeleted, 0, none)) ∨
       (∃ inst c m, c.HyperscalerType = HyperscalerType.Azure ∧ (step.Run op st).calls =
          [StepCall.LoadInstance op.Operation.InstanceID (InstanceReply.ok inst),
           StepCall.GardenerCredentials HyperscalerType.Azure inst.Parameters.ErsContext.TenantID
             (CredentialsReply.ok c),
           StepCall.GetClient c none,
           StepCall.GetResourceGroup inst.InstanceID ResourceGroupReply.notFound,
           StepCall.UpdateOperation op.withEventHubDeleted (some m)] ∧
          (step.Run op st).result = (op, retryInterval, none)) ∨
       (∃ inst c m, c.HyperscalerType = HyperscalerType.Azure ∧ (step.Run op st).calls =
          [StepCall.LoadInstance op.Operation.InstanceID (InstanceReply.ok inst),
           StepCall.GardenerCredentials HyperscalerType.Azure inst.Parameters.ErsContext.TenantID
             (CredentialsReply.ok c),
           StepCall.GetClient c none,
           StepCall.GetResourceGroup inst.InstanceID (ResourceGroupReply.error m)] ∧
          (step.Run op st).result = (op, retryInterval, none)) ∨
       (∃ inst c, c.HyperscalerType = HyperscalerType.Azure ∧ (step.Run op st).calls =
          [StepCall.LoadInstance op.Operation.InstanceID (InstanceReply.ok inst),
           StepCall.GardenerCredentials HyperscalerType.Azure inst.Parameters.ErsContext.TenantID
             (CredentialsReply.ok c),
           StepCall.GetClient c none,
           StepCall.GetResourceGroup inst.InstanceID (ResourceGroupReply.group none)] ∧
          (step.Run op st).result = step.OperationFailed op "ResourceGroupProperties") ∨
       (∃ inst c, c.HyperscalerType = HyperscalerType.Azure ∧ (step.Run op st).calls =
          [StepCall.LoadInstance op.Operation.InstanceID (InstanceReply.ok inst),
           StepCall.GardenerCredentials HyperscalerType.Azure inst.Parameters.ErsContext.TenantID
             (CredentialsReply.ok c),
           StepCall.GetClient c none,
           StepCall.GetResourceGroup inst.InstanceID
             (ResourceGroupReply.group (some ProvisioningStateDeleting))] ∧
          (step.Run op st).result = (op, retryInterval, none)) ∨
       (∃ inst c s r, c.HyperscalerType = HyperscalerType.Azure ∧ s ≠ ProvisioningStateDeleting ∧ (step.Run op st).calls =
          [StepCall.LoadInstance op.Operation.InstanceID (InstanceReply.ok inst),
           StepCall.GardenerCredentials HyperscalerType.Azure inst.Parameters.ErsContext.TenantID
             (CredentialsReply.ok c),
           StepCall.GetClient c none,
           StepCall.GetResourceGroup inst.InstanceID (ResourceGroupReply.group (some s)),
           StepCall.DeleteResourceGroup inst.InstanceID r] ∧
          (step.Run op st).result = (op, retryInterval, none)))) := by
  rcases DeprovisionAzureEventHubStep_Run_paths step op st with h | ⟨hd, ⟨hcan, _⟩ | h⟩
  · exact Or.inl h
  · rw [hcan] at hctx
    cases hctx
  · exact Or.inr ⟨hd, h⟩

/-- The retry interval is not zero. -/
theorem retryInterval_ne_zero : retryInterval ≠ 0 := by decide

/-- Counterexample to C20: the account provider fails on GardenerCredentials (a transient
failure) for an operation whose state is Succeeded; `Run` returns a nil error and a non-zero retry
with the operation as it came, so with state Succeeded. -/
theorem Run_transient_failure_keeps_succeeded_state :
    fixSucceededOperation.Operation.InstanceDetails.EventHub.Deleted = false ∧
    StepCall.GardenerCredentials HyperscalerType.Azure ""
        (CredentialsReply.error "ups ... gardener credentials could not be retrieved") ∈
      ((fixEventHubStep (InstanceReply.ok fixInstance)
        (CredentialsReply.error "ups ... gardener credentials could not be retrieved") none
        ResourceGroupReply.notFound none).Run fixSucceededOperation ()).calls ∧
    ((fixEventHubStep (InstanceReply.ok fixInstance)
        (CredentialsReply.error "ups ... gardener credentials could not be retrieved") none
        ResourceGroupReply.notFound none).Run fixSucceededOperation ()).result.2.2 = none ∧
    ((fixEventHubStep (InstanceReply.ok fixInstance)
        (CredentialsReply.error "ups ... gardener credentials could not be retrieved") none
        ResourceGroupReply.notFound none).Run fixSucceededOperation ()).result.2.1 ≠ 0 ∧
    ((fixEventHubStep (InstanceReply.ok fixInstance)
        (CredentialsReply.error "ups ... gardener credentials could not be retrieved") none
        ResourceGroupReply.notFound none).Run fixSucceededOperation ()).result.1.Operation.State = Succeeded := by
  refine ⟨by decide, by decide, by decide, by decide, by decide⟩

/-- A context cancelled while the resource group is read: the read fails, and `Run` returns the
operation as it came with retry 0 and a nil error, issuing no delete. -/
theorem Run_cancelled_while_reading :
    StepCall.GetResourceGroup "instance-id" (ResourceGroupReply.error "context canceled") ∈
      (fixEventHubStepCancelledWhileReading.Run
        fixDeprovisioningOperationWithParameters false).calls ∧
    fixEventHubStepCancelledWhileReading.Cancelled
      (fixEventHubStepCancelledWhileReading.Run
        fixDeprovisioningOperationWithParameters false).state = true ∧
    (fixEventHubStepCancelledWhileReading.Run
      fixDeprovisioningOperationWithParameters false).result
      = (fixDeprovisioningOperationWithParameters, 0, none) ∧
    (fixEventHubStepCancelledWhileReading.Run
      fixDeprovisioningOperationWithParameters false).calls.countP StepCall.isDelete = 0 := by
  refine ⟨by decide, by decide, by decide, by decide⟩

/-- C20, amended (retry classification): in every invocation of `Run` that the context does not
cut short (the context is not cancelled in the collaborator state the invocation ends in), a
transient failure (the account provider fails on GardenerCredentials, reading the resource group
fails, deleting it fails) ends in a nil error, a non-zero retry and the state of the input
operation, so in a state that is not Succeeded when the input was not Succeeded; a permanent
failure (malformed instance or provisioning parameters, credentials for a hyperscaler other than
Azure, client construction error, resource group without properties) ends in retry 0 and state
Failed. -/
theorem Run_failure_classification {σ : Type} (step : DeprovisionAzureEventHubStep σ)
    (op : UpgradeKymaOperation) (st : σ)
    (hctx : step.Cancelled (step.Run op st).state = false) :
    ((∀ kind tenant m,
        StepCall.GardenerCredentials kind tenant (CredentialsReply.error m) ∈ (step.Run op st).calls →
        (step.Run op st).result.2.2 = none ∧ (step.Run op st).result.2.1 ≠ 0 ∧
        (step.Run op st).result.1.Operation.State = op.Operation.State ∧
        (op.Operation.State ≠ Succeeded → (step.Run op st).result.1.Operation.State ≠ Succeeded)) ∧
     (∀ name m,
        StepCall.GetResourceGroup name (ResourceGroupReply.error m) ∈ (step.Run op st).calls →
        (step.Run op st).result.2.2 = none ∧ (step.Run op st).result.2.1 ≠ 0 ∧
        (step.Run op st).result.1.Operation.State = op.Operation.State ∧
        (op.Operation.State ≠ Succeeded → (step.Run op st).result.1.Operation.State ≠ Succeeded)) ∧
     (∀ name m,
        StepCall.DeleteResourceGroup name (some m) ∈ (step.Run op st).calls →
        (step.Run op st).result.2.2 = none ∧ (step.Run op st).result.2.1 ≠ 0 ∧
        (step.Run op st).result.1.Operation.State = op.Operation.State ∧
        (op.Operation.State ≠ Succeeded → (step.Run op st).result.1.Operation.State ≠ Succeeded))) ∧
    ((∀ id m,
        StepCall.LoadInstance id (InstanceReply.malformed m) ∈ (step.Run op st).calls →
        (step.Run op st).result.2.1 = 0 ∧ (step.Run op st).result.1.Operation.State = Failed) ∧
     (∀ kind tenant c, c.HyperscalerType ≠ HyperscalerType.Azure →
        StepCall.GardenerCredentials kind tenant (CredentialsReply.ok c) ∈ (step.Run op st).calls →
        (step.Run op st).result.2.1 = 0 ∧ (step.Run op st).result.1.Operation.State = Failed) ∧
     (∀ c m,
        StepCall.GetClient c (some m) ∈ (step.Run op st).calls →
        (step.Run op st).result.2.1 = 0 ∧ (step.Run op st).result.1.Operation.State = Failed) ∧
     (∀ name,
        StepCall.GetResourceGroup name (ResourceGroupReply.group none) ∈ (step.Run op st).calls →
        (step.Run op st).result.2.1 = 0 ∧ (step.Run op st).result.1.Operation.State = Failed)) := by
  have hretry := retryInterval_ne_zero
  rcases DeprovisionAzureEventHubStep_Run_paths_of_not_cancelled step op st hctx with
    ⟨_, hc, hr, _⟩ | ⟨_, ⟨m, hc, hr⟩ | ⟨i, m, hc, hr⟩ | ⟨i, c, hk, hc, hr⟩ |
      ⟨i, c, m, hk, hc, hr⟩ | ⟨i, c, hk, hc, hr⟩ | ⟨i, c, m, hk, hc, hr⟩ |
      ⟨i, c, m, hk, hc, hr⟩ | ⟨i, c, hk, hc, hr⟩ | ⟨i, c, hk, hc, hr⟩ |
      ⟨i, c, s2, r, hk, hs2, hc, hr⟩⟩ <;>
    rw [hc, hr] <;>
    simp [DeprovisionAzureEventHubStep.OperationFailed, hretry]
  all_goals
    intro kind tenant c1 hk1 _ _ hc1
    subst hc1
    exact absurd hk hk1

/-- An invocation that the context does not cut short and that observes the resource group as
present and not in deletion issues exactly one delete and asks for a retry, returning the
operation as it is. -/
theorem Run_observes_present_active {σ : Type} (step : DeprovisionAzureEventHubStep σ)
    (op : UpgradeKymaOperation) (st : σ) (name s : String)
    (hctx : step.Cancelled (step.Run op st).state = false)
    (hs : s ≠ ProvisioningStateDeleting)
    (hobs : StepCall.GetResourceGroup name (ResourceGroupReply.group (some s))
      ∈ (step.Run op st).calls) :
    (step.Run op st).result = (op, retryInterval, none) ∧
    (step.Run op st).calls.countP StepCall.isDelete = 1 := by
  rcases DeprovisionAzureEventHubStep_Run_paths_of_not_cancelled step op st hctx with
    ⟨_, hc, hr, _⟩ | ⟨_, ⟨m, hc, hr⟩ | ⟨i, m, hc, hr⟩ | ⟨i, c, hk, hc, hr⟩ |
      ⟨i, c, m, hk, hc, hr⟩ | ⟨i, c, hk, hc, hr⟩ | ⟨i, c, m, hk, hc, hr⟩ |
      ⟨i, c, m, hk, hc, hr⟩ | ⟨i, c, hk, hc, hr⟩ | ⟨i, c, hk, hc, hr⟩ |
      ⟨i, c, s2, r, hk, hs2, hc, hr⟩⟩ <;>
    rw [hc] at hobs ⊢ <;> rw [hr] <;>
    simp [StepCall.isDelete] at hobs ⊢
  exact hs hobs.2

/-- An invocation that observes the resource group in deletion issues no delete, whether or not the
context cuts it short. -/
theorem Run_observes_present_deleting_no_delete {σ : Type}
    (step : DeprovisionAzureEventHubStep σ) (op : UpgradeKymaOperation) (st : σ) (name : String)
    (hobs : StepCall.GetResourceGroup name
      (ResourceGroupReply.group (some ProvisioningStateDeleting)) ∈ (step.Run op st).calls) :
    (step.Run op st).calls.countP StepCall.isDelete = 0 := by
  rcases DeprovisionAzureEventHubStep_Run_paths step op st with
    ⟨_, hc, _, _⟩ | ⟨_, ⟨_, _, hc | ⟨r, hc⟩ | ⟨i, r, hc⟩ | ⟨i, c, r, hk, hc⟩ | ⟨i, c, r, hk, hc⟩ |
        ⟨i, c, r, hk, hc⟩ | ⟨i, c, s2, r, hk, hs2, hc⟩⟩ |
      ⟨m, hc, hr⟩ | ⟨i, m, hc, hr⟩ | ⟨i, c, hk, hc, hr⟩ |
      ⟨i, c, m, hk, hc, hr⟩ | ⟨i, c, hk, hc, hr⟩ | ⟨i, c, m, hk, hc, hr⟩ |
      ⟨i, c, m, hk, hc, hr⟩ | ⟨i, c, hk, hc, hr⟩ | ⟨i, c, hk, hc, hr⟩ |
      ⟨i, c, s2, r, hk, hs2, hc, hr⟩⟩ <;>
    rw [hc] at hobs ⊢ <;>
    simp [StepCall.isDelete] at hobs ⊢
  all_goals exact hs2 hobs.2.symm

/-- An invocation that the context does not cut short and that observes the resource group in
deletion asks for a retry, returning the operation as it is. -/
theorem Run_observes_present_deleting {σ : Type} (step : DeprovisionAzureEventHubStep σ)
    (op : UpgradeKymaOperation) (st : σ) (name : String)
    (hctx : step.Cancelled (step.Run op st).state = false)
    (hobs : StepCall.GetResourceGroup name
      (ResourceGroupReply.group (some ProvisioningStateDeleting)) ∈ (step.Run op st).calls) :
    (step.Run op st).result = (op, retryInterval, none) := by
  rcases DeprovisionAzureEventHubStep_Run_paths_of_not_cancelled step op st hctx with
    ⟨_, hc, hr, _⟩ | ⟨_, ⟨m, hc, hr⟩ | ⟨i, m, hc, hr⟩ | ⟨i, c, hk, hc, hr⟩ |
      ⟨i, c, m, hk, hc, hr⟩ | ⟨i, c, hk, hc, hr⟩ | ⟨i, c, m, hk, hc, hr⟩ |
      ⟨i, c, m, hk, hc, hr⟩ | ⟨i, c, hk, hc, hr⟩ | ⟨i, c, hk, hc, hr⟩ |
      ⟨i, c, s2, r, hk, hs2, hc, hr⟩⟩ <;>
    rw [hc] at hobs <;> rw [hr] <;>
    simp at hobs ⊢

/-- An invocation that the context does not cut short, that observes the resource group as absent
and whose store write is accepted issues no delete and returns the operation with
`eventHub.deleted` set, retry 0 and a nil error. -/
theorem Run_observes_absent {σ : Type} (step : DeprovisionAzureEventHubStep σ)
    (op : UpgradeKymaOperation) (st : σ) (name : String) (written : UpgradeKymaOperation)
    (hctx : step.Cancelled (step.Run op st).state = false)
    (hobs : StepCall.GetResourceGroup name ResourceGroupReply.notFound ∈ (step.Run op st).calls)
    (hstore : StepCall.UpdateOperation written none ∈ (step.Run op st).calls) :
    (step.Run op st).result = (op.withEventHubDeleted, 0, none) ∧
    (step.Run op st).calls.countP StepCall.isDelete = 0 := by
  rcases DeprovisionAzureEventHubStep_Run_paths_of_not_cancelled step op st hctx with
    ⟨_, hc, hr, _⟩ | ⟨_, ⟨m, hc, hr⟩ | ⟨i, m, hc, hr⟩ | ⟨i, c, hk, hc, hr⟩ |
      ⟨i, c, m, hk, hc, hr⟩ | ⟨i, c, hk, hc, hr⟩ | ⟨i, c, m, hk, hc, hr⟩ |
      ⟨i, c, m, hk, hc, hr⟩ | ⟨i, c, hk, hc, hr⟩ | ⟨i, c, hk, hc, hr⟩ |
      ⟨i, c, s2, r, hk, hs2, hc, hr⟩⟩ <;>
    rw [hc] at hobs hstore ⊢ <;> rw [hr] <;>
    simp [StepCall.isDelete] at hobs hstore ⊢

/-- Counterexample to C19: an invocation on an operation whose state is Succeeded observes the
resource group as present with provisioning state "Deleting" and returns a non-zero retry, a nil
error and the state Succeeded; and in the sequence present and active, deleting, absent, run on the
operation of the tests (state unset), the third invocation returns a non-zero retry when the
operation store rejects its write, although exactly one delete was issued overall. -/
theorem Run_deleting_on_succeeded_and_failing_store :
    (StepCall.GetResourceGroup "instance-id"
        (ResourceGroupReply.group (some ProvisioningStateDeleting)) ∈
      ((fixEventHubStepReading (ResourceGroupReply.group (some "Deleting"))).Run fixSucceededOperation ()).calls ∧
     ((fixEventHubStepReading (ResourceGroupReply.group (some "Deleting"))).Run fixSucceededOperation ()).result.2.1 ≠ 0 ∧
     ((fixEventHubStepReading (ResourceGroupReply.group (some "Deleting"))).Run fixSucceededOperation ()).result.2.2 = none ∧
     ((fixEventHubStepReading (ResourceGroupReply.group (some "Deleting"))).Run fixSucceededOperation ()).result.1.Operation.State = Succeeded) ∧
    (fixDeprovisioningOperationWithParameters.Operation.State = "" ∧
     StepCall.GetResourceGroup "instance-id" (ResourceGroupReply.group (some "Succeeded")) ∈
      ((fixEventHubStepReading (ResourceGroupReply.group (some "Succeeded"))).Run fixDeprovisioningOperationWithParameters ()).calls ∧
     StepCall.GetResourceGroup "instance-id"
        (ResourceGroupReply.group (some ProvisioningStateDeleting)) ∈
      ((fixEventHubStepReading (ResourceGroupReply.group (some "Deleting"))).Run
        ((fixEventHubStepReading (ResourceGroupReply.group (some "Succeeded"))).Run fixDeprovisioningOperationWithParameters ()).result.1 ()).calls ∧
     StepCall.GetResourceGroup "instance-id" ResourceGroupReply.notFound ∈
      ((fixEventHubStepFailingStore ResourceGroupReply.notFound).Run
        ((fixEventHubStepReading (ResourceGroupReply.group (some "Deleting"))).Run
        ((fixEventHubStepReading (ResourceGroupReply.group (some "Succeeded"))).Run fixDeprovisioningOperationWithParameters ()).result.1 ()).result.1 ()).calls ∧
     ((fixEventHubStepFailingStore ResourceGroupReply.notFound).Run
        ((fixEventHubStepReading (ResourceGroupReply.group (some "Deleting"))).Run
        ((fixEventHubStepReading (ResourceGroupReply.group (some "Succeeded"))).Run fixDeprovisioningOperationWithParameters ()).result.1 ()).result.1 ()).result.2.1 ≠ 0 ∧
     (((fixEventHubStepReading (ResourceGroupReply.group (some "Succeeded"))).Run fixDeprovisioningOperationWithParameters ()).calls ++
      ((fixEventHubStepReading (ResourceGroupReply.group (some "Deleting"))).Run
        ((fixEventHubStepReading (ResourceGroupReply.group (some "Succeeded"))).Run fixDeprovisioningOperationWithParameters ()).result.1 ()).calls ++
      ((fixEventHubStepFailingStore ResourceGroupReply.notFound).Run
        ((fixEventHubStepReading (ResourceGroupReply.group (some "Deleting"))).Run
        ((fixEventHubStepReading (ResourceGroupReply.group (some "Succeeded"))).Run fixDeprovisioningOperationWithParameters ()).result.1 ()).result.1 ()).calls).countP StepCall.isDelete = 1) := by
  refine ⟨⟨by decide, by decide, by decide, by decide⟩,
    by decide, by decide, by decide, by decide, by decide, by decide⟩

/-- C19, amended (at most one delete): an invocation of `Run` that observes the resource group as
present with provisioning state "Deleting" makes no DeleteResourceGroup call and, when the context
does not cut it short, returns a non-zero retry, a nil error and the state of the input operation,
so a state that is not Succeeded when the input was not Succeeded. And in the sequence where three
invocations, none cut short by the context and each run on the operation the previous one
returned, observe the group as present and active, then as deleting, then as absent, with the
operation store accepting the write of the third and the state of the first input unset, the
retries are non-zero, non-zero and zero, the last error is nil, the last state is unset, and
exactly one delete is issued overall. -/
theorem Run_present_deleting_issues_no_delete {σ : Type}
    (step1 step2 step3 : DeprovisionAzureEventHubStep σ) (op : UpgradeKymaOperation)
    (st1 st2 st3 : σ) (o1 o2 o3 : StepOutcome σ)
    (h1 : o1 = step1.Run op st1) (h2 : o2 = step2.Run o1.result.1 st2)
    (h3 : o3 = step3.Run o2.result.1 st3) :
    (∀ name, StepCall.GetResourceGroup name
        (ResourceGroupReply.group (some ProvisioningStateDeleting)) ∈ o1.calls →
      (∀ c ∈ o1.calls, c.isDelete = false) ∧
      (step1.Cancelled o1.state = false →
        o1.result.2.1 ≠ 0 ∧ o1.result.2.2 = none ∧
        o1.result.1.Operation.State = op.Operation.State ∧
        (op.Operation.State ≠ Succeeded → o1.result.1.Operation.State ≠ Succeeded))) ∧
    (step1.Cancelled o1.state = false → step2.Cancelled o2.state = false →
     step3.Cancelled o3.state = false →
     (∃ name s, s ≠ ProvisioningStateDeleting ∧
        StepCall.GetResourceGroup name (ResourceGroupReply.group (some s)) ∈ o1.calls) →
     (∃ name, StepCall.GetResourceGroup name
        (ResourceGroupReply.group (some ProvisioningStateDeleting)) ∈ o2.calls) →
     (∃ name, StepCall.GetResourceGroup name ResourceGroupReply.notFound ∈ o3.calls) →
     (∃ written, StepCall.UpdateOperation written none ∈ o3.calls) →
     op.Operation.State = "" →
     o1.result.2.1 ≠ 0 ∧ o2.result.2.1 ≠ 0 ∧ o3.result.2 = (0, none) ∧
     o3.result.1.Operation.State = "" ∧
     (o1.calls ++ o2.calls ++ o3.calls).countP StepCall.isDelete = 1) := by
  have hretry := retryInterval_ne_zero
  constructor
  · intro name hobs
    rw [h1] at hobs ⊢
    have hcount := Run_observes_present_deleting_no_delete step1 op st1 name hobs
    refine ⟨?_, ?_⟩
    · intro c hc
      have := List.countP_eq_zero.mp hcount c hc
      simpa using this
    · intro hctx
      have hr := Run_observes_present_deleting step1 op st1 name hctx hobs
      rw [hr]
      exact ⟨hretry, rfl, rfl, id⟩
  · rintro hctx1 hctx2 hctx3 ⟨n1, s, hs, hobs1⟩ ⟨n2, hobs2⟩ ⟨n3, hobs3⟩ ⟨written, hstore⟩ hstate
    rw [h1] at hobs1 hctx1
    obtain ⟨hr1, hc1⟩ := Run_observes_present_active step1 op st1 n1 s hctx1 hs hobs1
    have e1 : o1.result.1 = op := by rw [h1, hr1]
    rw [h2, e1] at hobs2 hctx2
    have hr2 := Run_observes_present_deleting step2 op st2 n2 hctx2 hobs2
    have hc2 := Run_observes_present_deleting_no_delete step2 op st2 n2 hobs2
    have e2 : o2.result.1 = op := by rw [h2, e1, hr2]
    rw [h3, e2] at hobs3 hstore hctx3
    obtain ⟨hr3, hc3⟩ := Run_observes_absent step3 op st3 n3 written hctx3 hobs3 hstore
    refine ⟨?_, ?_, ?_, ?_, ?_⟩
    · rw [h1, hr1]
      exact hretry
    · rw [h2, e1, hr2]
      exact hretry
    · rw [h3, e2, hr3]
    · rw [h3, e2, hr3]
      exact hstate
    · rw [List.countP_append, List.countP_append, h1, hc1, h2, e1, hc2, h3, e2, hc3]

/-- The scenarios of `Test_StepsDeprovisionSucceeded`: the group exists, is in deletion, is gone;
and the operation whose event hub is already deleted. -/
theorem Run_agrees_with_tests :
    ((fixEventHubStepReading (ResourceGroupReply.group (some "Succeeded"))).Run
        fixDeprovisioningOperationWithParameters ()).result
      = (fixDeprovisioningOperationWithParameters, retryInterval, none) ∧
    ((fixEventHubStepReading (ResourceGroupReply.group (some "Deleting"))).Run
        fixDeprovisioningOperationWithParameters ()).result
      = (fixDeprovisioningOperationWithParameters, retryInterval, none) ∧
    ((fixEventHubStepReading (ResourceGroupReply.group (some "Deleting"))).Run
        fixDeprovisioningOperationWithParameters ()).calls.countP StepCall.isDelete = 0 ∧
    ((fixEventHubStepReading ResourceGroupReply.notFound).Run
        fixDeprovisioningOperationWithParameters ()).result
      = (fixDeprovisioningOperationWithParameters.withEventHubDeleted, 0, none) ∧
    ((fixEventHubStepReading ResourceGroupReply.notFound).Run
        fixDeprovisioningOperationWithDeletedEventHub ()).result
      = (fixDeprovisioningOperationWithDeletedEventHub, 0, none) := by
  refine ⟨by decide, by decide, by decide, by decide, by decide⟩

/-- Witness of C19, amended: the three invocations of the test "ResourceGroupInDeletionMode". -/
theorem Run_present_deleting_issues_no_delete_witness :
    (fixEventHubStepReading (ResourceGroupReply.group (some "Succeeded"))).Cancelled
      ((fixEventHubStepReading (ResourceGroupReply.group (some "Succeeded"))).Run
        fixDeprovisioningOperationWithParameters ()).state = false ∧
    (∃ name s, s ≠ ProvisioningStateDeleting ∧
      StepCall.GetResourceGroup name (ResourceGroupReply.group (some s)) ∈
        ((fixEventHubStepReading (ResourceGroupReply.group (some "Succeeded"))).Run
          fixDeprovisioningOperationWithParameters ()).calls) ∧
    (∃ name, StepCall.GetResourceGroup name
        (ResourceGroupReply.group (some ProvisioningStateDeleting)) ∈
        ((fixEventHubStepReading (ResourceGroupReply.group (some "Deleting"))).Run
          ((fixEventHubStepReading (ResourceGroupReply.group (some "Succeeded"))).Run
            fixDeprovisioningOperationWithParameters ()).result.1 ()).calls) ∧
    fixDeprovisioningOperationWithParameters.Operation.State = "" ∧
    (((fixEventHubStepReading (ResourceGroupReply.group (some "Succeeded"))).Run
        fixDeprovisioningOperationWithParameters ()).result.2.1 ≠ 0 ∧
     ((fixEventHubStepReading (ResourceGroupReply.group (some "Deleting"))).Run
        ((fixEventHubStepReading (ResourceGroupReply.group (some "Succeeded"))).Run
          fixDeprovisioningOperationWithParameters ()).result.1 ()).result.2.1 ≠ 0 ∧
     ((fixEventHubStepReading ResourceGroupReply.notFound).Run
        ((fixEventHubStepReading (ResourceGroupReply.group (some "Deleting"))).Run
          ((fixEventHubStepReading (ResourceGroupReply.group (some "Succeeded"))).Run
            fixDeprovisioningOperationWithParameters ()).result.1 ()).result.1 ()).result.2
        = (0, none) ∧
     ((fixEventHubStepReading ResourceGroupReply.notFound).Run
        ((fixEventHubStepReading (ResourceGroupReply.group (some "Deleting"))).Run
          ((fixEventHubStepReading (ResourceGroupReply.group (some "Succeeded"))).Run
            fixDeprovisioningOperationWithParameters ()).result.1 ()).result.1
        ()).result.1.Operation.State = "" ∧
     (((fixEventHubStepReading (ResourceGroupReply.group (some "Succeeded"))).Run
          fixDeprovisioningOperationWithParameters ()).calls ++
       ((fixEventHubStepReading (ResourceGroupReply.group (some "Deleting"))).Run
          ((fixEventHubStepReading (ResourceGroupReply.group (some "Succeeded"))).Run
            fixDeprovisioningOperationWithParameters ()).result.1 ()).calls ++
       ((fixEventHubStepReading ResourceGroupReply.notFound).Run
          ((fixEventHubStepReading (ResourceGroupReply.group (some "Deleting"))).Run
            ((fixEventHubStepReading (ResourceGroupReply.group (some "Succeeded"))).Run
              fixDeprovisioningOperationWithParameters ()).result.1 ()).result.1
          ()).calls).countP StepCall.isDelete = 1) :=
  have hobs1 : ∃ name s, s ≠ ProvisioningStateDeleting ∧
      StepCall.GetResourceGroup name (ResourceGroupReply.group (some s)) ∈
        ((fixEventHubStepReading (ResourceGroupReply.group (some "Succeeded"))).Run
          fixDeprovisioningOperationWithParameters ()).calls :=
    ⟨"instance-id", "Succeeded", by decide, by decide⟩
  have hobs2 : ∃ name, StepCall.GetResourceGroup name
      (ResourceGroupReply.group (some ProvisioningStateDeleting)) ∈
        ((fixEventHubStepReading (ResourceGroupReply.group (some "Deleting"))).Run
          ((fixEventHubStepReading (ResourceGroupReply.group (some "Succeeded"))).Run
            fixDeprovisioningOperationWithParameters ()).result.1 ()).calls :=
    ⟨"instance-id", by decide⟩
  ⟨rfl, hobs1, hobs2, rfl,
    (Run_present_deleting_issues_no_delete
      (fixEventHubStepReading (ResourceGroupReply.group (some "Succeeded")))
      (fixEventHubStepReading (ResourceGroupReply.group (some "Deleting")))
      (fixEventHubStepReading ResourceGroupReply.notFound)
      fixDeprovisioningOperationWithParameters () () () _ _ _ rfl rfl rfl).2 rfl rfl rfl
      hobs1 hobs2
      ⟨"instance-id", by decide⟩
      ⟨fixDeprovisioningOperationWithParameters.withEventHubDeleted, by decide⟩ rfl⟩

/-- Witness of C20, amended: a failing account provider (transient) and a malformed instance
(permanent), under the context of the tests, which is never cancelled. -/
theorem Run_failure_classification_witness :
    (fixEventHubStep (InstanceReply.ok fixInstance)
        (CredentialsReply.error "ups ... gardener credentials could not be retrieved") none
        ResourceGroupReply.notFound none).Cancelled
      ((fixEventHubStep (InstanceReply.ok fixInstance)
        (CredentialsReply.error "ups ... gardener credentials could not be retrieved") none
        ResourceGroupReply.notFound none).Run
        fixDeprovisioningOperationWithParameters ()).state = false ∧
    (StepCall.GardenerCredentials HyperscalerType.Azure ""
        (CredentialsReply.error "ups ... gardener credentials could not be retrieved") ∈
      ((fixEventHubStep (InstanceReply.ok fixInstance)
        (CredentialsReply.error "ups ... gardener credentials could not be retrieved") none
        ResourceGroupReply.notFound none).Run fixDeprovisioningOperationWithParameters ()).calls ∧
     ((fixEventHubStep (InstanceReply.ok fixInstance)
        (CredentialsReply.error "ups ... gardener credentials could not be retrieved") none
        ResourceGroupReply.notFound none).Run
        fixDeprovisioningOperationWithParameters ()).result.2.2 = none ∧
     ((fixEventHubStep (InstanceReply.ok fixInstance)
        (CredentialsReply.error "ups ... gardener credentials could not be retrieved") none
        ResourceGroupReply.notFound none).Run
        fixDeprovisioningOperationWithParameters ()).result.2.1 ≠ 0) ∧
    (StepCall.LoadInstance "instance-id" (InstanceReply.malformed "invalid json") ∈
      ((fixEventHubStep (InstanceReply.malformed "invalid json")
        (CredentialsReply.ok (fixCredentials HyperscalerType.Azure)) none
        ResourceGroupReply.notFound none).Run fixDeprovisioningOperationWithParameters ()).calls ∧
     ((fixEventHubStep (InstanceReply.malformed "invalid json")
        (CredentialsReply.ok (fixCredentials HyperscalerType.Azure)) none
        ResourceGroupReply.notFound none).Run
        fixDeprovisioningOperationWithParameters ()).result.2.1 = 0 ∧
     ((fixEventHubStep (InstanceReply.malformed "invalid json")
        (CredentialsReply.ok (fixCredentials HyperscalerType.Azure)) none
        ResourceGroupReply.notFound none).Run
        fixDeprovisioningOperationWithParameters ()).result.1.Operation.State = Failed) :=
  have ht : StepCall.GardenerCredentials HyperscalerType.Azure ""
        (CredentialsReply.error "ups ... gardener credentials could not be retrieved") ∈
      ((fixEventHubStep (InstanceReply.ok fixInstance)
        (CredentialsReply.error "ups ... gardener credentials could not be retrieved") none
        ResourceGroupReply.notFound none).Run fixDeprovisioningOperationWithParameters ()).calls :=
    by decide
  have hp : StepCall.LoadInstance "instance-id" (InstanceReply.malformed "invalid json") ∈
      ((fixEventHubStep (InstanceReply.malformed "invalid json")
        (CredentialsReply.ok (fixCredentials HyperscalerType.Azure)) none
        ResourceGroupReply.notFound none).Run fixDeprovisioningOperationWithParameters ()).calls :=
    by decide
  have t := (Run_failure_classification
    (fixEventHubStep (InstanceReply.ok fixInstance)
      (CredentialsReply.error "ups ... gardener credentials could not be retrieved") none
      ResourceGroupReply.notFound none) fixDeprovisioningOperationWithParameters () rfl).1.1
    _ _ _ ht
  ⟨rfl, ⟨ht, t.1, t.2.1⟩, hp,
    (Run_failure_classification
      (fixEventHubStep (InstanceReply.malformed "invalid json")
        (CredentialsReply.ok (fixCredentials HyperscalerType.Azure)) none
        ResourceGroupReply.notFound none) fixDeprovisioningOperationWithParameters ()
      rfl).2.1 _ _ hp⟩

/-! ## Call logs of the evaluation monitor manager -/

/-- The delegator calls of `SetStatus`, in closed form: the internal monitor is handed over unless
it is in maintenance in the input; the external monitor is handed over unless it is in maintenance
in the input or the internal call stopped the invocation, and it goes with the operation the
internal call returned when there was one. -/
theorem SetStatus_calls_eq {σ : Type} (delegator : Delegator σ) (s : String)
    (op : UpgradeKymaOperation) (w : World σ) :
    ((NewEvaluationManager delegator).SetStatus s op w).2.calls = w.calls ++
      ((if EvalAssistant.internalEval.IsInMaintenance op.Avs then []
        else [DelegatorCall.SetStatus op EvalAssistant.internalEval s]) ++
       (if EvalAssistant.externalEval.IsInMaintenance op.Avs then []
        else if EvalAssistant.internalEval.IsInMaintenance op.Avs then
          [DelegatorCall.SetStatus op EvalAssistant.externalEval s]
        else if delayOrError (delegator.SetStatus w.state op EvalAssistant.internalEval s).1
          then []
        else [DelegatorCall.SetStatus
          (delegator.SetStatus w.state op EvalAssistant.internalEval s).1.1
          EvalAssistant.externalEval s])) := by
  cases hmi : EvalAssistant.internalEval.IsInMaintenance op.Avs <;>
    cases hme : EvalAssistant.externalEval.IsInMaintenance op.Avs <;>
    simp only [EvaluationManager.SetStatus, NewEvaluationManager, Delegator.callSetStatus, hmi,
      hme, Bool.not_false, Bool.not_true, if_true, if_false, Bool.false_eq_true]
  · cases hdi : delayOrError (delegator.SetStatus w.state op EvalAssistant.internalEval s).1
    · simp only [if_false, Bool.false_eq_true]
      split <;> simp
    · simp
  · split <;> simp
  · split <;> simp
  · simp

/-- The delegator calls of `RestoreStatus`, in closed form: the mirror of `SetStatus_calls_eq`. -/
theorem RestoreStatus_calls_eq {σ : Type} (delegator : Delegator σ)
    (op : UpgradeKymaOperation) (w : World σ) :
    ((NewEvaluationManager delegator).RestoreStatus op w).2.calls = w.calls ++
      ((if EvalAssistant.internalEval.IsInMaintenance op.Avs then
          [DelegatorCall.ResetStatus op EvalAssistant.internalEval]
        else []) ++
       (if EvalAssistant.externalEval.IsInMaintenance op.Avs then
          (if EvalAssistant.internalEval.IsInMaintenance op.Avs then
            (if delayOrError (delegator.ResetStatus w.state op EvalAssistant.internalEval).1
              then []
             else [DelegatorCall.ResetStatus
              (delegator.ResetStatus w.state op EvalAssistant.internalEval).1.1
              EvalAssistant.externalEval])
           else [DelegatorCall.ResetStatus op EvalAssistant.externalEval])
        else [])) := by
  cases hmi : EvalAssistant.internalEval.IsInMaintenance op.Avs <;>
    cases hme : EvalAssistant.externalEval.IsInMaintenance op.Avs <;>
    simp only [EvaluationManager.RestoreStatus, NewEvaluationManager, Delegator.callResetStatus,
      hmi, hme, if_true, if_false, Bool.false_eq_true]
  · simp
  · split <;> simp
  · split <;> simp
  · cases hdi : delayOrError (delegator.ResetStatus w.state op EvalAssistant.internalEval).1
    · simp only [if_false, Bool.false_eq_true]
      split <;> simp
    · simp

/-- C21 (SetStatus skips monitors in maintenance): the delegator calls of `SetStatus s op` are
SetStatus calls with status `s` for monitors that are not in maintenance in the input `op`, the
internal one before the external one; when both monitors are in maintenance it makes no delegator
call and returns `(op, 0, nil)`; when only the internal monitor is in maintenance the single call
is for the external monitor, and when only the external monitor is in maintenance the single call
is for the internal monitor. -/
theorem SetStatus_calls_only_monitors_not_in_maintenance {σ : Type} (delegator : Delegator σ)
    (s : String) (op : UpgradeKymaOperation) (w : World σ) :
    (∃ calls : List DelegatorCall,
      ((NewEvaluationManager delegator).SetStatus s op w).2.calls = w.calls ++ calls ∧
      (∀ c ∈ calls, (∃ o, c = DelegatorCall.SetStatus o c.assistant s) ∧
        c.assistant.IsInMaintenance op.Avs = false) ∧
      (calls.map DelegatorCall.assistant).Sublist
        [EvalAssistant.internalEval, EvalAssistant.externalEval]) ∧
    ((∀ a : EvalAssistant, a.IsInMaintenance op.Avs = true) →
      (NewEvaluationManager delegator).SetStatus s op w = ((op, 0, none), w)) ∧
    (EvalAssistant.internalEval.IsInMaintenance op.Avs = true →
      EvalAssistant.externalEval.IsInMaintenance op.Avs = false →
      ((NewEvaluationManager delegator).SetStatus s op w).2.calls =
        w.calls ++ [DelegatorCall.SetStatus op EvalAssistant.externalEval s]) ∧
    (EvalAssistant.internalEval.IsInMaintenance op.Avs = false →
      EvalAssistant.externalEval.IsInMaintenance op.Avs = true →
      ((NewEvaluationManager delegator).SetStatus s op w).2.calls =
        w.calls ++ [DelegatorCall.SetStatus op EvalAssistant.internalEval s]) := by
  refine ⟨⟨_, SetStatus_calls_eq delegator s op w, ?_, ?_⟩, ?_, ?_, ?_⟩
  · intro c hc
    cases hmi : EvalAssistant.internalEval.IsInMaintenance op.Avs <;>
      cases hme : EvalAssistant.externalEval.IsInMaintenance op.Avs <;>
      simp only [hmi, hme, if_true, if_false, Bool.false_eq_true, List.nil_append,
        List.append_nil, List.not_mem_nil] at hc
    · rcases List.mem_append.mp hc with h | h
      · rw [List.mem_singleton] at h
        subst h
        exact ⟨⟨_, rfl⟩, hmi⟩
      · split at h
        · exact absurd h (List.not_mem_nil _)
        · rw [List.mem_singleton] at h
          subst h
          exact ⟨⟨_, rfl⟩, hme⟩
    · rw [List.mem_singleton] at hc
      subst hc
      exact ⟨⟨_, rfl⟩, hmi⟩
    · rw [List.mem_singleton] at hc
      subst hc
      exact ⟨⟨_, rfl⟩, hme⟩
  · cases hmi : EvalAssistant.internalEval.IsInMaintenance op.Avs <;>
      cases hme : EvalAssistant.externalEval.IsInMaintenance op.Avs <;>
      simp only [if_true, if_false, Bool.false_eq_true, List.nil_append, List.append_nil,
        List.map_nil, List.map_cons]
    · split
      · exact List.Sublist.cons₂ _ (List.nil_sublist _)
      · exact List.Sublist.refl _
    · exact List.Sublist.cons₂ _ (List.nil_sublist _)
    · exact List.Sublist.cons _ (List.Sublist.refl _)
    · exact List.nil_sublist _
  · intro hall
    simp only [EvaluationManager.SetStatus, NewEvaluationManager,
      hall EvalAssistant.internalEval, hall EvalAssistant.externalEval, Bool.not_true, if_false,
      Bool.false_eq_true]
  · intro hmi hme
    rw [SetStatus_calls_eq, hmi, hme]
    simp
  · intro hmi hme
    rw [SetStatus_calls_eq, hmi, hme]
    simp

/-- Witness of C21: the internal monitor is in maintenance, the external one is not. -/
theorem SetStatus_calls_only_monitors_not_in_maintenance_witness :
    EvalAssistant.internalEval.IsInMaintenance
      (fixOperation monitorInMaintenance monitorInactive).Avs = true ∧
    EvalAssistant.externalEval.IsInMaintenance
      (fixOperation monitorInMaintenance monitorInactive).Avs = false ∧
    ((NewEvaluationManager fixDelegator).SetStatus "MAINTENANCE"
      (fixOperation monitorInMaintenance monitorInactive) { state := (), calls := [] }).2.calls =
      [] ++ [DelegatorCall.SetStatus (fixOperation monitorInMaintenance monitorInactive)
        EvalAssistant.externalEval "MAINTENANCE"] :=
  ⟨by decide, by decide,
    (SetStatus_calls_only_monitors_not_in_maintenance fixDelegator "MAINTENANCE"
      (fixOperation monitorInMaintenance monitorInactive) { state := (), calls := [] }).2.2.1
      (by decide) (by decide)⟩

/-- Counterexample to C22: the delegator asks for a retry after 10 and hands the operation back as
it was. The first `SetStatus "MAINTENANCE"` stops at the internal monitor with `(op, 10, nil)`;
the internal monitor is not in maintenance in the returned operation, and the second invocation
on it calls the delegator for the internal monitor again and does not reach the external one. -/
theorem SetStatus_retry_calls_internal_again :
    ((NewEvaluationManager (retryDelegator 10)).SetStatus "MAINTENANCE"
      (fixOperation monitorInactive monitorInactive) { state := (), calls := [] }).1
      = (fixOperation monitorInactive monitorInactive, 10, none) ∧
    ((NewEvaluationManager (retryDelegator 10)).SetStatus "MAINTENANCE"
      (fixOperation monitorInactive monitorInactive) { state := (), calls := [] }).2.calls
      = [DelegatorCall.SetStatus (fixOperation monitorInactive monitorInactive)
          EvalAssistant.internalEval "MAINTENANCE"] ∧
    EvalAssistant.internalEval.IsInMaintenance
      ((NewEvaluationManager (retryDelegator 10)).SetStatus "MAINTENANCE"
        (fixOperation monitorInactive monitorInactive)
        { state := (), calls := [] }).1.1.Avs = false ∧
    ((NewEvaluationManager (retryDelegator 10)).SetStatus "MAINTENANCE"
      ((NewEvaluationManager (retryDelegator 10)).SetStatus "MAINTENANCE"
        (fixOperation monitorInactive monitorInactive) { state := (), calls := [] }).1.1
      { state := (), calls := [] }).2.calls
      = [DelegatorCall.SetStatus (fixOperation monitorInactive monitorInactive)
          EvalAssistant.internalEval "MAINTENANCE"] := by
  refine ⟨by decide, by decide, by decide, by decide⟩

/-- C22, amended (progress under retries): the second invocation `SetStatus s op1` decides from
`op1` alone. If the internal monitor is in maintenance in `op1` it makes no delegator call for the
internal monitor, and when the external monitor is not in maintenance in `op1` its only call is
the one for the external monitor, on `op1`. If the internal monitor is not in maintenance in
`op1`, its first call is again the one for the internal monitor. -/
theorem SetStatus_second_invocation_skips_internal_in_maintenance {σ : Type}
    (delegator : Delegator σ) (s : String) (op1 : UpgradeKymaOperation) (w : World σ) :
    (EvalAssistant.internalEval.IsInMaintenance op1.Avs = true →
      (∀ c ∈ (((NewEvaluationManager delegator).SetStatus s op1 w).2.calls.drop w.calls.length),
        c.assistant ≠ EvalAssistant.internalEval) ∧
      (EvalAssistant.externalEval.IsInMaintenance op1.Avs = false →
        ((NewEvaluationManager delegator).SetStatus s op1 w).2.calls =
          w.calls ++ [DelegatorCall.SetStatus op1 EvalAssistant.externalEval s])) ∧
    (EvalAssistant.internalEval.IsInMaintenance op1.Avs = false →
      ∃ rest, ((NewEvaluationManager delegator).SetStatus s op1 w).2.calls =
        w.calls ++ DelegatorCall.SetStatus op1 EvalAssistant.internalEval s :: rest) := by
  constructor
  · intro hmi
    constructor
    · intro c hc
      rw [SetStatus_calls_eq, List.drop_left, hmi] at hc
      cases hme : EvalAssistant.externalEval.IsInMaintenance op1.Avs <;>
        simp only [hme, if_true, if_false, Bool.false_eq_true, List.nil_append,
          List.not_mem_nil, List.mem_singleton] at hc
      subst hc
      exact fun h => internalEval_ne_externalEval h.symm
    · intro hme
      rw [SetStatus_calls_eq, hmi, hme]
      simp
  · intro hmi
    rw [SetStatus_calls_eq, hmi]
    simp only [if_false, Bool.false_eq_true, List.singleton_append]
    exact ⟨_, rfl⟩

/-- Witness of C22, amended: the delegator records the status and then asks for a retry; the first
invocation stops at the internal monitor, which is in maintenance in the returned operation, and
the second invocation hands over the external monitor only. -/
theorem SetStatus_second_invocation_skips_internal_in_maintenance_witness :
    ((NewEvaluationManager (recordThenRetryDelegator 10)).SetStatus "MAINTENANCE"
      (fixOperation monitorInactive monitorInactive) { state := (), calls := [] }).1
      = (fixOperation monitorSuspended monitorInactive, 10, none) ∧
    EvalAssistant.internalEval.IsInMaintenance
      (fixOperation monitorSuspended monitorInactive).Avs = true ∧
    EvalAssistant.externalEval.IsInMaintenance
      (fixOperation monitorSuspended monitorInactive).Avs = false ∧
    ((NewEvaluationManager (recordThenRetryDelegator 10)).SetStatus "MAINTENANCE"
      (fixOperation monitorSuspended monitorInactive) { state := (), calls := [] }).2.calls =
      [] ++ [DelegatorCall.SetStatus (fixOperation monitorSuspended monitorInactive)
        EvalAssistant.externalEval "MAINTENANCE"] :=
  ⟨by decide, by decide, by decide,
    ((SetStatus_second_invocation_skips_internal_in_maintenance (recordThenRetryDelegator 10)
      "MAINTENANCE" (fixOperation monitorSuspended monitorInactive)
      { state := (), calls := [] }).1 (by decide)).2 (by decide)⟩

/-- C23 (SetStatus threads the operation): when neither monitor is in maintenance in `op` and both
delegator calls return a zero delay and a nil error, the call for the external monitor receives
the operation returned by the call for the internal monitor, and the result is the operation of
that second call with delay 0 and a nil error. And in every invocation, a result with a non-zero
delay or a non-nil error is the triple returned by one of the delegator calls of the
invocation. -/
theorem SetStatus_threads_operation {σ : Type} (delegator : Delegator σ) (s : String)
    (op : UpgradeKymaOperation) (w : World σ) :
    (EvalAssistant.internalEval.IsInMaintenance op.Avs = false →
      EvalAssistant.externalEval.IsInMaintenance op.Avs = false →
      (delegator.SetStatus w.state op EvalAssistant.internalEval s).1.2 = (0, none) →
      (delegator.SetStatus (delegator.SetStatus w.state op EvalAssistant.internalEval s).2
        (delegator.SetStatus w.state op EvalAssistant.internalEval s).1.1
        EvalAssistant.externalEval s).1.2 = (0, none) →
      ((NewEvaluationManager delegator).SetStatus s op w).2.calls = w.calls ++
        [DelegatorCall.SetStatus op EvalAssistant.internalEval s,
         DelegatorCall.SetStatus (delegator.SetStatus w.state op EvalAssistant.internalEval s).1.1
          EvalAssistant.externalEval s] ∧
      ((NewEvaluationManager delegator).SetStatus s op w).1 =
        ((delegator.SetStatus (delegator.SetStatus w.state op EvalAssistant.internalEval s).2
          (delegator.SetStatus w.state op EvalAssistant.internalEval s).1.1
          EvalAssistant.externalEval s).1.1, 0, none) ∧
      ((NewEvaluationManager delegator).SetStatus s op w).2.state =
        (delegator.SetStatus (delegator.SetStatus w.state op EvalAssistant.internalEval s).2
          (delegator.SetStatus w.state op EvalAssistant.internalEval s).1.1
          EvalAssistant.externalEval s).2) ∧
    (((NewEvaluationManager delegator).SetStatus s op w).1.2 ≠ (0, none) →
      (EvalAssistant.internalEval.IsInMaintenance op.Avs = false ∧
        ((NewEvaluationManager delegator).SetStatus s op w).1 =
          (delegator.SetStatus w.state op EvalAssistant.internalEval s).1) ∨
      (EvalAssistant.internalEval.IsInMaintenance op.Avs = true ∧
        EvalAssistant.externalEval.IsInMaintenance op.Avs = false ∧
        ((NewEvaluationManager delegator).SetStatus s op w).1 =
          (delegator.SetStatus w.state op EvalAssistant.externalEval s).1) ∨
      (EvalAssistant.internalEval.IsInMaintenance op.Avs = false ∧
        EvalAssistant.externalEval.IsInMaintenance op.Avs = false ∧
        ((NewEvaluationManager delegator).SetStatus s op w).1 =
          (delegator.SetStatus (delegator.SetStatus w.state op EvalAssistant.internalEval s).2
            (delegator.SetStatus w.state op EvalAssistant.internalEval s).1.1
            EvalAssistant.externalEval s).1)) := by
  constructor
  · intro hmi hme hi he
    have hdi := (delayOrError_eq_false_iff _).mpr hi
    have hde := (delayOrError_eq_false_iff _).mpr he
    simp only [EvaluationManager.SetStatus, NewEvaluationManager, Delegator.callSetStatus, hmi,
      hme, hdi, hde, Bool.not_false, if_true, if_false, Bool.false_eq_true, List.append_assoc,
      List.singleton_append, and_self]
  · intro hne
    cases hmi : EvalAssistant.internalEval.IsInMaintenance op.Avs <;>
      cases hme : EvalAssistant.externalEval.IsInMaintenance op.Avs <;>
      simp only [EvaluationManager.SetStatus, NewEvaluationManager, Delegator.callSetStatus, hmi,
        hme, Bool.not_false, Bool.not_true, if_true, if_false, Bool.false_eq_true] at hne ⊢
    · cases hdi : delayOrError (delegator.SetStatus w.state op EvalAssistant.internalEval s).1
      · simp only [hdi, if_false, Bool.false_eq_true] at hne ⊢
        cases hde : delayOrError (delegator.SetStatus
            (delegator.SetStatus w.state op EvalAssistant.internalEval s).2
            (delegator.SetStatus w.state op EvalAssistant.internalEval s).1.1
            EvalAssistant.externalEval s).1
        · simp only [hde, if_false, Bool.false_eq_true] at hne
          exact absurd rfl hne
        · simp only [hde, if_true]
          exact Or.inr (Or.inr ⟨trivial, trivial, trivial⟩)
      · simp only [hdi, if_true]
        exact Or.inl ⟨trivial, trivial⟩
    · cases hdi : delayOrError (delegator.SetStatus w.state op EvalAssistant.internalEval s).1
      · simp only [hdi, if_false, Bool.false_eq_true] at hne
        exact absurd rfl hne
      · simp only [hdi, if_true]
        exact Or.inl ⟨trivial, trivial⟩
    · cases hde : delayOrError (delegator.SetStatus w.state op EvalAssistant.externalEval s).1
      · simp only [hde, if_false, Bool.false_eq_true] at hne
        exact absurd rfl hne
      · simp only [hde, if_true]
        exact Or.inr (Or.inl ⟨trivial, trivial, trivial⟩)
    · exact absurd rfl hne

/-- Witness of C23: the well-behaved delegator on an operation with both monitors out of
maintenance; the external call receives the operation in which the internal monitor is already
suspended. -/
theorem SetStatus_threads_operation_witness :
    (fixDelegator.SetStatus () (fixOperation monitorInactive monitorInactive)
      EvalAssistant.internalEval "MAINTENANCE").1
      = (fixOperation monitorSuspended monitorInactive, 0, none) ∧
    ((NewEvaluationManager fixDelegator).SetStatus "MAINTENANCE"
      (fixOperation monitorInactive monitorInactive) { state := (), calls := [] }).2.calls = [] ++
      [DelegatorCall.SetStatus (fixOperation monitorInactive monitorInactive)
        EvalAssistant.internalEval "MAINTENANCE",
       DelegatorCall.SetStatus (fixDelegator.SetStatus ()
        (fixOperation monitorInactive monitorInactive) EvalAssistant.internalEval
        "MAINTENANCE").1.1 EvalAssistant.externalEval "MAINTENANCE"] ∧
    ((NewEvaluationManager fixDelegator).SetStatus "MAINTENANCE"
      (fixOperation monitorInactive monitorInactive) { state := (), calls := [] }).1 =
      ((fixDelegator.SetStatus (fixDelegator.SetStatus ()
          (fixOperation monitorInactive monitorInactive) EvalAssistant.internalEval
          "MAINTENANCE").2
        (fixDelegator.SetStatus () (fixOperation monitorInactive monitorInactive)
          EvalAssistant.internalEval "MAINTENANCE").1.1
        EvalAssistant.externalEval "MAINTENANCE").1.1, 0, none) :=
  have h := (SetStatus_threads_operation fixDelegator "MAINTENANCE"
    (fixOperation monitorInactive monitorInactive) { state := (), calls := [] }).1
    (by decide) (by decide) (by decide) (by decide)
  ⟨by decide, h.1, h.2.1⟩

/-- Whether the external monitor is handed to the delegator by `SetStatus`, once the internal
monitor has been skipped or its call has returned a zero delay and a nil error: exactly when the
external monitor is not in maintenance in the input operation. -/
theorem SetStatus_external_called_iff {σ : Type} (delegator : Delegator σ) (s : String)
    (op : UpgradeKymaOperation) (w : World σ)
    (hinternal : (delegator.SetStatus w.state op EvalAssistant.internalEval s).1.2 = (0, none)) :
    (∃ c ∈ ((NewEvaluationManager delegator).SetStatus s op w).2.calls.drop w.calls.length,
        c.assistant = EvalAssistant.externalEval) ↔
      EvalAssistant.externalEval.IsInMaintenance op.Avs = false := by
  have hdi := (delayOrError_eq_false_iff _).mpr hinternal
  rw [SetStatus_calls_eq, List.drop_left, hdi]
  cases hmi : EvalAssistant.internalEval.IsInMaintenance op.Avs <;>
    cases hme : EvalAssistant.externalEval.IsInMaintenance op.Avs <;>
    simp [DelegatorCall.assistant]

/-- Whether the external monitor is handed to the delegator by `RestoreStatus`, once the internal
monitor has been skipped or its call has returned a zero delay and a nil error: exactly when the
external monitor is in maintenance in the input operation. -/
theorem RestoreStatus_external_called_iff {σ : Type} (delegator : Delegator σ)
    (op : UpgradeKymaOperation) (w : World σ)
    (hinternal : (delegator.ResetStatus w.state op EvalAssistant.internalEval).1.2 = (0, none)) :
    (∃ c ∈ ((NewEvaluationManager delegator).RestoreStatus op w).2.calls.drop w.calls.length,
        c.assistant = EvalAssistant.externalEval) ↔
      EvalAssistant.externalEval.IsInMaintenance op.Avs = true := by
  have hdi := (delayOrError_eq_false_iff _).mpr hinternal
  rw [RestoreStatus_calls_eq, List.drop_left, hdi]
  cases hmi : EvalAssistant.internalEval.IsInMaintenance op.Avs <;>
    cases hme : EvalAssistant.externalEval.IsInMaintenance op.Avs <;>
    simp [DelegatorCall.assistant]

/-- C24 (the external decision depends on the input only): for any two delegators, over any
collaborator states, whose calls for the internal monitor both return a zero delay and a nil error,
whatever operations these calls return, `SetStatus s op` hands the external monitor to the
delegator under both or under neither, namely exactly when the external monitor is not in
maintenance in the Avs data of the input `op`; and likewise `RestoreStatus op`, exactly when the
external monitor is in maintenance in the input. -/
theorem external_call_depends_on_input_only {σ₁ σ₂ : Type} (d₁ : Delegator σ₁)
    (d₂ : Delegator σ₂) (s : String) (op : UpgradeKymaOperation) (w₁ : World σ₁)
    (w₂ : World σ₂) :
    ((d₁.SetStatus w₁.state op EvalAssistant.internalEval s).1.2 = (0, none) →
     (d₂.SetStatus w₂.state op EvalAssistant.internalEval s).1.2 = (0, none) →
      ((∃ c ∈ ((NewEvaluationManager d₁).SetStatus s op w₁).2.calls.drop w₁.calls.length,
          c.assistant = EvalAssistant.externalEval) ↔
       (∃ c ∈ ((NewEvaluationManager d₂).SetStatus s op w₂).2.calls.drop w₂.calls.length,
          c.assistant = EvalAssistant.externalEval)) ∧
      ((∃ c ∈ ((NewEvaluationManager d₁).SetStatus s op w₁).2.calls.drop w₁.calls.length,
          c.assistant = EvalAssistant.externalEval) ↔
        EvalAssistant.externalEval.IsInMaintenance op.Avs = false)) ∧
    ((d₁.ResetStatus w₁.state op EvalAssistant.internalEval).1.2 = (0, none) →
     (d₂.ResetStatus w₂.state op EvalAssistant.internalEval).1.2 = (0, none) →
      ((∃ c ∈ ((NewEvaluationManager d₁).RestoreStatus op w₁).2.calls.drop w₁.calls.length,
          c.assistant = EvalAssistant.externalEval) ↔
       (∃ c ∈ ((NewEvaluationManager d₂).RestoreStatus op w₂).2.calls.drop w₂.calls.length,
          c.assistant = EvalAssistant.externalEval)) ∧
      ((∃ c ∈ ((NewEvaluationManager d₁).RestoreStatus op w₁).2.calls.drop w₁.calls.length,
          c.assistant = EvalAssistant.externalEval) ↔
        EvalAssistant.externalEval.IsInMaintenance op.Avs = true)) := by
  constructor
  · intro h₁ h₂
    have e₁ := SetStatus_external_called_iff d₁ s op w₁ h₁
    have e₂ := SetStatus_external_called_iff d₂ s op w₂ h₂
    exact ⟨e₁.trans e₂.symm, e₁⟩
  · intro h₁ h₂
    have e₁ := RestoreStatus_external_called_iff d₁ op w₁ h₁
    have e₂ := RestoreStatus_external_called_iff d₂ op w₂ h₂
    exact ⟨e₁.trans e₂.symm, e₁⟩

/-- Witness of C24: the well-behaved delegator and the delegator that hands the operation back as
it was both succeed on the internal monitor, with different operations, and both hand over the
external monitor. -/
theorem external_call_depends_on_input_only_witness :
    (fixDelegator.SetStatus () (fixOperation monitorInactive monitorInactive)
      EvalAssistant.internalEval "MAINTENANCE").1
      = (fixOperation monitorSuspended monitorInactive, 0, none) ∧
    ((retryDelegator 0).SetStatus () (fixOperation monitorInactive monitorInactive)
      EvalAssistant.internalEval "MAINTENANCE").1
      = (fixOperation monitorInactive monitorInactive, 0, none) ∧
    fixOperation monitorSuspended monitorInactive ≠ fixOperation monitorInactive monitorInactive ∧
    (((∃ c ∈ ((NewEvaluationManager fixDelegator).SetStatus "MAINTENANCE"
          (fixOperation monitorInactive monitorInactive)
          { state := (), calls := [] }).2.calls.drop ([] : List DelegatorCall).length,
          c.assistant = EvalAssistant.externalEval) ↔
       (∃ c ∈ ((NewEvaluationManager (retryDelegator 0)).SetStatus "MAINTENANCE"
          (fixOperation monitorInactive monitorInactive)
          { state := (), calls := [] }).2.calls.drop ([] : List DelegatorCall).length,
          c.assistant = EvalAssistant.externalEval)) ∧
      ((∃ c ∈ ((NewEvaluationManager fixDelegator).SetStatus "MAINTENANCE"
          (fixOperation monitorInactive monitorInactive)
          { state := (), calls := [] }).2.calls.drop ([] : List DelegatorCall).length,
          c.assistant = EvalAssistant.externalEval) ↔
        EvalAssistant.externalEval.IsInMaintenance
          (fixOperation monitorInactive monitorInactive).Avs = false)) :=
  ⟨by decide, by decide, by decide,
    (external_call_depends_on_input_only fixDelegator (retryDelegator 0) "MAINTENANCE"
      (fixOperation monitorInactive monitorInactive) { state := (), calls := [] }
      { state := (), calls := [] }).1 (by decide) (by decide)⟩

/-! ## Frame of the standard and Lite `ApplyParameters` -/

/-- The zones update changes nothing but the Azure zones, and nothing at all when it panics. -/
theorem eraseZones_assignZones (deps : ProviderDeps) (input : Option ClusterConfigInput)
    (value : StringSlice) :
    eraseZones (assignZones deps input value).input = eraseZones input ∧
    ((assignZones deps input value).panicked = true →
      (assignZones deps input value).input = input) := by
  cases input with
  | none => exact ⟨rfl, fun _ => rfl⟩
  | some c =>
    obtain ⟨gc⟩ := c
    cases gc with
    | none => exact ⟨rfl, fun _ => rfl⟩
    | some g =>
      cases hps : g.ProviderSpecificConfig with
      | none => simp [assignZones, hps]
      | some ps =>
        obtain ⟨azc⟩ := ps
        cases azc with
        | none => simp [assignZones, hps]
        | some az => simp [assignZones, hps, eraseZones]

/-- C25 (no region resolution for the standard and Lite plans): for every cluster-config input and
every provisioning parameters, `AzureInput.ApplyParameters` and `AzureLiteInput.ApplyParameters`
leave `GardenerConfig.Region` as it was and change no field other than the Azure zones; their
outcome depends on the provisioning parameters through `Parameters.Zones` only, so neither the
platform region nor the explicit parameter region has any effect. -/
theorem ApplyParameters_standard_and_lite_change_zones_only (deps : ProviderDeps)
    (standard : AzureInput) (lite : AzureLiteInput) (input : Option ClusterConfigInput)
    (pp : ProvisioningParameters) :
    (regionOf (standard.ApplyParameters deps input pp).input = regionOf input ∧
     eraseZones (standard.ApplyParameters deps input pp).input = eraseZones input ∧
     (∀ pp2 : ProvisioningParameters, pp2.Parameters.Zones = pp.Parameters.Zones →
       standard.ApplyParameters deps input pp2 = standard.ApplyParameters deps input pp)) ∧
    (regionOf (lite.ApplyParameters deps input pp).input = regionOf input ∧
     eraseZones (lite.ApplyParameters deps input pp).input = eraseZones input ∧
     (∀ pp2 : ProvisioningParameters, pp2.Parameters.Zones = pp.Parameters.Zones →
       lite.ApplyParameters deps input pp2 = lite.ApplyParameters deps input pp)) := by
  refine ⟨⟨?_, ?_, ?_⟩, ⟨?_, ?_, ?_⟩⟩
  · exact regionOf_assignZones deps input pp.Parameters.Zones
  · exact (eraseZones_assignZones deps input pp.Parameters.Zones).1
  · intro pp2 h
    simp only [AzureInput.ApplyParameters, h]
  · exact regionOf_assignZones deps input pp.Parameters.Zones
  · exact (eraseZones_assignZones deps input pp.Parameters.Zones).1
  · intro pp2 h
    simp only [AzureLiteInput.ApplyParameters, h]

end KEB
